import Mathlib

/-!
SCMI pin control protocol: ownership arbitration and dispatch

A shallow embedding of `module/scmi_pinctrl/src/mod_scmi_pinctrl.c` together with
the declarations of `internal/scmi_pinctrl.h` and `mod_scmi_pinctrl.h`.

Conventions of the embedding:

* `uint32_t` and `size_t` values are natural numbers; a 32-bit word read from a
  payload is reduced modulo `2 ^ 32`.
* A C array is a list.  A read outside the list yields no determined value: the
  handler stops with `Exit.fault`.  A store outside the list leaves the list as
  it is and is recorded in the outcome; the handler goes on.  What such a store
  can overwrite is bounded by `clobbered`.
* A handler run is an `Outcome`: how the C function left (`Exit`), the module
  context afterwards, the responses handed to the transport, in order, and the
  stores made past the end of an array.
* A loop takes a fuel argument; a run that uses all of it ends with
  `Exit.out_of_fuel`.
* Declarations that the module includes from headers outside this source tree
  (`internal/scmi.h`, `mod_scmi.h`, `fwk_status.h`) are either the fields of
  `Platform` or marked as modelled.
-/

namespace ScmiPinctrl

/-! ## internal/scmi_pinctrl.h -/

def SCMI_PROTOCOL_VERSION_PIN_CONTROL : Nat := 0x10000

def SCMI_PINCTRL_PIN_STATE_RELEASED : Nat := 0

def SCMI_PINCTRL_NO_OWNER : Nat := 0xffff

def SCMI_PINCTRL_NO_FUNCTION : Nat := 0xffff

def SCMI_PINCTRL_IDENTIFIER_MASK : Nat := 0xffff

def SCMI_PINCTRL_SELECTOR_MASK : Nat := 0x3

def SCMI_PINCTRL_SELECTOR_PIN : Nat := 0x0

def SCMI_PINCTRL_SELECTOR_GROUP : Nat := 0x1

def SCMI_PINCTRL_SELECTOR_FUNCTION : Nat := 0x2

def SCMI_PINCTRL_PROTOCOL_ATTRIBUTES_GROUP_POS : Nat := 16

def SCMI_PINCTRL_EXTENDED_NAME_POS : Nat := 31

def SCMI_PINCTRL_EXTENDED_NAME_MASK : Nat := 0x1 <<< SCMI_PINCTRL_EXTENDED_NAME_POS

def SCMI_PINCTRL_ATTR_NUM_PINS_MASK : Nat := 0xffff

def SCMI_PINCTRL_NAME_LENGTH_MAX : Nat := 16

def SCMI_PINCTRL_LIST_NUM_PINS_MASK : Nat := 0xfff

def SCMI_PINCTRL_EXTENDED_NAME_LENGTH_MAX : Nat := 64

/-- The struct scmi_pinctrl_config_state: one (type, value) configuration pair. -/
structure scmi_pinctrl_config_state where
  type : Nat
  value : Nat
deriving DecidableEq, Repr

/-- The struct scmi_pinctrl_pingrp_state: the run-time record of one pin or group.
The `api` pointer of the C struct is never read or written by the module and
is left out. -/
structure scmi_pinctrl_pingrp_state where
  state : Nat
  owner_agent : Nat
  function : Nat
  config : List scmi_pinctrl_config_state
deriving DecidableEq, Repr

/-- The struct scmi_pinctrl_context: the two state arrays of the module. -/
structure scmi_pinctrl_context where
  pin_state : List scmi_pinctrl_pingrp_state
  group_state : List scmi_pinctrl_pingrp_state
deriving DecidableEq, Repr

/-! ## mod_scmi_pinctrl.h -/

def SCMI_PINCTRL_CONFIG_COUNT : Nat := 0x20

/-- The struct scmi_pinctrl_pin_data.  A name is the byte string the `name`
pointer refers to, without its terminating NUL. -/
structure scmi_pinctrl_pin_data where
  name : List Nat
  drv_id : Nat
  agent_permission : Nat
deriving DecidableEq, Repr

/-- The struct scmi_pinctrl_group_data: `pins` is the array behind the pointer,
`pins_count` the separately stored count. -/
structure scmi_pinctrl_group_data where
  name : List Nat
  pins : List Nat
  pins_count : Nat
  agent_permission : Nat
deriving DecidableEq, Repr

/-- The struct scmi_pinctrl_function_data. -/
structure scmi_pinctrl_function_data where
  name : List Nat
  groups : List Nat
  groups_count : Nat
  agent_permission : Nat
deriving DecidableEq, Repr

/-- The struct mod_scmi_pinctrl_config.  Each table is the array behind the
pointer; the counts are stored next to it, as in C.  The driver table is never
used by the module and is left out. -/
structure mod_scmi_pinctrl_config where
  pin_table : List scmi_pinctrl_pin_data
  pin_count : Nat
  group_table : List scmi_pinctrl_group_data
  group_count : Nat
  function_table : List scmi_pinctrl_function_data
  function_count : Nat
  config_count : Nat
deriving DecidableEq, Repr

/-! ## Declarations from headers outside the source tree -/

/-- Modelled from the spec: the enum scmi_error of internal/scmi.h is not part of
the sources.  The constants the module uses are distinct status codes; the
spec lists them in its error taxonomy. -/
inductive scmi_error where
  | SCMI_SUCCESS
  | SCMI_NOT_SUPPORTED
  | SCMI_INVALID_PARAMETERS
  | SCMI_DENIED
  | SCMI_NOT_FOUND
  | SCMI_PROTOCOL_ERROR
  | SCMI_IN_USE
deriving DecidableEq, Repr

/-- Modelled from the spec: the framework status codes of fwk_status.h are not
part of the sources.  `FWK_E_OTHER` stands for every code the module does not
name itself (a resolver or transport may return one). -/
inductive fwk_status where
  | FWK_SUCCESS
  | FWK_E_PARAM
  | FWK_E_NOMEM
  | FWK_E_ACCESS
  | FWK_E_OTHER (code : Nat)
deriving DecidableEq, Repr

/-- The twelve entries of `handler_table`. -/
inductive Handler where
  | protocol_version
  | negotiate_protocol_version
  | protocol_attributes
  | protocol_message_attributes
  | attributes
  | list_assoc
  | settings_get
  | settings_configure
  | request
  | release
  | name_get
  | set_permissions
deriving DecidableEq, Repr

/-- Constants the module takes from `mod_scmi.h` and `internal/scmi.h`, which are
not part of the sources: the command identifiers that index the two tables,
the size of the tables, the number of agent types and the sizes of four
message structs. -/
structure Platform where
  MOD_SCMI_PROTOCOL_VERSION : Nat
  MOD_SCMI_NEGOTIATE_PROTOCOL_VERSION : Nat
  MOD_SCMI_PROTOCOL_ATTRIBUTES : Nat
  MOD_SCMI_PROTOCOL_MESSAGE_ATTRIBUTES : Nat
  MOD_SCMI_PIN_CONTROL_ATTRIBUTES : Nat
  MOD_SCMI_PIN_CONTROL_LIST_ASSOCIATIONS : Nat
  MOD_SCMI_PIN_CONTROL_SETTINGS_GET : Nat
  MOD_SCMI_PIN_CONTROL_SETTINGS_CONFIGURE : Nat
  MOD_SCMI_PIN_CONTROL_REQUEST : Nat
  MOD_SCMI_PIN_CONTROL_RELEASE : Nat
  MOD_SCMI_PIN_CONTROL_NAME_GET : Nat
  MOD_SCMI_PIN_CONTROL_SET_PERMISSIONS : Nat
  MOD_SCMI_PIN_CONTROL_COMMAND_COUNT : Nat
  SCMI_AGENT_TYPE_COUNT : Nat
  sizeof_scmi_protocol_version_p2a : Nat
  sizeof_scmi_negotiate_protocol_version_a2p : Nat
  sizeof_scmi_protocol_message_attributes_a2p : Nat
  sizeof_scmi_protocol_message_attributes_p2a : Nat
deriving DecidableEq, Repr

/-- The object a handler hands to `respond`, by the C type it has. -/
inductive ResponsePayload where
  | return_value (status : scmi_error)
  | protocol_version (status : scmi_error) (version : Nat)
  | protocol_attributes (status : scmi_error) (attributes_low attributes_high : Nat)
  | message_attributes (status : scmi_error) (attributes : Nat)
  | attributes (status : scmi_error) (attributes : Nat) (name : List Nat)
  | list_assoc (status : scmi_error) (flags : Option Nat) (array : List Nat)
  | name_get (status : scmi_error) (flags : Nat) (name : List Nat)
deriving DecidableEq, Repr

/-- One call of `scmi_api->respond`: the object and the byte count passed. -/
structure Response where
  payload : ResponsePayload
  size : Nat
deriving DecidableEq, Repr

/-- The status field of a response object. -/
def ResponsePayload.status : ResponsePayload → scmi_error
  | .return_value s => s
  | .protocol_version s _ => s
  | .protocol_attributes s _ _ => s
  | .message_attributes s _ => s
  | .attributes s _ _ => s
  | .list_assoc s _ _ => s
  | .name_get s _ _ => s

/-- The struct mod_scmi_from_protocol_api as far as the module calls it:
`get_agent_id` maps a service identifier to the returned status and the agent
identifier it writes, `respond_status` is the status `respond` returns for a
response, and `malloc_ok` tells whether `malloc` of a byte count succeeds. -/
structure mod_scmi_from_protocol_api where
  get_agent_id : Nat → fwk_status × Nat
  respond_status : Nat → Response → fwk_status
  malloc_ok : Nat → Bool

/-- How a run of a C function ends. -/
inductive Exit where
  | returned (status : fwk_status)
  | fault
  | out_of_fuel
deriving DecidableEq, Repr

/-- The observable result of running a handler: how it ends, the two state
arrays it leaves, the responses it sent, and the stores it made through
`group_state[id]` with `id` past the end of that array, each as the index and
the value stored.  Such a store lands outside the array, in memory whose layout
the source does not fix. -/
structure Outcome where
  exit : Exit
  ctx : scmi_pinctrl_context
  responses : List Response
  stray_stores : List (Nat × Nat)
deriving DecidableEq, Repr

/-! ## Helpers for the C idioms of the module -/

/-- A 32-bit word of the request payload: `payload[i]` for `const uint32_t *payload`. -/
def payload_word (payload : Nat → Nat) (i : Nat) : Nat :=
  payload i % 2 ^ 32

/-- The permission test `agent_permission & (0x1 << agent_id)` as a truth value.
Every handler calls it with `agent_id < SCMI_AGENT_TYPE_COUNT` only; the shift is
the C one as long as `agent_id` is below the width of `int`. -/
def permitted (agent_permission agent_id : Nat) : Bool :=
  (agent_permission &&& (0x1 <<< agent_id)) != 0

/-- The call `scmi_api->respond(service_id, &object, size)` as the last action of
a handler: the response is recorded and the status of the transport returned. -/
def respond (api : mod_scmi_from_protocol_api) (service_id : Nat)
    (ctx : scmi_pinctrl_context) (payload : ResponsePayload) (size : Nat) : Outcome :=
  { exit := Exit.returned (api.respond_status service_id ⟨payload, size⟩)
    ctx := ctx
    responses := [⟨payload, size⟩]
    stray_stores := [] }

/-- The call `scmi_api->respond(service_id, &object, size)` as the last action of
a handler that has stored `value` to the owner field of `group_state[index]`
with `index` past the end of the array: the two state arrays are as before, the
store is recorded, the response is sent and the status of the transport
returned. -/
def respond_after_stray_store (api : mod_scmi_from_protocol_api) (service_id : Nat)
    (ctx : scmi_pinctrl_context) (index value : Nat) (payload : ResponsePayload) (size : Nat) :
    Outcome :=
  { exit := Exit.returned (api.respond_status service_id ⟨payload, size⟩)
    ctx := ctx
    responses := [⟨payload, size⟩]
    stray_stores := [(index, value)] }

/-- A handler that returns a framework status without responding. -/
def return_status (ctx : scmi_pinctrl_context) (status : fwk_status) : Outcome :=
  { exit := Exit.returned status, ctx := ctx, responses := [], stray_stores := [] }

/-- A handler stopped by a read outside an array or a call through NULL. -/
def memory_fault (ctx : scmi_pinctrl_context) : Outcome :=
  { exit := Exit.fault, ctx := ctx, responses := [], stray_stores := [] }

/-- A handler that is still looping when the fuel is used up. -/
def no_fuel (ctx : scmi_pinctrl_context) : Outcome :=
  { exit := Exit.out_of_fuel, ctx := ctx, responses := [], stray_stores := [] }

/-- The C string at a name pointer: the bytes before the first NUL. -/
def c_string (name : List Nat) : List Nat :=
  name.takeWhile (fun b => b != 0)

/-- The function `strlen`. -/
def strlen (name : List Nat) : Nat :=
  (c_string name).length

/-- The `n` bytes that `strncpy(dst, src, n)` writes: the string, cut at `n`
bytes, padded with NUL bytes up to `n`. -/
def strncpy (src : List Nat) (n : Nat) : List Nat :=
  (c_string src).take n ++ List.replicate (n - (c_string src).length) 0

/-! ## The two tables of the dispatcher -/

/-- The array `handler_table`: `MOD_SCMI_PIN_CONTROL_COMMAND_COUNT` entries, NULL
where no designated initialiser names the index; a later initialiser of the
same index replaces an earlier one. -/
def handler_table (p : Platform) : List (Option Handler) :=
  (((((((((((((List.replicate p.MOD_SCMI_PIN_CONTROL_COMMAND_COUNT (none : Option Handler)
    ).set p.MOD_SCMI_PROTOCOL_VERSION (some Handler.protocol_version)
    ).set p.MOD_SCMI_NEGOTIATE_PROTOCOL_VERSION (some Handler.negotiate_protocol_version)
    ).set p.MOD_SCMI_PROTOCOL_ATTRIBUTES (some Handler.protocol_attributes)
    ).set p.MOD_SCMI_PROTOCOL_MESSAGE_ATTRIBUTES (some Handler.protocol_message_attributes)
    ).set p.MOD_SCMI_PIN_CONTROL_ATTRIBUTES (some Handler.attributes)
    ).set p.MOD_SCMI_PIN_CONTROL_LIST_ASSOCIATIONS (some Handler.list_assoc)
    ).set p.MOD_SCMI_PIN_CONTROL_SETTINGS_GET (some Handler.settings_get)
    ).set p.MOD_SCMI_PIN_CONTROL_SETTINGS_CONFIGURE (some Handler.settings_configure)
    ).set p.MOD_SCMI_PIN_CONTROL_REQUEST (some Handler.request)
    ).set p.MOD_SCMI_PIN_CONTROL_RELEASE (some Handler.release)
    ).set p.MOD_SCMI_PIN_CONTROL_NAME_GET (some Handler.name_get)
    ).set p.MOD_SCMI_PIN_CONTROL_SET_PERMISSIONS (some Handler.set_permissions))

/-- The array `payload_size_table`, with the `sizeof` of each request struct:
two 32-bit words for attributes, settings get, request, release and name get,
three for list associations, settings configure (its trailing array is empty)
and set permissions. -/
def payload_size_table (p : Platform) : List Nat :=
  (((((((((((((List.replicate p.MOD_SCMI_PIN_CONTROL_COMMAND_COUNT 0
    ).set p.MOD_SCMI_PROTOCOL_VERSION 0
    ).set p.MOD_SCMI_NEGOTIATE_PROTOCOL_VERSION p.sizeof_scmi_negotiate_protocol_version_a2p
    ).set p.MOD_SCMI_PROTOCOL_ATTRIBUTES 0
    ).set p.MOD_SCMI_PROTOCOL_MESSAGE_ATTRIBUTES p.sizeof_scmi_protocol_message_attributes_a2p
    ).set p.MOD_SCMI_PIN_CONTROL_ATTRIBUTES 8
    ).set p.MOD_SCMI_PIN_CONTROL_LIST_ASSOCIATIONS 12
    ).set p.MOD_SCMI_PIN_CONTROL_SETTINGS_GET 8
    ).set p.MOD_SCMI_PIN_CONTROL_SETTINGS_CONFIGURE 12
    ).set p.MOD_SCMI_PIN_CONTROL_REQUEST 8
    ).set p.MOD_SCMI_PIN_CONTROL_RELEASE 8
    ).set p.MOD_SCMI_PIN_CONTROL_NAME_GET 8
    ).set p.MOD_SCMI_PIN_CONTROL_SET_PERMISSIONS 12)

/-! ## Message handlers -/

/-- Handler of the protocol version command. -/
def scmi_pinctrl_protocol_version_handler (p : Platform) (api : mod_scmi_from_protocol_api)
    (ctx : scmi_pinctrl_context) (service_id : Nat) (_payload : Nat → Nat) : Outcome :=
  respond api service_id ctx
    (ResponsePayload.protocol_version scmi_error.SCMI_SUCCESS SCMI_PROTOCOL_VERSION_PIN_CONTROL)
    p.sizeof_scmi_protocol_version_p2a

/-- Handler of the negotiate protocol version command. -/
def scmi_pinctrl_negotiate_protocol_version_handler (api : mod_scmi_from_protocol_api)
    (ctx : scmi_pinctrl_context) (service_id : Nat) (payload : Nat → Nat) : Outcome :=
  let version := payload_word payload 0
  let return_value :=
    if version ≠ SCMI_PROTOCOL_VERSION_PIN_CONTROL then scmi_error.SCMI_NOT_SUPPORTED
    else scmi_error.SCMI_SUCCESS
  respond api service_id ctx (ResponsePayload.return_value return_value) 4

/-- One counting loop of the protocol attributes handler,
`for (i = 0, n = 0; i < count; ) if (table[i].agent_permission & (0x1 << agent_id)) n++;`
where `perm_at i` is the permission mask of `table[i]` when the index is inside
the table.  The loop header has no increment, so `i` is passed on unchanged. -/
def count_loop (count : Nat) (perm_at : Nat → Option Nat) (agent_id : Nat) :
    Nat → Nat → Nat → Except Exit Nat
  | 0, _, _ => Except.error Exit.out_of_fuel
  | fuel + 1, i, n =>
    if i < count then
      match perm_at i with
      | none => Except.error Exit.fault
      | some perm =>
        count_loop count perm_at agent_id fuel i
          (if permitted perm agent_id then (n + 1) % 2 ^ 32 else n)
    else Except.ok n

/-- Handler of the protocol attributes command.  Each of the three loops runs on
the given fuel. -/
def scmi_pinctrl_protocol_attributes_handler (p : Platform) (api : mod_scmi_from_protocol_api)
    (cfg : mod_scmi_pinctrl_config) (fuel : Nat)
    (ctx : scmi_pinctrl_context) (service_id : Nat) (_payload : Nat → Nat) : Outcome :=
  let r := api.get_agent_id service_id
  if r.1 ≠ fwk_status.FWK_SUCCESS then return_status ctx r.1
  else if r.2 ≥ p.SCMI_AGENT_TYPE_COUNT then return_status ctx fwk_status.FWK_E_PARAM
  else
    let agent_id := r.2
    match count_loop cfg.pin_count
        (fun i => (cfg.pin_table[i]?).map (fun e => e.agent_permission)) agent_id fuel 0 0 with
    | Except.error e => { exit := e, ctx := ctx, responses := [], stray_stores := [] }
    | Except.ok pin_count =>
    match count_loop cfg.group_count
        (fun i => (cfg.group_table[i]?).map (fun e => e.agent_permission)) agent_id fuel 0 0 with
    | Except.error e => { exit := e, ctx := ctx, responses := [], stray_stores := [] }
    | Except.ok group_count =>
    match count_loop cfg.function_count
        (fun i => (cfg.function_table[i]?).map (fun e => e.agent_permission)) agent_id fuel 0 0 with
    | Except.error e => { exit := e, ctx := ctx, responses := [], stray_stores := [] }
    | Except.ok function_count =>
      let attributes_low :=
        (((group_count &&& 0xffff) <<< SCMI_PINCTRL_PROTOCOL_ATTRIBUTES_GROUP_POS)
          + (pin_count &&& 0xffff)) % 2 ^ 32
      let attributes_high := function_count &&& 0xffff
      respond api service_id ctx
        (ResponsePayload.protocol_attributes scmi_error.SCMI_SUCCESS attributes_low attributes_high)
        4

/-- Handler of the protocol message attributes command. -/
def scmi_pinctrl_protocol_message_attributes_handler (p : Platform)
    (api : mod_scmi_from_protocol_api)
    (ctx : scmi_pinctrl_context) (service_id : Nat) (payload : Nat → Nat) : Outcome :=
  let message_id := payload_word payload 0
  let status :=
    if message_id ≥ (handler_table p).length ∨ ((handler_table p)[message_id]?).join = none
    then scmi_error.SCMI_NOT_FOUND
    else scmi_error.SCMI_SUCCESS
  respond api service_id ctx (ResponsePayload.message_attributes status 0)
    p.sizeof_scmi_protocol_message_attributes_p2a

/-- The body shared by the three cases of the attributes handler once the table
entry is read: permission test, extended-name flag, short name, member count.
The attributes word starts at 0 and is only ever combined with `&=`. -/
def attributes_case (api : mod_scmi_from_protocol_api) (ctx : scmi_pinctrl_context)
    (service_id : Nat) (agent_id : Nat) (agent_permission : Nat) (name : List Nat)
    (member_count : Nat) : Outcome :=
  if ¬ permitted agent_permission agent_id then
    respond api service_id ctx
      (ResponsePayload.attributes scmi_error.SCMI_NOT_FOUND 0
        (List.replicate SCMI_PINCTRL_NAME_LENGTH_MAX 0)) 24
  else
    let attributes0 : Nat := 0
    let attributes1 :=
      if strlen name > SCMI_PINCTRL_NAME_LENGTH_MAX - 1
      then attributes0 &&& SCMI_PINCTRL_EXTENDED_NAME_MASK else attributes0
    let name_field :=
      (strncpy name SCMI_PINCTRL_NAME_LENGTH_MAX).set (SCMI_PINCTRL_NAME_LENGTH_MAX - 1) 0
    let attributes2 := (attributes1 &&& member_count) % 2 ^ 32
    respond api service_id ctx
      (ResponsePayload.attributes scmi_error.SCMI_SUCCESS attributes2 name_field) 24

/-- Handler of the pin control attributes command.  The identifier is not
compared with a count before the table is indexed. -/
def scmi_pinctrl_attributes_handler (p : Platform) (api : mod_scmi_from_protocol_api)
    (cfg : mod_scmi_pinctrl_config)
    (ctx : scmi_pinctrl_context) (service_id : Nat) (payload : Nat → Nat) : Outcome :=
  let r := api.get_agent_id service_id
  if r.1 ≠ fwk_status.FWK_SUCCESS then return_status ctx r.1
  else if r.2 ≥ p.SCMI_AGENT_TYPE_COUNT then return_status ctx fwk_status.FWK_E_PARAM
  else
    let agent_id := r.2
    let id := payload_word payload 0 &&& 0xffff
    let selector := payload_word payload 1 &&& SCMI_PINCTRL_SELECTOR_MASK
    if selector = SCMI_PINCTRL_SELECTOR_PIN then
      match cfg.pin_table[id]? with
      | none => memory_fault ctx
      | some e => attributes_case api ctx service_id agent_id e.agent_permission e.name 1
    else if selector = SCMI_PINCTRL_SELECTOR_GROUP then
      match cfg.group_table[id]? with
      | none => memory_fault ctx
      | some e =>
        attributes_case api ctx service_id agent_id e.agent_permission e.name e.pins_count
    else if selector = SCMI_PINCTRL_SELECTOR_FUNCTION then
      match cfg.function_table[id]? with
      | none => memory_fault ctx
      | some e =>
        attributes_case api ctx service_id agent_id e.agent_permission e.name e.groups_count
    else
      respond api service_id ctx
        (ResponsePayload.attributes scmi_error.SCMI_NOT_FOUND 0
          (List.replicate SCMI_PINCTRL_NAME_LENGTH_MAX 0)) 24

/-- The body shared by the two cases of the list associations handler once the
table entry is read.  On the error paths the response object is the local
`return_values_data`, whose flags word is never written (`none`).  On success
the object is allocated, the flags word is the low 12 bits of
`member_count - index` and that many entries are copied from `members[index]`
on.  The byte count passed to respond is `sizeof(*return_values)`, 8. -/
def list_assoc_case (api : mod_scmi_from_protocol_api) (ctx : scmi_pinctrl_context)
    (service_id : Nat) (agent_id : Nat) (agent_permission : Nat) (members : List Nat)
    (member_count : Nat) (index : Nat) : Outcome :=
  if ¬ permitted agent_permission agent_id then
    respond api service_id ctx (ResponsePayload.list_assoc scmi_error.SCMI_DENIED none []) 8
  else if index ≥ member_count then
    respond api service_id ctx
      (ResponsePayload.list_assoc scmi_error.SCMI_INVALID_PARAMETERS none []) 8
  else if ¬ api.malloc_ok (8 + 2 * (member_count - index)) then
    return_status ctx fwk_status.FWK_E_NOMEM
  else
    let n := (member_count - index) &&& 0xfff
    if index + n > members.length then memory_fault ctx
    else
      respond api service_id ctx
        (ResponsePayload.list_assoc scmi_error.SCMI_SUCCESS (some n)
          ((members.drop index).take n)) 8

/-- Handler of the pin control list associations command.  Both the group and
the function case compare the identifier with `group_count`. -/
def scmi_pinctrl_list_assoc_handler (p : Platform) (api : mod_scmi_from_protocol_api)
    (cfg : mod_scmi_pinctrl_config)
    (ctx : scmi_pinctrl_context) (service_id : Nat) (payload : Nat → Nat) : Outcome :=
  let r := api.get_agent_id service_id
  if r.1 ≠ fwk_status.FWK_SUCCESS then return_status ctx r.1
  else if r.2 ≥ p.SCMI_AGENT_TYPE_COUNT then return_status ctx fwk_status.FWK_E_PARAM
  else
    let agent_id := r.2
    let id := payload_word payload 0 &&& 0xffff
    let index := payload_word payload 2
    let selector := payload_word payload 1 &&& SCMI_PINCTRL_SELECTOR_MASK
    if selector = SCMI_PINCTRL_SELECTOR_GROUP then
      if id ≥ cfg.group_count then
        respond api service_id ctx
          (ResponsePayload.list_assoc scmi_error.SCMI_NOT_FOUND none []) 8
      else
        match cfg.group_table[id]? with
        | none => memory_fault ctx
        | some e =>
          list_assoc_case api ctx service_id agent_id e.agent_permission e.pins e.pins_count index
    else if selector = SCMI_PINCTRL_SELECTOR_FUNCTION then
      if id ≥ cfg.group_count then
        respond api service_id ctx
          (ResponsePayload.list_assoc scmi_error.SCMI_NOT_FOUND none []) 8
      else
        match cfg.function_table[id]? with
        | none => memory_fault ctx
        | some e =>
          list_assoc_case api ctx service_id agent_id e.agent_permission e.groups e.groups_count
            index
    else
      respond api service_id ctx
        (ResponsePayload.list_assoc scmi_error.SCMI_INVALID_PARAMETERS none []) 8

/-- Handler of the settings get command: a stub that returns without responding. -/
def scmi_pinctrl_settings_get_handler
    (ctx : scmi_pinctrl_context) (_service_id : Nat) (_payload : Nat → Nat) : Outcome :=
  return_status ctx fwk_status.FWK_SUCCESS

/-- Handler of the settings configure command: a stub that returns without responding. -/
def scmi_pinctrl_settings_configure_handler
    (ctx : scmi_pinctrl_context) (_service_id : Nat) (_payload : Nat → Nat) : Outcome :=
  return_status ctx fwk_status.FWK_SUCCESS

/-- Handler of the pin control request command. -/
def scmi_pinctrl_request_handler (p : Platform) (api : mod_scmi_from_protocol_api)
    (cfg : mod_scmi_pinctrl_config)
    (ctx : scmi_pinctrl_context) (service_id : Nat) (payload : Nat → Nat) : Outcome :=
  let r := api.get_agent_id service_id
  if r.1 ≠ fwk_status.FWK_SUCCESS then return_status ctx r.1
  else if r.2 ≥ p.SCMI_AGENT_TYPE_COUNT then return_status ctx fwk_status.FWK_E_PARAM
  else
    let agent_id := r.2
    let id := payload_word payload 0 &&& 0xffff
    let selector := payload_word payload 1 &&& SCMI_PINCTRL_SELECTOR_MASK
    if selector = SCMI_PINCTRL_SELECTOR_PIN then
      if id ≥ cfg.pin_count then
        respond api service_id ctx (ResponsePayload.return_value scmi_error.SCMI_NOT_FOUND) 4
      else
        match cfg.pin_table[id]? with
        | none => memory_fault ctx
        | some e =>
          if ¬ permitted e.agent_permission agent_id then
            respond api service_id ctx (ResponsePayload.return_value scmi_error.SCMI_DENIED) 4
          else
            match ctx.pin_state[id]? with
            | none => memory_fault ctx
            | some st =>
              if st.owner_agent ≠ SCMI_PINCTRL_NO_OWNER then
                respond api service_id ctx (ResponsePayload.return_value scmi_error.SCMI_IN_USE) 4
              else
                respond api service_id
                  { ctx with pin_state := ctx.pin_state.set id { st with owner_agent := agent_id } }
                  (ResponsePayload.return_value scmi_error.SCMI_SUCCESS) 4
    else if selector = SCMI_PINCTRL_SELECTOR_GROUP then
      if id ≥ cfg.group_count then
        respond api service_id ctx (ResponsePayload.return_value scmi_error.SCMI_NOT_FOUND) 4
      else
        match cfg.group_table[id]? with
        | none => memory_fault ctx
        | some e =>
          if ¬ permitted e.agent_permission agent_id then
            respond api service_id ctx (ResponsePayload.return_value scmi_error.SCMI_DENIED) 4
          else
            match ctx.group_state[id]? with
            | none => memory_fault ctx
            | some st =>
              if st.owner_agent ≠ SCMI_PINCTRL_NO_OWNER then
                respond api service_id ctx (ResponsePayload.return_value scmi_error.SCMI_IN_USE) 4
              else
                respond api service_id
                  { ctx with
                    group_state := ctx.group_state.set id { st with owner_agent := agent_id } }
                  (ResponsePayload.return_value scmi_error.SCMI_SUCCESS) 4
    else
      respond api service_id ctx
        (ResponsePayload.return_value scmi_error.SCMI_INVALID_PARAMETERS) 4

/-- Handler of the pin control release command.  In the pin case the first test
reads `pin_state[id]`, while the store and the second test use
`group_state[id]`, as the source has it; `id` has only been checked against
`pin_count`.  When the caller owns the pin and `id` is past the end of
`group_state`, the store is made all the same, outside the array, and the
handler goes on to respond `SCMI_SUCCESS`.  The second test reads the owner
field; past the end of the array the value read is not determined and the
model stops there. -/
def scmi_pinctrl_release_handler (p : Platform) (api : mod_scmi_from_protocol_api)
    (cfg : mod_scmi_pinctrl_config)
    (ctx : scmi_pinctrl_context) (service_id : Nat) (payload : Nat → Nat) : Outcome :=
  let r := api.get_agent_id service_id
  if r.1 ≠ fwk_status.FWK_SUCCESS then return_status ctx r.1
  else if r.2 ≥ p.SCMI_AGENT_TYPE_COUNT then return_status ctx fwk_status.FWK_E_PARAM
  else
    let agent_id := r.2
    let id := payload_word payload 0 &&& 0xffff
    let selector := payload_word payload 1 &&& SCMI_PINCTRL_SELECTOR_MASK
    if selector = SCMI_PINCTRL_SELECTOR_PIN then
      if id ≥ cfg.pin_count then
        respond api service_id ctx (ResponsePayload.return_value scmi_error.SCMI_NOT_FOUND) 4
      else
        match cfg.pin_table[id]? with
        | none => memory_fault ctx
        | some e =>
          if ¬ permitted e.agent_permission agent_id then
            respond api service_id ctx (ResponsePayload.return_value scmi_error.SCMI_DENIED) 4
          else
            match ctx.pin_state[id]? with
            | none => memory_fault ctx
            | some pst =>
              if pst.owner_agent = agent_id then
                match ctx.group_state[id]? with
                | none =>
                  respond_after_stray_store api service_id ctx id SCMI_PINCTRL_NO_OWNER
                    (ResponsePayload.return_value scmi_error.SCMI_SUCCESS) 4
                | some gst =>
                  respond api service_id
                    { ctx with
                      group_state :=
                        ctx.group_state.set id { gst with owner_agent := SCMI_PINCTRL_NO_OWNER } }
                    (ResponsePayload.return_value scmi_error.SCMI_SUCCESS) 4
              else
                match ctx.group_state[id]? with
                | none => memory_fault ctx
                | some gst =>
                  if gst.owner_agent = SCMI_PINCTRL_NO_OWNER then
                    respond api service_id ctx
                      (ResponsePayload.return_value scmi_error.SCMI_SUCCESS) 4
                  else
                    respond api service_id ctx
                      (ResponsePayload.return_value scmi_error.SCMI_IN_USE) 4
    else if selector = SCMI_PINCTRL_SELECTOR_GROUP then
      if id ≥ cfg.group_count then
        respond api service_id ctx (ResponsePayload.return_value scmi_error.SCMI_NOT_FOUND) 4
      else
        match cfg.group_table[id]? with
        | none => memory_fault ctx
        | some e =>
          if ¬ permitted e.agent_permission agent_id then
            respond api service_id ctx (ResponsePayload.return_value scmi_error.SCMI_DENIED) 4
          else
            match ctx.group_state[id]? with
            | none => memory_fault ctx
            | some gst =>
              if gst.owner_agent = agent_id then
                respond api service_id
                  { ctx with
                    group_state :=
                      ctx.group_state.set id { gst with owner_agent := SCMI_PINCTRL_NO_OWNER } }
                  (ResponsePayload.return_value scmi_error.SCMI_SUCCESS) 4
              else if gst.owner_agent = SCMI_PINCTRL_NO_OWNER then
                respond api service_id ctx
                  (ResponsePayload.return_value scmi_error.SCMI_SUCCESS) 4
              else
                respond api service_id ctx
                  (ResponsePayload.return_value scmi_error.SCMI_IN_USE) 4
    else
      respond api service_id ctx
        (ResponsePayload.return_value scmi_error.SCMI_INVALID_PARAMETERS) 4

/-- The body shared by the three cases of the name get handler once the range
test has passed and the table entry is read.  The name field is 64 zero bytes
into which `strncpy` writes 63 bytes; byte 63 is then set to NUL. -/
def name_get_case (api : mod_scmi_from_protocol_api) (ctx : scmi_pinctrl_context)
    (service_id : Nat) (agent_id : Nat) (agent_permission : Nat) (name : List Nat) : Outcome :=
  if ¬ permitted agent_permission agent_id then
    respond api service_id ctx
      (ResponsePayload.name_get scmi_error.SCMI_NOT_FOUND 0
        (List.replicate SCMI_PINCTRL_EXTENDED_NAME_LENGTH_MAX 0)) 72
  else
    respond api service_id ctx
      (ResponsePayload.name_get scmi_error.SCMI_SUCCESS 0
        ((strncpy name (SCMI_PINCTRL_EXTENDED_NAME_LENGTH_MAX - 1) ++ [0]).set
          (SCMI_PINCTRL_EXTENDED_NAME_LENGTH_MAX - 1) 0)) 72

/-- Handler of the pin control name get command. -/
def scmi_pinctrl_name_get_handler (p : Platform) (api : mod_scmi_from_protocol_api)
    (cfg : mod_scmi_pinctrl_config)
    (ctx : scmi_pinctrl_context) (service_id : Nat) (payload : Nat → Nat) : Outcome :=
  let r := api.get_agent_id service_id
  if r.1 ≠ fwk_status.FWK_SUCCESS then return_status ctx r.1
  else if r.2 ≥ p.SCMI_AGENT_TYPE_COUNT then return_status ctx fwk_status.FWK_E_PARAM
  else
    let agent_id := r.2
    let id := payload_word payload 0 &&& 0xffff
    let selector := payload_word payload 1 &&& SCMI_PINCTRL_SELECTOR_MASK
    let not_found :=
      respond api service_id ctx
        (ResponsePayload.name_get scmi_error.SCMI_NOT_FOUND 0
          (List.replicate SCMI_PINCTRL_EXTENDED_NAME_LENGTH_MAX 0)) 72
    if selector = SCMI_PINCTRL_SELECTOR_PIN then
      if id ≥ cfg.pin_count then not_found
      else
        match cfg.pin_table[id]? with
        | none => memory_fault ctx
        | some e => name_get_case api ctx service_id agent_id e.agent_permission e.name
    else if selector = SCMI_PINCTRL_SELECTOR_GROUP then
      if id ≥ cfg.group_count then not_found
      else
        match cfg.group_table[id]? with
        | none => memory_fault ctx
        | some e => name_get_case api ctx service_id agent_id e.agent_permission e.name
    else if selector = SCMI_PINCTRL_SELECTOR_FUNCTION then
      if id ≥ cfg.function_count then not_found
      else
        match cfg.function_table[id]? with
        | none => memory_fault ctx
        | some e => name_get_case api ctx service_id agent_id e.agent_permission e.name
    else
      respond api service_id ctx
        (ResponsePayload.name_get scmi_error.SCMI_INVALID_PARAMETERS 0
          (List.replicate SCMI_PINCTRL_EXTENDED_NAME_LENGTH_MAX 0)) 72

/-- Handler of the set permissions command: a stub that returns without responding. -/
def scmi_pinctrl_set_permissions_handler
    (ctx : scmi_pinctrl_context) (_service_id : Nat) (_payload : Nat → Nat) : Outcome :=
  return_status ctx fwk_status.FWK_SUCCESS

/-! ## Dispatcher -/

/-- The call through one non-NULL entry of `handler_table`. -/
def call_handler (p : Platform) (api : mod_scmi_from_protocol_api)
    (cfg : mod_scmi_pinctrl_config) (fuel : Nat) (h : Handler)
    (ctx : scmi_pinctrl_context) (service_id : Nat) (payload : Nat → Nat) : Outcome :=
  match h with
  | Handler.protocol_version => scmi_pinctrl_protocol_version_handler p api ctx service_id payload
  | Handler.negotiate_protocol_version =>
    scmi_pinctrl_negotiate_protocol_version_handler api ctx service_id payload
  | Handler.protocol_attributes =>
    scmi_pinctrl_protocol_attributes_handler p api cfg fuel ctx service_id payload
  | Handler.protocol_message_attributes =>
    scmi_pinctrl_protocol_message_attributes_handler p api ctx service_id payload
  | Handler.attributes => scmi_pinctrl_attributes_handler p api cfg ctx service_id payload
  | Handler.list_assoc => scmi_pinctrl_list_assoc_handler p api cfg ctx service_id payload
  | Handler.settings_get => scmi_pinctrl_settings_get_handler ctx service_id payload
  | Handler.settings_configure => scmi_pinctrl_settings_configure_handler ctx service_id payload
  | Handler.request => scmi_pinctrl_request_handler p api cfg ctx service_id payload
  | Handler.release => scmi_pinctrl_release_handler p api cfg ctx service_id payload
  | Handler.name_get => scmi_pinctrl_name_get_handler p api cfg ctx service_id payload
  | Handler.set_permissions => scmi_pinctrl_set_permissions_handler ctx service_id payload

/-- The entry point `scmi_pinctrl_message_handler`.  A NULL table entry is called
like any other, which is a fault. -/
def scmi_pinctrl_message_handler (p : Platform) (api : mod_scmi_from_protocol_api)
    (cfg : mod_scmi_pinctrl_config) (fuel : Nat) (ctx : scmi_pinctrl_context)
    (_protocol_id : Nat) (service_id : Nat) (payload : Nat → Nat) (payload_size : Nat)
    (message_id : Nat) : Outcome :=
  let r := api.get_agent_id service_id
  if r.1 ≠ fwk_status.FWK_SUCCESS then return_status ctx r.1
  else if r.2 ≥ p.SCMI_AGENT_TYPE_COUNT then return_status ctx fwk_status.FWK_E_PARAM
  else if message_id ≥ (handler_table p).length then
    respond api service_id ctx (ResponsePayload.return_value scmi_error.SCMI_NOT_FOUND) 4
  else
    match (payload_size_table p)[message_id]? with
    | none => memory_fault ctx
    | some expected =>
      if payload_size ≠ expected then
        respond api service_id ctx (ResponsePayload.return_value scmi_error.SCMI_PROTOCOL_ERROR) 4
      else
        match (handler_table p)[message_id]? with
        | some (some h) => call_handler p api cfg fuel h ctx service_id payload
        | _ => memory_fault ctx

/-! ## Framework handler `scmi_pinctrl_init` -/

/-- The record one iteration of an init loop writes: released, no owner, no
function and a zeroed configuration array of `config_count` entries. -/
def initial_pingrp_state (config_count : Nat) : scmi_pinctrl_pingrp_state :=
  { state := SCMI_PINCTRL_PIN_STATE_RELEASED
    owner_agent := SCMI_PINCTRL_NO_OWNER
    function := SCMI_PINCTRL_NO_FUNCTION
    config := List.replicate config_count ⟨0, 0⟩ }

/-- One init loop over `count` records.  `alloc_ok k` tells whether the `k`-th
call of `fwk_mm_calloc` made by init returns memory; `call` is the number of
calls made before the current iteration.  The result is `none` when an
allocation fails. -/
def init_loop (alloc_ok : Nat → Bool) (config_count : Nat) :
    Nat → Nat → Option (List scmi_pinctrl_pingrp_state)
  | 0, _ => some []
  | count + 1, call =>
    if alloc_ok call then
      (init_loop alloc_ok config_count count (call + 1)).map
        (fun rest => initial_pingrp_state config_count :: rest)
    else none

/-- The function `scmi_pinctrl_init`: the status and, when it is `FWK_SUCCESS`, the
module globals `scmi_pinctrl_config` and `scmi_pinctrl_ctx` it leaves.  On the
error paths every allocation is freed again and no state is kept. -/
def scmi_pinctrl_init (alloc_ok : Nat → Bool) (_module_id : Nat) (element_count : Nat)
    (data : Option mod_scmi_pinctrl_config) :
    fwk_status × Option (mod_scmi_pinctrl_config × scmi_pinctrl_context) :=
  match data with
  | none => (fwk_status.FWK_E_PARAM, none)
  | some cfg =>
    if element_count ≠ 0 then (fwk_status.FWK_E_PARAM, none)
    else if ¬ alloc_ok 0 then (fwk_status.FWK_E_NOMEM, none)
    else if ¬ alloc_ok 1 then (fwk_status.FWK_E_NOMEM, none)
    else
      match init_loop alloc_ok cfg.config_count cfg.pin_count 2 with
      | none => (fwk_status.FWK_E_NOMEM, none)
      | some pin_state =>
        match init_loop alloc_ok cfg.config_count cfg.group_count (2 + cfg.pin_count) with
        | none => (fwk_status.FWK_E_NOMEM, none)
        | some group_state =>
          (fwk_status.FWK_SUCCESS, some (cfg, { pin_state := pin_state, group_state := group_state }))

/-! ## Reachable states and the ownership invariant -/

/-- What a store of `value` to an owner field past the end of `group_state` can
do to the two state arrays, wherever it lands: the arrays keep their records,
and the owner field of a record keeps its value or holds `value`.  The other
fields of a record are left open. -/
def clobbered (value : Nat) (ctx ctx' : scmi_pinctrl_context) : Prop :=
  (∀ (i : Nat) (st' : scmi_pinctrl_pingrp_state), ctx'.pin_state[i]? = some st' →
      ∃ st, ctx.pin_state[i]? = some st ∧
        (st'.owner_agent = st.owner_agent ∨ st'.owner_agent = value)) ∧
  (∀ (i : Nat) (st' : scmi_pinctrl_pingrp_state), ctx'.group_state[i]? = some st' →
      ∃ st, ctx.group_state[i]? = some st ∧
        (st'.owner_agent = st.owner_agent ∨ st'.owner_agent = value))

/-- The contexts the module can be in: the one init leaves and every context a
call of the entry point leaves, whatever the transport, the fuel, the message
and the way the call ends (`step`).  When the call has stored past the end of
`group_state`, the context it leaves may in addition be clobbered by that store
(`stray`). -/
inductive Reachable (p : Platform) (cfg : mod_scmi_pinctrl_config)
    (ctx0 : scmi_pinctrl_context) : scmi_pinctrl_context → Prop where
  | init : Reachable p cfg ctx0 ctx0
  | step (ctx : scmi_pinctrl_context) (api : mod_scmi_from_protocol_api) (fuel : Nat)
      (protocol_id service_id : Nat) (payload : Nat → Nat) (payload_size message_id : Nat) :
      Reachable p cfg ctx0 ctx →
      Reachable p cfg ctx0
        (scmi_pinctrl_message_handler p api cfg fuel ctx protocol_id service_id payload
          payload_size message_id).ctx
  | stray (ctx : scmi_pinctrl_context) (api : mod_scmi_from_protocol_api) (fuel : Nat)
      (protocol_id service_id : Nat) (payload : Nat → Nat) (payload_size message_id : Nat)
      (index value : Nat) (ctx' : scmi_pinctrl_context) :
      Reachable p cfg ctx0 ctx →
      (index, value) ∈
        (scmi_pinctrl_message_handler p api cfg fuel ctx protocol_id service_id payload
          payload_size message_id).stray_stores →
      clobbered value
        (scmi_pinctrl_message_handler p api cfg fuel ctx protocol_id service_id payload
          payload_size message_id).ctx ctx' →
      Reachable p cfg ctx0 ctx'

/-- The owner of a record is the no-owner value, or a valid agent whose bit is
set in the permission mask of the resource. -/
def owner_ok (p : Platform) (agent_permission : Nat) (st : scmi_pinctrl_pingrp_state) : Prop :=
  st.owner_agent = SCMI_PINCTRL_NO_OWNER ∨
    (st.owner_agent < p.SCMI_AGENT_TYPE_COUNT ∧ permitted agent_permission st.owner_agent = true)

/-- The invariant `owner_ok` on every pin and every group of a context. -/
def ownership_invariant (p : Platform) (cfg : mod_scmi_pinctrl_config)
    (ctx : scmi_pinctrl_context) : Prop :=
  (∀ (i : Nat) (e : scmi_pinctrl_pin_data) (st : scmi_pinctrl_pingrp_state),
      cfg.pin_table[i]? = some e → ctx.pin_state[i]? = some st →
      owner_ok p e.agent_permission st) ∧
  (∀ (i : Nat) (e : scmi_pinctrl_group_data) (st : scmi_pinctrl_pingrp_state),
      cfg.group_table[i]? = some e → ctx.group_state[i]? = some st →
      owner_ok p e.agent_permission st)

/-- The owners of all pins and of all groups, in table order. -/
def owners (ctx : scmi_pinctrl_context) : List Nat × List Nat :=
  (ctx.pin_state.map (fun st => st.owner_agent), ctx.group_state.map (fun st => st.owner_agent))

/-- The statuses of the responses of an outcome, in order. -/
def Outcome.statuses (o : Outcome) : List scmi_error :=
  o.responses.map (fun r => r.payload.status)

/-! ## Concrete instances used to evaluate the handlers -/

/-- A platform with the command numbers of the SCMI pin control protocol and four
agent types. -/
def sample_platform : Platform :=
  { MOD_SCMI_PROTOCOL_VERSION := 0
    MOD_SCMI_NEGOTIATE_PROTOCOL_VERSION := 16
    MOD_SCMI_PROTOCOL_ATTRIBUTES := 1
    MOD_SCMI_PROTOCOL_MESSAGE_ATTRIBUTES := 2
    MOD_SCMI_PIN_CONTROL_ATTRIBUTES := 3
    MOD_SCMI_PIN_CONTROL_LIST_ASSOCIATIONS := 4
    MOD_SCMI_PIN_CONTROL_SETTINGS_GET := 5
    MOD_SCMI_PIN_CONTROL_SETTINGS_CONFIGURE := 6
    MOD_SCMI_PIN_CONTROL_REQUEST := 7
    MOD_SCMI_PIN_CONTROL_RELEASE := 8
    MOD_SCMI_PIN_CONTROL_NAME_GET := 9
    MOD_SCMI_PIN_CONTROL_SET_PERMISSIONS := 10
    MOD_SCMI_PIN_CONTROL_COMMAND_COUNT := 17
    SCMI_AGENT_TYPE_COUNT := 4
    sizeof_scmi_protocol_version_p2a := 8
    sizeof_scmi_negotiate_protocol_version_a2p := 4
    sizeof_scmi_protocol_message_attributes_a2p := 4
    sizeof_scmi_protocol_message_attributes_p2a := 8 }

/-- A transport on which every service belongs to agent `a`, respond succeeds
and malloc succeeds. -/
def agent_api (a : Nat) : mod_scmi_from_protocol_api :=
  { get_agent_id := fun _ => (fwk_status.FWK_SUCCESS, a)
    respond_status := fun _ _ => fwk_status.FWK_SUCCESS
    malloc_ok := fun _ => true }

/-- A payload buffer holding the given words, zero elsewhere. -/
def words (ws : List Nat) : Nat → Nat :=
  fun i => ws.getD i 0

/-- A record that only differs by its owner. -/
def owned_by (a : Nat) : scmi_pinctrl_pingrp_state :=
  { state := 0, owner_agent := a, function := SCMI_PINCTRL_NO_FUNCTION, config := [] }

/-- A catalog of one pin and one group; `pin_perm` and `group_perm` are the two
permission masks. -/
def one_pin_one_group (pin_perm group_perm : Nat) : mod_scmi_pinctrl_config :=
  { pin_table := [{ name := [112], drv_id := 0, agent_permission := pin_perm }]
    pin_count := 1
    group_table := [{ name := [103], pins := [0], pins_count := 1, agent_permission := group_perm }]
    group_count := 1
    function_table := []
    function_count := 0
    config_count := 0 }

/-- The catalog of the scenario of the specification: two pins, agent 0 permitted
on pin 0 only, no groups and no functions. -/
def two_pins : mod_scmi_pinctrl_config :=
  { pin_table := [{ name := [112, 48], drv_id := 0, agent_permission := 1 },
                  { name := [112, 49], drv_id := 0, agent_permission := 0 }]
    pin_count := 2
    group_table := []
    group_count := 0
    function_table := []
    function_count := 0
    config_count := 0 }

/-- The catalog `two_pins` with one group added. -/
def two_pins_one_group : mod_scmi_pinctrl_config :=
  { two_pins with
    group_table := [{ name := [103], pins := [0, 1], pins_count := 2, agent_permission := 0 }]
    group_count := 1 }

/-- The context after a successful init of a configuration. -/
def init_ctx (cfg : mod_scmi_pinctrl_config) : scmi_pinctrl_context :=
  { pin_state := List.replicate cfg.pin_count (initial_pingrp_state cfg.config_count)
    group_state := List.replicate cfg.group_count (initial_pingrp_state cfg.config_count) }

/-- A sequence of request (`true`) and release (`false`) calls through the entry
point, each by the given agent with the given identifier and selector words;
the result is the list of statuses answered and the final context, or `none`
as soon as a call does not return. -/
def run_trace (p : Platform) (cfg : mod_scmi_pinctrl_config) :
    scmi_pinctrl_context → List (Nat × Bool × Nat × Nat) →
      Option (List scmi_error × scmi_pinctrl_context)
  | ctx, [] => some ([], ctx)
  | ctx, (a, is_request, identifier, flags) :: rest =>
    let o := scmi_pinctrl_message_handler p (agent_api a) cfg 0 ctx 0 0 (words [identifier, flags]) 8
      (if is_request then p.MOD_SCMI_PIN_CONTROL_REQUEST else p.MOD_SCMI_PIN_CONTROL_RELEASE)
    match o.exit with
    | Exit.returned _ => (run_trace p cfg o.ctx rest).map (fun r => (o.statuses ++ r.1, r.2))
    | _ => none

/-! ## Views of a resource by selector -/

/-- The count of the namespace a selector names. -/
def resource_count (cfg : mod_scmi_pinctrl_config) (selector : Nat) : Nat :=
  if selector = SCMI_PINCTRL_SELECTOR_PIN then cfg.pin_count
  else if selector = SCMI_PINCTRL_SELECTOR_GROUP then cfg.group_count
  else cfg.function_count

/-- The permission mask of the catalog entry `(selector, id)`, when there is one. -/
def resource_permission (cfg : mod_scmi_pinctrl_config) (selector id : Nat) : Option Nat :=
  if selector = SCMI_PINCTRL_SELECTOR_PIN then
    (cfg.pin_table[id]?).map (fun e => e.agent_permission)
  else if selector = SCMI_PINCTRL_SELECTOR_GROUP then
    (cfg.group_table[id]?).map (fun e => e.agent_permission)
  else (cfg.function_table[id]?).map (fun e => e.agent_permission)

/-- The state record of the pin or group `(selector, id)`, when there is one. -/
def resource_state (ctx : scmi_pinctrl_context) (selector id : Nat) :
    Option scmi_pinctrl_pingrp_state :=
  if selector = SCMI_PINCTRL_SELECTOR_PIN then ctx.pin_state[id]?
  else if selector = SCMI_PINCTRL_SELECTOR_GROUP then ctx.group_state[id]?
  else none

/-- The owner of the pin or group `(selector, id)`, when there is one. -/
def resource_owner (ctx : scmi_pinctrl_context) (selector id : Nat) : Option Nat :=
  (resource_state ctx selector id).map (fun st => st.owner_agent)

/-! ## Views of a call of the entry point -/

/-- The handler the entry point calls for a message: the entry of `handler_table`
at the message identifier when the identifier is inside the table and the
payload size equals the entry of `payload_size_table`; `none` otherwise, and
also when the entry is NULL. -/
def selected_handler (p : Platform) (payload_size message_id : Nat) : Option Handler :=
  if (payload_size_table p)[message_id]? = some payload_size then
    ((handler_table p)[message_id]?).join
  else none

/-- An outcome with at most one response, and exactly one when the call returned. -/
def answered_once (o : Outcome) : Prop :=
  o.responses.length ≤ 1 ∧ ∀ s, o.exit = Exit.returned s → o.responses.length = 1

/-- A catalog without pins, groups and functions. -/
def empty_catalog : mod_scmi_pinctrl_config :=
  { pin_table := []
    pin_count := 0
    group_table := []
    group_count := 0
    function_table := []
    function_count := 0
    config_count := 0 }

/-- A transport whose agent resolution ends with the given status. -/
def resolver_api (status : fwk_status) (a : Nat) : mod_scmi_from_protocol_api :=
  { get_agent_id := fun _ => (status, a)
    respond_status := fun _ _ => fwk_status.FWK_SUCCESS
    malloc_ok := fun _ => true }

/-- The command identifiers that have a designated initialiser in `handler_table`. -/
def command_ids (p : Platform) : List Nat :=
  [p.MOD_SCMI_PROTOCOL_VERSION, p.MOD_SCMI_NEGOTIATE_PROTOCOL_VERSION,
   p.MOD_SCMI_PROTOCOL_ATTRIBUTES, p.MOD_SCMI_PROTOCOL_MESSAGE_ATTRIBUTES,
   p.MOD_SCMI_PIN_CONTROL_ATTRIBUTES, p.MOD_SCMI_PIN_CONTROL_LIST_ASSOCIATIONS,
   p.MOD_SCMI_PIN_CONTROL_SETTINGS_GET, p.MOD_SCMI_PIN_CONTROL_SETTINGS_CONFIGURE,
   p.MOD_SCMI_PIN_CONTROL_REQUEST, p.MOD_SCMI_PIN_CONTROL_RELEASE,
   p.MOD_SCMI_PIN_CONTROL_NAME_GET, p.MOD_SCMI_PIN_CONTROL_SET_PERMISSIONS]

/-! ## Views of a response -/

/-- The name field of a response object; empty for the objects without one. -/
def ResponsePayload.name_field : ResponsePayload → List Nat
  | ResponsePayload.attributes _ _ name => name
  | ResponsePayload.name_get _ _ name => name
  | _ => []

/-- The attributes or flags word of a response object, when it has one that was
written. -/
def ResponsePayload.flags_word : ResponsePayload → Option Nat
  | ResponsePayload.message_attributes _ w => some w
  | ResponsePayload.attributes _ w _ => some w
  | ResponsePayload.list_assoc _ w _ => w
  | ResponsePayload.name_get _ w _ => some w
  | _ => none

/-- The array of a list associations response object; empty for the others. -/
def ResponsePayload.array_field : ResponsePayload → List Nat
  | ResponsePayload.list_assoc _ _ entries => entries
  | _ => []

/-- The name fields of the responses of an outcome, in order. -/
def Outcome.name_fields (o : Outcome) : List (List Nat) :=
  o.responses.map (fun r => r.payload.name_field)

/-- The name of the catalog entry `(selector, id)`, when there is one. -/
def resource_name (cfg : mod_scmi_pinctrl_config) (selector id : Nat) : Option (List Nat) :=
  if selector = SCMI_PINCTRL_SELECTOR_PIN then (cfg.pin_table[id]?).map (fun e => e.name)
  else if selector = SCMI_PINCTRL_SELECTOR_GROUP then (cfg.group_table[id]?).map (fun e => e.name)
  else (cfg.function_table[id]?).map (fun e => e.name)

/-! ## The configuration of product/optee-fvp/fw/config_scmi_pinctrl.c -/

/-- The bytes of a string literal, as the C compiler stores a name. -/
def ascii (s : String) : List Nat :=
  s.toList.map Char.toNat

/-- The macro `SCMI_PINCTRL_PIN(pin, drv, permission)`. -/
def SCMI_PINCTRL_PIN (pin : String) (drv permission : Nat) : scmi_pinctrl_pin_data :=
  { name := ascii pin, drv_id := drv, agent_permission := permission }

/-- The macro `SCMI_PINCTRL_GROUP(group, permission)`, with the array `group_pins`
passed along. -/
def SCMI_PINCTRL_GROUP (group : String) (group_pins : List Nat) (permission : Nat) :
    scmi_pinctrl_group_data :=
  { name := ascii group, pins := group_pins, pins_count := group_pins.length,
    agent_permission := permission }

/-- The macro `SCMI_PINCTRL_FUNC(function, permission)`, with the array `function`
passed along. -/
def SCMI_PINCTRL_FUNC (function : String) (function_groups : List Nat) (permission : Nat) :
    scmi_pinctrl_function_data :=
  { name := ascii function, groups := function_groups, groups_count := function_groups.length,
    agent_permission := permission }

/-- The module configuration `config_scmi_pinctrl` of the OPTEE-FVP product:
eighteen pins, seven groups, four functions. -/
def config_scmi_pinctrl : mod_scmi_pinctrl_config :=
  { pin_table :=
      [SCMI_PINCTRL_PIN ("pin_x0") 0 0x02, SCMI_PINCTRL_PIN ("pin_x1") 0 0x02,
       SCMI_PINCTRL_PIN ("pin_x2") 0 0x02, SCMI_PINCTRL_PIN ("pin_x3") 0 0x02,
       SCMI_PINCTRL_PIN ("pin_x4") 0 0x02, SCMI_PINCTRL_PIN ("pin_x5") 0 0x02,
       SCMI_PINCTRL_PIN ("pin_x6") 0 0x02, SCMI_PINCTRL_PIN ("pin_x7") 0 0x02,
       SCMI_PINCTRL_PIN ("pin_x8") 0 0x00, SCMI_PINCTRL_PIN ("pin_x9") 0 0x00,
       SCMI_PINCTRL_PIN ("pin_x10") 1 0x02, SCMI_PINCTRL_PIN ("pin_x11") 1 0x02,
       SCMI_PINCTRL_PIN ("pin_x12") 1 0x02, SCMI_PINCTRL_PIN ("pin_x13") 1 0x02,
       SCMI_PINCTRL_PIN ("pin_x14") 1 0x00, SCMI_PINCTRL_PIN ("pin_x15") 1 0x00,
       SCMI_PINCTRL_PIN ("pin_x16") 1 0x00, SCMI_PINCTRL_PIN ("pin_x17") 1 0x00]
    pin_count := 18
    group_table :=
      [SCMI_PINCTRL_GROUP ("grp_gpio0") [0, 1, 2, 3] 0x02,
       SCMI_PINCTRL_GROUP ("grp_gpio_i2c0") [4, 5] 0x02,
       SCMI_PINCTRL_GROUP ("grp_gpio_i2c1") [6, 7] 0x02,
       SCMI_PINCTRL_GROUP ("grp_gpio_uart0") [4, 5, 6, 7] 0x02,
       SCMI_PINCTRL_GROUP ("grp_gpio1") [8, 9] 0x00,
       SCMI_PINCTRL_GROUP ("grp_gpio_uart1") [10, 11, 12, 13] 0x02,
       SCMI_PINCTRL_GROUP ("grp_gpio_spi_uart2") [14, 15, 16, 17] 0x00]
    group_count := 7
    function_table :=
      [SCMI_PINCTRL_FUNC ("f_gpio") [0, 3, 4, 5, 6] 0x02,
       SCMI_PINCTRL_FUNC ("f_i2c") [1, 2] 0x02,
       SCMI_PINCTRL_FUNC ("f_uart") [3, 5, 6] 0x02,
       SCMI_PINCTRL_FUNC ("f_spi") [6] 0x00]
    function_count := 4
    config_count := SCMI_PINCTRL_CONFIG_COUNT }

/-- A catalog with one group and two functions, all permitted to agent 0. -/
def one_group_two_functions : mod_scmi_pinctrl_config :=
  { pin_table := [SCMI_PINCTRL_PIN ("p0") 0 0x01]
    pin_count := 1
    group_table := [SCMI_PINCTRL_GROUP ("g0") [0] 0x01]
    group_count := 1
    function_table := [SCMI_PINCTRL_FUNC ("f0") [0] 0x01, SCMI_PINCTRL_FUNC ("f1") [0] 0x01]
    function_count := 2
    config_count := 0 }

/-- A catalog with one pin whose name has twenty characters and one group of that
pin, both permitted to agent 0. -/
def long_name_catalog : mod_scmi_pinctrl_config :=
  { pin_table := [SCMI_PINCTRL_PIN ("pin_with_a_long_name") 0 0x01]
    pin_count := 1
    group_table := [SCMI_PINCTRL_GROUP ("g0") [0] 0x01]
    group_count := 1
    function_table := []
    function_count := 0
    config_count := 0 }

/-- A catalog with one group of 4096 pins (each member entry is pin 0), permitted
to agent 0. -/
def big_group_catalog : mod_scmi_pinctrl_config :=
  { pin_table := [SCMI_PINCTRL_PIN ("p0") 0 0x01]
    pin_count := 1
    group_table :=
      [{ name := ascii ("g0"), pins := List.replicate 4096 0, pins_count := 4096,
         agent_permission := 0x01 }]
    group_count := 1
    function_table := []
    function_count := 0
    config_count := 0 }

/-! ## Calls that end with one response -/

/-- How far a call of the request handler has come when it reaches the store of
the owner field: it has ended, with the outcome given, or it has read the owner
field, found `SCMI_PINCTRL_NO_OWNER` and has the store of `agent_id` to the
record `(selector, id)` and the response still to make. -/
inductive RequestProgress where
  | ended (o : Outcome)
  | store_pending (agent_id selector id : Nat)
deriving DecidableEq, Repr

/-- The request handler from its entry up to and including the test of the owner
field that follows the comment `TODO: locking`.  This part writes nothing. -/
def scmi_pinctrl_request_read (p : Platform) (api : mod_scmi_from_protocol_api)
    (cfg : mod_scmi_pinctrl_config)
    (ctx : scmi_pinctrl_context) (service_id : Nat) (payload : Nat → Nat) : RequestProgress :=
  let r := api.get_agent_id service_id
  if r.1 ≠ fwk_status.FWK_SUCCESS then RequestProgress.ended (return_status ctx r.1)
  else if r.2 ≥ p.SCMI_AGENT_TYPE_COUNT then
    RequestProgress.ended (return_status ctx fwk_status.FWK_E_PARAM)
  else
    let agent_id := r.2
    let id := payload_word payload 0 &&& 0xffff
    let selector := payload_word payload 1 &&& SCMI_PINCTRL_SELECTOR_MASK
    if selector = SCMI_PINCTRL_SELECTOR_PIN then
      if id ≥ cfg.pin_count then
        RequestProgress.ended
          (respond api service_id ctx (ResponsePayload.return_value scmi_error.SCMI_NOT_FOUND) 4)
      else
        match cfg.pin_table[id]? with
        | none => RequestProgress.ended (memory_fault ctx)
        | some e =>
          if ¬ permitted e.agent_permission agent_id then
            RequestProgress.ended
              (respond api service_id ctx (ResponsePayload.return_value scmi_error.SCMI_DENIED) 4)
          else
            match ctx.pin_state[id]? with
            | none => RequestProgress.ended (memory_fault ctx)
            | some st =>
              if st.owner_agent ≠ SCMI_PINCTRL_NO_OWNER then
                RequestProgress.ended
                  (respond api service_id ctx
                    (ResponsePayload.return_value scmi_error.SCMI_IN_USE) 4)
              else RequestProgress.store_pending agent_id SCMI_PINCTRL_SELECTOR_PIN id
    else if selector = SCMI_PINCTRL_SELECTOR_GROUP then
      if id ≥ cfg.group_count then
        RequestProgress.ended
          (respond api service_id ctx (ResponsePayload.return_value scmi_error.SCMI_NOT_FOUND) 4)
      else
        match cfg.group_table[id]? with
        | none => RequestProgress.ended (memory_fault ctx)
        | some e =>
          if ¬ permitted e.agent_permission agent_id then
            RequestProgress.ended
              (respond api service_id ctx (ResponsePayload.return_value scmi_error.SCMI_DENIED) 4)
          else
            match ctx.group_state[id]? with
            | none => RequestProgress.ended (memory_fault ctx)
            | some st =>
              if st.owner_agent ≠ SCMI_PINCTRL_NO_OWNER then
                RequestProgress.ended
                  (respond api service_id ctx
                    (ResponsePayload.return_value scmi_error.SCMI_IN_USE) 4)
              else RequestProgress.store_pending agent_id SCMI_PINCTRL_SELECTOR_GROUP id
    else
      RequestProgress.ended
        (respond api service_id ctx
          (ResponsePayload.return_value scmi_error.SCMI_INVALID_PARAMETERS) 4)

/-- The rest of the request handler: the store of the agent identifier to the
owner field of the record, `return_value = SCMI_SUCCESS`, and the call of
respond. -/
def scmi_pinctrl_request_store (api : mod_scmi_from_protocol_api) (ctx : scmi_pinctrl_context)
    (service_id agent_id selector id : Nat) : Outcome :=
  if selector = SCMI_PINCTRL_SELECTOR_PIN then
    match ctx.pin_state[id]? with
    | none => memory_fault ctx
    | some st =>
      respond api service_id
        { ctx with pin_state := ctx.pin_state.set id { st with owner_agent := agent_id } }
        (ResponsePayload.return_value scmi_error.SCMI_SUCCESS) 4
  else
    match ctx.group_state[id]? with
    | none => memory_fault ctx
    | some st =>
      respond api service_id
        { ctx with group_state := ctx.group_state.set id { st with owner_agent := agent_id } }
        (ResponsePayload.return_value scmi_error.SCMI_SUCCESS) 4

/-- The second part of a call, run on the context as it is by then: a call that
has ended leaves the context alone, a call with the store pending makes it. -/
def RequestProgress.finish (api : mod_scmi_from_protocol_api) (service_id : Nat)
    (ctx : scmi_pinctrl_context) : RequestProgress → Outcome
  | RequestProgress.ended o => { o with ctx := ctx }
  | RequestProgress.store_pending agent_id selector id =>
    scmi_pinctrl_request_store api ctx service_id agent_id selector id

/-- Two calls of the request handler that overlap: the first call runs up to its
test of the owner field, then the second call does, then the first call runs
to its end, then the second.  The result is the outcome of each call. -/
def overlapped_requests (p : Platform) (api_a api_b : mod_scmi_from_protocol_api)
    (cfg : mod_scmi_pinctrl_config) (ctx : scmi_pinctrl_context)
    (service_a service_b : Nat) (payload_a payload_b : Nat → Nat) : Outcome × Outcome :=
  let read_a := scmi_pinctrl_request_read p api_a cfg ctx service_a payload_a
  let read_b := scmi_pinctrl_request_read p api_b cfg ctx service_b payload_b
  let o_a := read_a.finish api_a service_a ctx
  let o_b := read_b.finish api_b service_b o_a.ctx
  (o_a, o_b)

/-! ## Basic facts about the building blocks -/

theorem respond_ctx (api : mod_scmi_from_protocol_api) (service_id : Nat)
    (ctx : scmi_pinctrl_context) (payload : ResponsePayload) (size : Nat) :
    (respond api service_id ctx payload size).ctx = ctx := rfl

theorem respond_statuses (api : mod_scmi_from_protocol_api) (service_id : Nat)
    (ctx : scmi_pinctrl_context) (payload : ResponsePayload) (size : Nat) :
    (respond api service_id ctx payload size).statuses = [payload.status] := rfl

theorem respond_exit (api : mod_scmi_from_protocol_api) (service_id : Nat)
    (ctx : scmi_pinctrl_context) (payload : ResponsePayload) (size : Nat) :
    (respond api service_id ctx payload size).exit =
      Exit.returned (api.respond_status service_id ⟨payload, size⟩) := rfl

theorem respond_responses (api : mod_scmi_from_protocol_api) (service_id : Nat)
    (ctx : scmi_pinctrl_context) (payload : ResponsePayload) (size : Nat) :
    (respond api service_id ctx payload size).responses = [⟨payload, size⟩] := rfl

theorem selector_group_ne_pin : SCMI_PINCTRL_SELECTOR_GROUP ≠ SCMI_PINCTRL_SELECTOR_PIN := by
  decide

/-- C1: request on an unowned, in-range, permitted pin or group answers Success
(once, and returns) and makes the calling agent the owner of that resource. -/
theorem request_unowned_succeeds (p : Platform) (api : mod_scmi_from_protocol_api)
    (cfg : mod_scmi_pinctrl_config) (ctx : scmi_pinctrl_context)
    (service_id : Nat) (payload : Nat → Nat) (a selector id perm : Nat)
    (st : scmi_pinctrl_pingrp_state)
    (hagent : api.get_agent_id service_id = (fwk_status.FWK_SUCCESS, a))
    (hvalid : a < p.SCMI_AGENT_TYPE_COUNT)
    (hsel : payload_word payload 1 &&& SCMI_PINCTRL_SELECTOR_MASK = selector)
    (hpg : selector = SCMI_PINCTRL_SELECTOR_PIN ∨ selector = SCMI_PINCTRL_SELECTOR_GROUP)
    (hid : payload_word payload 0 &&& 0xffff = id)
    (hrange : id < resource_count cfg selector)
    (hperm : resource_permission cfg selector id = some perm)
    (hbit : permitted perm a = true)
    (hst : resource_state ctx selector id = some st)
    (hfree : st.owner_agent = SCMI_PINCTRL_NO_OWNER) :
    (scmi_pinctrl_request_handler p api cfg ctx service_id payload).statuses
        = [scmi_error.SCMI_SUCCESS] ∧
      (scmi_pinctrl_request_handler p api cfg ctx service_id payload).exit
        = Exit.returned (api.respond_status service_id
            ⟨ResponsePayload.return_value scmi_error.SCMI_SUCCESS, 4⟩) ∧
      resource_owner (scmi_pinctrl_request_handler p api cfg ctx service_id payload).ctx
        selector id = some a := by
  have hnv : ¬ p.SCMI_AGENT_TYPE_COUNT ≤ a := Nat.not_le.mpr hvalid
  rcases hpg with hs | hs
  · subst hs
    simp only [resource_count, resource_permission, resource_state, if_true] at hrange hperm hst
    obtain ⟨e, he, hpe⟩ := Option.map_eq_some'.mp hperm
    have hnr : ¬ cfg.pin_count ≤ id := Nat.not_le.mpr hrange
    subst hpe
    simp [scmi_pinctrl_request_handler, hagent, hnv, hsel, hid, hnr, he, hbit, hst, hfree,
      respond_statuses, respond_exit, respond_ctx, resource_owner, resource_state,
      ResponsePayload.status, List.getElem?_set, (List.getElem?_eq_some.mp hst).1]
  · subst hs
    simp only [resource_count, resource_permission, resource_state, selector_group_ne_pin,
      if_true, if_false] at hrange hperm hst
    obtain ⟨e, he, hpe⟩ := Option.map_eq_some'.mp hperm
    have hnr : ¬ cfg.group_count ≤ id := Nat.not_le.mpr hrange
    subst hpe
    simp [scmi_pinctrl_request_handler, hagent, hnv, hsel, hid, hnr, he, hbit, hst, hfree,
      respond_statuses, respond_exit, respond_ctx, resource_owner, resource_state,
      selector_group_ne_pin,
      ResponsePayload.status, List.getElem?_set, (List.getElem?_eq_some.mp hst).1]

/-- C2: request on an in-range, permitted pin or group that has an owner (any
agent, the caller included) answers InUse and leaves the context as it was. -/
theorem request_owned_in_use (p : Platform) (api : mod_scmi_from_protocol_api)
    (cfg : mod_scmi_pinctrl_config) (ctx : scmi_pinctrl_context)
    (service_id : Nat) (payload : Nat → Nat) (a selector id perm : Nat)
    (st : scmi_pinctrl_pingrp_state)
    (hagent : api.get_agent_id service_id = (fwk_status.FWK_SUCCESS, a))
    (hvalid : a < p.SCMI_AGENT_TYPE_COUNT)
    (hsel : payload_word payload 1 &&& SCMI_PINCTRL_SELECTOR_MASK = selector)
    (hpg : selector = SCMI_PINCTRL_SELECTOR_PIN ∨ selector = SCMI_PINCTRL_SELECTOR_GROUP)
    (hid : payload_word payload 0 &&& 0xffff = id)
    (hrange : id < resource_count cfg selector)
    (hperm : resource_permission cfg selector id = some perm)
    (hbit : permitted perm a = true)
    (hst : resource_state ctx selector id = some st)
    (howned : st.owner_agent ≠ SCMI_PINCTRL_NO_OWNER) :
    (scmi_pinctrl_request_handler p api cfg ctx service_id payload).statuses
        = [scmi_error.SCMI_IN_USE] ∧
      (scmi_pinctrl_request_handler p api cfg ctx service_id payload).exit
        = Exit.returned (api.respond_status service_id
            ⟨ResponsePayload.return_value scmi_error.SCMI_IN_USE, 4⟩) ∧
      (scmi_pinctrl_request_handler p api cfg ctx service_id payload).ctx = ctx := by
  have hnv : ¬ p.SCMI_AGENT_TYPE_COUNT ≤ a := Nat.not_le.mpr hvalid
  rcases hpg with hs | hs
  · subst hs
    simp only [resource_count, resource_permission, resource_state, if_true] at hrange hperm hst
    obtain ⟨e, he, hpe⟩ := Option.map_eq_some'.mp hperm
    have hnr : ¬ cfg.pin_count ≤ id := Nat.not_le.mpr hrange
    subst hpe
    simp [scmi_pinctrl_request_handler, hagent, hnv, hsel, hid, hnr, he, hbit, hst, howned,
      respond_statuses, respond_exit, respond_ctx, ResponsePayload.status]
  · subst hs
    simp only [resource_count, resource_permission, resource_state, selector_group_ne_pin,
      if_true, if_false] at hrange hperm hst
    obtain ⟨e, he, hpe⟩ := Option.map_eq_some'.mp hperm
    have hnr : ¬ cfg.group_count ≤ id := Nat.not_le.mpr hrange
    subst hpe
    simp [scmi_pinctrl_request_handler, hagent, hnv, hsel, hid, hnr, he, hbit, hst, howned,
      respond_statuses, respond_exit, respond_ctx, selector_group_ne_pin,
      ResponsePayload.status]

/-- Witness of C1: agent 0 requests the unowned pin 0 of a one-pin catalog. -/
theorem request_unowned_succeeds_witness :
    (scmi_pinctrl_request_handler sample_platform (agent_api 0) (one_pin_one_group 1 2)
        (init_ctx (one_pin_one_group 1 2)) 0 (words [0, 0])).statuses
        = [scmi_error.SCMI_SUCCESS] ∧
      resource_owner (scmi_pinctrl_request_handler sample_platform (agent_api 0)
        (one_pin_one_group 1 2) (init_ctx (one_pin_one_group 1 2)) 0 (words [0, 0])).ctx
        SCMI_PINCTRL_SELECTOR_PIN 0 = some 0 :=
  have h := request_unowned_succeeds sample_platform (agent_api 0) (one_pin_one_group 1 2)
    (init_ctx (one_pin_one_group 1 2)) 0 (words [0, 0]) 0 SCMI_PINCTRL_SELECTOR_PIN 0 1
    (initial_pingrp_state 0) rfl (by decide) (by decide) (Or.inl rfl) (by decide) (by decide)
    (by decide) (by decide) (by decide) (by decide)
  ⟨h.1, h.2.2⟩

/-- Witness of C2: agent 1 requests group 0 while agent 1 already owns it. -/
theorem request_owned_in_use_witness :
    (scmi_pinctrl_request_handler sample_platform (agent_api 1) (one_pin_one_group 1 2)
        ⟨[owned_by 0], [owned_by 1]⟩ 0 (words [0, 1])).statuses = [scmi_error.SCMI_IN_USE] ∧
      (scmi_pinctrl_request_handler sample_platform (agent_api 1) (one_pin_one_group 1 2)
        ⟨[owned_by 0], [owned_by 1]⟩ 0 (words [0, 1])).ctx = ⟨[owned_by 0], [owned_by 1]⟩ :=
  have h := request_owned_in_use sample_platform (agent_api 1) (one_pin_one_group 1 2)
    ⟨[owned_by 0], [owned_by 1]⟩ 0 (words [0, 1]) 1 SCMI_PINCTRL_SELECTOR_GROUP 0 2
    (owned_by 1) rfl (by decide) (by decide) (Or.inr rfl) (by decide) (by decide)
    (by decide) (by decide) (by decide) (by decide)
  ⟨h.1, h.2.2⟩

/-- The group case of release by the owner: Success, and the group is unowned
afterwards.  This is the sibling path of the pin case. -/
theorem release_group_by_owner (p : Platform) (api : mod_scmi_from_protocol_api)
    (cfg : mod_scmi_pinctrl_config) (ctx : scmi_pinctrl_context)
    (service_id : Nat) (payload : Nat → Nat) (a id : Nat)
    (e : scmi_pinctrl_group_data) (st : scmi_pinctrl_pingrp_state)
    (hagent : api.get_agent_id service_id = (fwk_status.FWK_SUCCESS, a))
    (hvalid : a < p.SCMI_AGENT_TYPE_COUNT)
    (hsel : payload_word payload 1 &&& SCMI_PINCTRL_SELECTOR_MASK = SCMI_PINCTRL_SELECTOR_GROUP)
    (hid : payload_word payload 0 &&& 0xffff = id)
    (hrange : id < cfg.group_count)
    (he : cfg.group_table[id]? = some e)
    (hbit : permitted e.agent_permission a = true)
    (hst : ctx.group_state[id]? = some st)
    (hown : st.owner_agent = a) :
    (scmi_pinctrl_release_handler p api cfg ctx service_id payload).statuses
        = [scmi_error.SCMI_SUCCESS] ∧
      resource_owner (scmi_pinctrl_release_handler p api cfg ctx service_id payload).ctx
        SCMI_PINCTRL_SELECTOR_GROUP id = some SCMI_PINCTRL_NO_OWNER ∧
      (scmi_pinctrl_release_handler p api cfg ctx service_id payload).ctx.pin_state
        = ctx.pin_state := by
  have hnv : ¬ p.SCMI_AGENT_TYPE_COUNT ≤ a := Nat.not_le.mpr hvalid
  have hnr : ¬ cfg.group_count ≤ id := Nat.not_le.mpr hrange
  simp [scmi_pinctrl_release_handler, hagent, hnv, hsel, hid, hnr, he, hbit, hst, hown,
    respond_statuses, respond_ctx, resource_owner, resource_state, selector_group_ne_pin,
    ResponsePayload.status, List.getElem?_set, (List.getElem?_eq_some.mp hst).1]

/-- C3 (pin case fails): on a catalog of one pin and one group, agent 0 requests
pin 0, releases it and requests it again.  The release answers Success, yet
the second request answers InUse and pin 0 is still owned by agent 0. -/
theorem release_pin_by_owner_keeps_pin_owned :
    run_trace sample_platform (one_pin_one_group 1 2) (init_ctx (one_pin_one_group 1 2))
        [(0, true, 0, 0), (0, false, 0, 0), (0, true, 0, 0)]
      = some ([scmi_error.SCMI_SUCCESS, scmi_error.SCMI_SUCCESS, scmi_error.SCMI_IN_USE],
          ⟨[{ initial_pingrp_state 0 with owner_agent := 0 }], [initial_pingrp_state 0]⟩) := by
  decide

/-- C4 (pin case fails): agent 1 owns group 0; agent 0 releases the unowned pin 0
and is answered InUse. -/
theorem release_unowned_pin_in_use :
    resource_owner ⟨[owned_by SCMI_PINCTRL_NO_OWNER], [owned_by 1]⟩ SCMI_PINCTRL_SELECTOR_PIN 0
        = some SCMI_PINCTRL_NO_OWNER ∧
      permitted 1 0 = true ∧
      (scmi_pinctrl_release_handler sample_platform (agent_api 0) (one_pin_one_group 1 2)
        ⟨[owned_by SCMI_PINCTRL_NO_OWNER], [owned_by 1]⟩ 0 (words [0, 0])).statuses
        = [scmi_error.SCMI_IN_USE] ∧
      run_trace sample_platform (one_pin_one_group 1 2) (init_ctx (one_pin_one_group 1 2))
        [(1, true, 0, 1), (0, false, 0, 0)]
        = some ([scmi_error.SCMI_SUCCESS, scmi_error.SCMI_IN_USE],
            ⟨[initial_pingrp_state 0], [{ initial_pingrp_state 0 with owner_agent := 1 }]⟩) := by
  decide

/-- C5 (pin case fails): agent 1 owns pin 0, group 0 is unowned; agent 0, permitted
on pin 0, releases pin 0 and is answered Success. -/
theorem release_pin_by_other_succeeds :
    resource_owner ⟨[owned_by 1], [owned_by SCMI_PINCTRL_NO_OWNER]⟩ SCMI_PINCTRL_SELECTOR_PIN 0
        = some 1 ∧
      permitted 3 0 = true ∧
      (scmi_pinctrl_release_handler sample_platform (agent_api 0) (one_pin_one_group 3 2)
        ⟨[owned_by 1], [owned_by SCMI_PINCTRL_NO_OWNER]⟩ 0 (words [0, 0])).statuses
        = [scmi_error.SCMI_SUCCESS] ∧
      run_trace sample_platform (one_pin_one_group 3 2) (init_ctx (one_pin_one_group 3 2))
        [(1, true, 0, 0), (0, false, 0, 0)]
        = some ([scmi_error.SCMI_SUCCESS, scmi_error.SCMI_SUCCESS],
            ⟨[{ initial_pingrp_state 0 with owner_agent := 1 }], [initial_pingrp_state 0]⟩) := by
  decide

/-- C6: request and release answer NotFound when the masked identifier is not
below the count of the namespace, whatever the tables hold, and Denied when
it is below the count and the bit of the caller is clear in the permission
mask; the context is unchanged in both cases. -/
theorem request_release_error_order (p : Platform) (api : mod_scmi_from_protocol_api)
    (cfg : mod_scmi_pinctrl_config) (ctx : scmi_pinctrl_context)
    (service_id : Nat) (payload : Nat → Nat) (a selector id : Nat)
    (hagent : api.get_agent_id service_id = (fwk_status.FWK_SUCCESS, a))
    (hvalid : a < p.SCMI_AGENT_TYPE_COUNT)
    (hsel : payload_word payload 1 &&& SCMI_PINCTRL_SELECTOR_MASK = selector)
    (hpg : selector = SCMI_PINCTRL_SELECTOR_PIN ∨ selector = SCMI_PINCTRL_SELECTOR_GROUP)
    (hid : payload_word payload 0 &&& 0xffff = id) :
    (resource_count cfg selector ≤ id →
      (scmi_pinctrl_request_handler p api cfg ctx service_id payload).statuses
          = [scmi_error.SCMI_NOT_FOUND] ∧
        (scmi_pinctrl_request_handler p api cfg ctx service_id payload).ctx = ctx ∧
        (scmi_pinctrl_release_handler p api cfg ctx service_id payload).statuses
          = [scmi_error.SCMI_NOT_FOUND] ∧
        (scmi_pinctrl_release_handler p api cfg ctx service_id payload).ctx = ctx) ∧
    (∀ perm, id < resource_count cfg selector →
      resource_permission cfg selector id = some perm → permitted perm a = false →
      (scmi_pinctrl_request_handler p api cfg ctx service_id payload).statuses
          = [scmi_error.SCMI_DENIED] ∧
        (scmi_pinctrl_request_handler p api cfg ctx service_id payload).ctx = ctx ∧
        (scmi_pinctrl_release_handler p api cfg ctx service_id payload).statuses
          = [scmi_error.SCMI_DENIED] ∧
        (scmi_pinctrl_release_handler p api cfg ctx service_id payload).ctx = ctx) := by
  have hnv : ¬ p.SCMI_AGENT_TYPE_COUNT ≤ a := Nat.not_le.mpr hvalid
  rcases hpg with hs | hs
  · subst hs
    refine ⟨fun hge => ?_, fun perm hlt hperm hbit => ?_⟩
    · simp only [resource_count, if_true] at hge
      simp [scmi_pinctrl_request_handler, scmi_pinctrl_release_handler, hagent, hnv, hsel, hid,
        hge, respond_statuses, respond_ctx, ResponsePayload.status]
    · simp only [resource_count, resource_permission, if_true] at hlt hperm
      obtain ⟨e, he, hpe⟩ := Option.map_eq_some'.mp hperm
      have hnr : ¬ cfg.pin_count ≤ id := Nat.not_le.mpr hlt
      subst hpe
      simp [scmi_pinctrl_request_handler, scmi_pinctrl_release_handler, hagent, hnv, hsel, hid,
        hnr, he, hbit, respond_statuses, respond_ctx, ResponsePayload.status]
  · subst hs
    refine ⟨fun hge => ?_, fun perm hlt hperm hbit => ?_⟩
    · simp only [resource_count, selector_group_ne_pin, if_true, if_false] at hge
      simp [scmi_pinctrl_request_handler, scmi_pinctrl_release_handler, hagent, hnv, hsel, hid,
        hge, respond_statuses, respond_ctx, ResponsePayload.status, selector_group_ne_pin]
    · simp only [resource_count, resource_permission, selector_group_ne_pin, if_true, if_false]
        at hlt hperm
      obtain ⟨e, he, hpe⟩ := Option.map_eq_some'.mp hperm
      have hnr : ¬ cfg.group_count ≤ id := Nat.not_le.mpr hlt
      subst hpe
      simp [scmi_pinctrl_request_handler, scmi_pinctrl_release_handler, hagent, hnv, hsel, hid,
        hnr, he, hbit, respond_statuses, respond_ctx, ResponsePayload.status,
        selector_group_ne_pin]

/-- Witness of C6: on the two-pin catalog, agent 0 is answered NotFound for pin 2
and Denied for pin 1, by request and by release. -/
theorem request_release_error_order_witness :
    ((scmi_pinctrl_request_handler sample_platform (agent_api 0) two_pins (init_ctx two_pins) 0
        (words [2, 0])).statuses = [scmi_error.SCMI_NOT_FOUND] ∧
      (scmi_pinctrl_release_handler sample_platform (agent_api 0) two_pins (init_ctx two_pins) 0
        (words [2, 0])).statuses = [scmi_error.SCMI_NOT_FOUND]) ∧
    ((scmi_pinctrl_request_handler sample_platform (agent_api 0) two_pins (init_ctx two_pins) 0
        (words [1, 0])).statuses = [scmi_error.SCMI_DENIED] ∧
      (scmi_pinctrl_release_handler sample_platform (agent_api 0) two_pins (init_ctx two_pins) 0
        (words [1, 0])).statuses = [scmi_error.SCMI_DENIED]) :=
  have h2 := (request_release_error_order sample_platform (agent_api 0) two_pins
    (init_ctx two_pins) 0 (words [2, 0]) 0 SCMI_PINCTRL_SELECTOR_PIN 2 rfl (by decide)
    (by decide) (Or.inl rfl) (by decide)).1 (by decide)
  have h1 := (request_release_error_order sample_platform (agent_api 0) two_pins
    (init_ctx two_pins) 0 (words [1, 0]) 0 SCMI_PINCTRL_SELECTOR_PIN 1 rfl (by decide)
    (by decide) (Or.inl rfl) (by decide)).2 0 (by decide) (by decide) (by decide)
  ⟨⟨h2.1, h2.2.2.1⟩, ⟨h1.1, h1.2.2.1⟩⟩

/-! ## Preservation of the ownership invariant -/

theorem invariant_set_pin (p : Platform) (cfg : mod_scmi_pinctrl_config)
    (ctx : scmi_pinctrl_context) (id : Nat) (st : scmi_pinctrl_pingrp_state)
    (hinv : ownership_invariant p cfg ctx)
    (h : ∀ e, cfg.pin_table[id]? = some e → owner_ok p e.agent_permission st) :
    ownership_invariant p cfg { ctx with pin_state := ctx.pin_state.set id st } := by
  refine ⟨fun i e st1 he hst1 => ?_, hinv.2⟩
  rw [List.getElem?_set] at hst1
  by_cases hi : id = i
  · subst hi
    by_cases hl : id < ctx.pin_state.length
    · simp only [if_true, hl] at hst1
      cases hst1
      exact h e he
    · simp [hl] at hst1
  · simp only [hi, if_false] at hst1
    exact hinv.1 i e st1 he hst1

theorem invariant_set_group (p : Platform) (cfg : mod_scmi_pinctrl_config)
    (ctx : scmi_pinctrl_context) (id : Nat) (st : scmi_pinctrl_pingrp_state)
    (hinv : ownership_invariant p cfg ctx)
    (h : ∀ e, cfg.group_table[id]? = some e → owner_ok p e.agent_permission st) :
    ownership_invariant p cfg { ctx with group_state := ctx.group_state.set id st } := by
  refine ⟨hinv.1, fun i e st1 he hst1 => ?_⟩
  rw [List.getElem?_set] at hst1
  by_cases hi : id = i
  · subst hi
    by_cases hl : id < ctx.group_state.length
    · simp only [if_true, hl] at hst1
      cases hst1
      exact h e he
    · simp [hl] at hst1
  · simp only [hi, if_false] at hst1
    exact hinv.2 i e st1 he hst1

theorem request_preserves_invariant (p : Platform) (api : mod_scmi_from_protocol_api)
    (cfg : mod_scmi_pinctrl_config) (ctx : scmi_pinctrl_context)
    (service_id : Nat) (payload : Nat → Nat) (hinv : ownership_invariant p cfg ctx) :
    ownership_invariant p cfg
      (scmi_pinctrl_request_handler p api cfg ctx service_id payload).ctx := by
  simp only [scmi_pinctrl_request_handler]
  repeat' split
  all_goals first | exact hinv | skip
  · rename_i hv _ _ _ e he hb _ st _ _
    refine invariant_set_pin p cfg ctx _ _ hinv (fun e1 he1 => Or.inr ⟨Nat.not_le.mp hv, ?_⟩)
    rw [he] at he1
    cases he1
    simpa using hb
  · rename_i hv _ _ _ _ e he hb _ st _ _
    refine invariant_set_group p cfg ctx _ _ hinv (fun e1 he1 => Or.inr ⟨Nat.not_le.mp hv, ?_⟩)
    rw [he] at he1
    cases he1
    simpa using hb

theorem release_preserves_invariant (p : Platform) (api : mod_scmi_from_protocol_api)
    (cfg : mod_scmi_pinctrl_config) (ctx : scmi_pinctrl_context)
    (service_id : Nat) (payload : Nat → Nat) (hinv : ownership_invariant p cfg ctx) :
    ownership_invariant p cfg
      (scmi_pinctrl_release_handler p api cfg ctx service_id payload).ctx := by
  simp only [scmi_pinctrl_release_handler]
  repeat' split
  all_goals first | exact hinv | skip
  all_goals exact invariant_set_group p cfg ctx _ _ hinv (fun _ _ => Or.inl rfl)

/-! ## Stores past the end of the group state array -/

theorem protocol_attributes_stray (p : Platform) (api : mod_scmi_from_protocol_api)
    (cfg : mod_scmi_pinctrl_config) (fuel : Nat) (ctx : scmi_pinctrl_context)
    (service_id : Nat) (payload : Nat → Nat) :
    (scmi_pinctrl_protocol_attributes_handler p api cfg fuel ctx service_id payload).stray_stores
      = [] := by
  simp only [scmi_pinctrl_protocol_attributes_handler]
  repeat' split
  all_goals rfl

theorem attributes_stray (p : Platform) (api : mod_scmi_from_protocol_api)
    (cfg : mod_scmi_pinctrl_config) (ctx : scmi_pinctrl_context)
    (service_id : Nat) (payload : Nat → Nat) :
    (scmi_pinctrl_attributes_handler p api cfg ctx service_id payload).stray_stores = [] := by
  simp only [scmi_pinctrl_attributes_handler, attributes_case]
  repeat' split
  all_goals rfl

theorem list_assoc_stray (p : Platform) (api : mod_scmi_from_protocol_api)
    (cfg : mod_scmi_pinctrl_config) (ctx : scmi_pinctrl_context)
    (service_id : Nat) (payload : Nat → Nat) :
    (scmi_pinctrl_list_assoc_handler p api cfg ctx service_id payload).stray_stores = [] := by
  simp only [scmi_pinctrl_list_assoc_handler, list_assoc_case]
  repeat' split
  all_goals rfl

theorem name_get_stray (p : Platform) (api : mod_scmi_from_protocol_api)
    (cfg : mod_scmi_pinctrl_config) (ctx : scmi_pinctrl_context)
    (service_id : Nat) (payload : Nat → Nat) :
    (scmi_pinctrl_name_get_handler p api cfg ctx service_id payload).stray_stores = [] := by
  simp only [scmi_pinctrl_name_get_handler, name_get_case]
  repeat' split
  all_goals rfl

theorem request_stray (p : Platform) (api : mod_scmi_from_protocol_api)
    (cfg : mod_scmi_pinctrl_config) (ctx : scmi_pinctrl_context)
    (service_id : Nat) (payload : Nat → Nat) :
    (scmi_pinctrl_request_handler p api cfg ctx service_id payload).stray_stores = [] := by
  simp only [scmi_pinctrl_request_handler]
  repeat' split
  all_goals rfl

/-- The only value the release handler stores past the end of `group_state` is
`SCMI_PINCTRL_NO_OWNER`. -/
theorem release_stray (p : Platform) (api : mod_scmi_from_protocol_api)
    (cfg : mod_scmi_pinctrl_config) (ctx : scmi_pinctrl_context)
    (service_id : Nat) (payload : Nat → Nat) (index value : Nat)
    (h : (index, value) ∈
      (scmi_pinctrl_release_handler p api cfg ctx service_id payload).stray_stores) :
    value = SCMI_PINCTRL_NO_OWNER := by
  revert h
  simp only [scmi_pinctrl_release_handler]
  repeat' split
  all_goals first
    | (intro h
       simp only [respond_after_stray_store, List.mem_singleton, Prod.mk.injEq] at h
       exact h.2)
    | (intro h; cases h)

/-- No handler other than release stores past the end of an array, and release
stores `SCMI_PINCTRL_NO_OWNER` only. -/
theorem call_handler_stray (p : Platform) (api : mod_scmi_from_protocol_api)
    (cfg : mod_scmi_pinctrl_config) (fuel : Nat) (h : Handler) (ctx : scmi_pinctrl_context)
    (service_id : Nat) (payload : Nat → Nat) (index value : Nat)
    (hmem : (index, value) ∈
      (call_handler p api cfg fuel h ctx service_id payload).stray_stores) :
    value = SCMI_PINCTRL_NO_OWNER := by
  cases h
  case release => exact release_stray p api cfg ctx service_id payload index value hmem
  case request =>
    simp only [call_handler, request_stray] at hmem
    cases hmem
  case protocol_version => cases hmem
  case negotiate_protocol_version => cases hmem
  case protocol_attributes =>
    simp only [call_handler, protocol_attributes_stray] at hmem
    cases hmem
  case protocol_message_attributes =>
    simp only [call_handler, scmi_pinctrl_protocol_message_attributes_handler] at hmem
    cases hmem
  case attributes =>
    simp only [call_handler, attributes_stray] at hmem
    cases hmem
  case list_assoc =>
    simp only [call_handler, list_assoc_stray] at hmem
    cases hmem
  case settings_get => cases hmem
  case settings_configure => cases hmem
  case name_get =>
    simp only [call_handler, name_get_stray] at hmem
    cases hmem
  case set_permissions => cases hmem

theorem message_handler_stray (p : Platform) (api : mod_scmi_from_protocol_api)
    (cfg : mod_scmi_pinctrl_config) (fuel : Nat) (ctx : scmi_pinctrl_context)
    (protocol_id service_id : Nat) (payload : Nat → Nat) (payload_size message_id : Nat)
    (index value : Nat)
    (hmem : (index, value) ∈
      (scmi_pinctrl_message_handler p api cfg fuel ctx protocol_id service_id payload
        payload_size message_id).stray_stores) :
    value = SCMI_PINCTRL_NO_OWNER := by
  revert hmem
  simp only [scmi_pinctrl_message_handler]
  repeat' split
  all_goals first
    | exact call_handler_stray _ _ _ _ _ _ _ _ _ _
    | (intro h; cases h)

/-- A context clobbered by a store of `SCMI_PINCTRL_NO_OWNER` still satisfies the
ownership invariant. -/
theorem clobbered_preserves_invariant (p : Platform) (cfg : mod_scmi_pinctrl_config)
    (ctx ctx' : scmi_pinctrl_context) (hinv : ownership_invariant p cfg ctx)
    (hc : clobbered SCMI_PINCTRL_NO_OWNER ctx ctx') :
    ownership_invariant p cfg ctx' := by
  constructor
  · intro i e st' he hst'
    obtain ⟨st, hst, hown⟩ := hc.1 i st' hst'
    rcases hown with h | h
    · have h1 := hinv.1 i e st he hst
      unfold owner_ok at h1 ⊢
      rw [h]
      exact h1
    · exact Or.inl h
  · intro i e st' he hst'
    obtain ⟨st, hst, hown⟩ := hc.2 i st' hst'
    rcases hown with h | h
    · have h1 := hinv.2 i e st he hst
      unfold owner_ok at h1 ⊢
      rw [h]
      exact h1
    · exact Or.inl h

/-! ## Handlers that never write the context -/

theorem protocol_attributes_ctx (p : Platform) (api : mod_scmi_from_protocol_api)
    (cfg : mod_scmi_pinctrl_config) (fuel : Nat) (ctx : scmi_pinctrl_context)
    (service_id : Nat) (payload : Nat → Nat) :
    (scmi_pinctrl_protocol_attributes_handler p api cfg fuel ctx service_id payload).ctx
      = ctx := by
  simp only [scmi_pinctrl_protocol_attributes_handler]
  repeat' split
  all_goals rfl

theorem attributes_case_ctx (api : mod_scmi_from_protocol_api) (ctx : scmi_pinctrl_context)
    (service_id agent_id agent_permission : Nat) (name : List Nat) (member_count : Nat) :
    (attributes_case api ctx service_id agent_id agent_permission name member_count).ctx
      = ctx := by
  simp only [attributes_case]
  split <;> rfl

theorem attributes_ctx (p : Platform) (api : mod_scmi_from_protocol_api)
    (cfg : mod_scmi_pinctrl_config) (ctx : scmi_pinctrl_context)
    (service_id : Nat) (payload : Nat → Nat) :
    (scmi_pinctrl_attributes_handler p api cfg ctx service_id payload).ctx = ctx := by
  simp only [scmi_pinctrl_attributes_handler]
  repeat' split
  all_goals first | rfl | exact attributes_case_ctx _ _ _ _ _ _ _

theorem list_assoc_case_ctx (api : mod_scmi_from_protocol_api) (ctx : scmi_pinctrl_context)
    (service_id agent_id agent_permission : Nat) (members : List Nat)
    (member_count index : Nat) :
    (list_assoc_case api ctx service_id agent_id agent_permission members member_count
      index).ctx = ctx := by
  simp only [list_assoc_case]
  repeat' split
  all_goals rfl

theorem list_assoc_ctx (p : Platform) (api : mod_scmi_from_protocol_api)
    (cfg : mod_scmi_pinctrl_config) (ctx : scmi_pinctrl_context)
    (service_id : Nat) (payload : Nat → Nat) :
    (scmi_pinctrl_list_assoc_handler p api cfg ctx service_id payload).ctx = ctx := by
  simp only [scmi_pinctrl_list_assoc_handler]
  repeat' split
  all_goals first | rfl | exact list_assoc_case_ctx _ _ _ _ _ _ _ _

theorem name_get_case_ctx (api : mod_scmi_from_protocol_api) (ctx : scmi_pinctrl_context)
    (service_id agent_id agent_permission : Nat) (name : List Nat) :
    (name_get_case api ctx service_id agent_id agent_permission name).ctx = ctx := by
  simp only [name_get_case]
  split <;> rfl

theorem name_get_ctx (p : Platform) (api : mod_scmi_from_protocol_api)
    (cfg : mod_scmi_pinctrl_config) (ctx : scmi_pinctrl_context)
    (service_id : Nat) (payload : Nat → Nat) :
    (scmi_pinctrl_name_get_handler p api cfg ctx service_id payload).ctx = ctx := by
  simp only [scmi_pinctrl_name_get_handler]
  repeat' split
  all_goals first | rfl | exact name_get_case_ctx _ _ _ _ _ _

/-- Every handler of the table except request and release leaves the context
as it was, however the call ends. -/
theorem call_handler_ctx (p : Platform) (api : mod_scmi_from_protocol_api)
    (cfg : mod_scmi_pinctrl_config) (fuel : Nat) (h : Handler) (ctx : scmi_pinctrl_context)
    (service_id : Nat) (payload : Nat → Nat)
    (hreq : h ≠ Handler.request) (hrel : h ≠ Handler.release) :
    (call_handler p api cfg fuel h ctx service_id payload).ctx = ctx := by
  cases h
  case request => exact absurd rfl hreq
  case release => exact absurd rfl hrel
  case protocol_version => rfl
  case negotiate_protocol_version => rfl
  case protocol_attributes => exact protocol_attributes_ctx p api cfg fuel ctx service_id payload
  case protocol_message_attributes => rfl
  case attributes => exact attributes_ctx _ _ _ _ _ _
  case list_assoc => exact list_assoc_ctx _ _ _ _ _ _
  case settings_get => rfl
  case settings_configure => rfl
  case name_get => exact name_get_ctx _ _ _ _ _ _
  case set_permissions => rfl

theorem call_handler_preserves_invariant (p : Platform) (api : mod_scmi_from_protocol_api)
    (cfg : mod_scmi_pinctrl_config) (fuel : Nat) (h : Handler) (ctx : scmi_pinctrl_context)
    (service_id : Nat) (payload : Nat → Nat) (hinv : ownership_invariant p cfg ctx) :
    ownership_invariant p cfg (call_handler p api cfg fuel h ctx service_id payload).ctx := by
  by_cases hreq : h = Handler.request
  · subst hreq
    exact request_preserves_invariant p api cfg ctx service_id payload hinv
  · by_cases hrel : h = Handler.release
    · subst hrel
      exact release_preserves_invariant p api cfg ctx service_id payload hinv
    · rw [call_handler_ctx p api cfg fuel h ctx service_id payload hreq hrel]
      exact hinv

theorem message_handler_preserves_invariant (p : Platform) (api : mod_scmi_from_protocol_api)
    (cfg : mod_scmi_pinctrl_config) (fuel : Nat) (ctx : scmi_pinctrl_context)
    (protocol_id service_id : Nat) (payload : Nat → Nat) (payload_size message_id : Nat)
    (hinv : ownership_invariant p cfg ctx) :
    ownership_invariant p cfg
      (scmi_pinctrl_message_handler p api cfg fuel ctx protocol_id service_id payload
        payload_size message_id).ctx := by
  simp only [scmi_pinctrl_message_handler]
  repeat' split
  all_goals first | exact hinv | exact call_handler_preserves_invariant _ _ _ _ _ _ _ _ hinv

/-! ## Lookups in the handler table -/

theorem getElem?_set_or {α : Type} (l : List α) (i m : Nat) (x y : α)
    (h : (l.set i x)[m]? = some y) : (i = m ∧ x = y) ∨ l[m]? = some y := by
  rw [List.getElem?_set] at h
  by_cases him : i = m
  · simp only [him, if_true] at h
    by_cases hl : m < l.length
    · simp only [hl, if_true] at h
      exact Or.inl ⟨him, Option.some.inj h⟩
    · simp [hl] at h
  · simp only [him, if_false] at h
    exact Or.inr h

theorem getElem?_set_of_ne {α : Type} (l : List α) (i m : Nat) (x y : α)
    (h : (l.set i x)[m]? = some y) (hne : x ≠ y) : l[m]? = some y := by
  rcases getElem?_set_or l i m x y h with ⟨_, hxy⟩ | h1
  · exact absurd hxy hne
  · exact h1

theorem replicate_none_lookup (n m : Nat) (h : Handler) :
    (List.replicate n (none : Option Handler))[m]? ≠ some (some h) := by
  intro hc
  obtain ⟨hlt, hget⟩ := List.getElem?_eq_some.mp hc
  rw [List.getElem_replicate] at hget
  cases hget

/-- The request handler is found in the table only at the request command. -/
theorem handler_table_request (p : Platform) (m : Nat)
    (h : (handler_table p)[m]? = some (some Handler.request)) :
    m = p.MOD_SCMI_PIN_CONTROL_REQUEST := by
  unfold handler_table at h
  have h1 := getElem?_set_of_ne _ _ _ _ _ h (by decide)
  have h2 := getElem?_set_of_ne _ _ _ _ _ h1 (by decide)
  have h3 := getElem?_set_of_ne _ _ _ _ _ h2 (by decide)
  rcases getElem?_set_or _ _ _ _ _ h3 with ⟨hm, _⟩ | h4
  · exact hm.symm
  · have h5 := getElem?_set_of_ne _ _ _ _ _ h4 (by decide)
    have h6 := getElem?_set_of_ne _ _ _ _ _ h5 (by decide)
    have h7 := getElem?_set_of_ne _ _ _ _ _ h6 (by decide)
    have h8 := getElem?_set_of_ne _ _ _ _ _ h7 (by decide)
    have h9 := getElem?_set_of_ne _ _ _ _ _ h8 (by decide)
    have h10 := getElem?_set_of_ne _ _ _ _ _ h9 (by decide)
    have h11 := getElem?_set_of_ne _ _ _ _ _ h10 (by decide)
    have h12 := getElem?_set_of_ne _ _ _ _ _ h11 (by decide)
    exact absurd h12 (replicate_none_lookup _ _ _)

/-- The release handler is found in the table only at the release command. -/
theorem handler_table_release (p : Platform) (m : Nat)
    (h : (handler_table p)[m]? = some (some Handler.release)) :
    m = p.MOD_SCMI_PIN_CONTROL_RELEASE := by
  unfold handler_table at h
  have h1 := getElem?_set_of_ne _ _ _ _ _ h (by decide)
  have h2 := getElem?_set_of_ne _ _ _ _ _ h1 (by decide)
  rcases getElem?_set_or _ _ _ _ _ h2 with ⟨hm, _⟩ | h3
  · exact hm.symm
  · have h4 := getElem?_set_of_ne _ _ _ _ _ h3 (by decide)
    have h5 := getElem?_set_of_ne _ _ _ _ _ h4 (by decide)
    have h6 := getElem?_set_of_ne _ _ _ _ _ h5 (by decide)
    have h7 := getElem?_set_of_ne _ _ _ _ _ h6 (by decide)
    have h8 := getElem?_set_of_ne _ _ _ _ _ h7 (by decide)
    have h9 := getElem?_set_of_ne _ _ _ _ _ h8 (by decide)
    have h10 := getElem?_set_of_ne _ _ _ _ _ h9 (by decide)
    have h11 := getElem?_set_of_ne _ _ _ _ _ h10 (by decide)
    have h12 := getElem?_set_of_ne _ _ _ _ _ h11 (by decide)
    exact absurd h12 (replicate_none_lookup _ _ _)

/-- C10: a call of the entry point with a message identifier other than those of
request and release leaves the context, and so the owner of every pin and
every group, as it was, for every payload, payload size, agent and fuel and
however the call ends. -/
theorem only_request_and_release_write_owners (p : Platform)
    (api : mod_scmi_from_protocol_api) (cfg : mod_scmi_pinctrl_config) (fuel : Nat)
    (ctx : scmi_pinctrl_context) (protocol_id service_id : Nat) (payload : Nat → Nat)
    (payload_size message_id : Nat)
    (hreq : message_id ≠ p.MOD_SCMI_PIN_CONTROL_REQUEST)
    (hrel : message_id ≠ p.MOD_SCMI_PIN_CONTROL_RELEASE) :
    (scmi_pinctrl_message_handler p api cfg fuel ctx protocol_id service_id payload
        payload_size message_id).ctx = ctx ∧
      owners (scmi_pinctrl_message_handler p api cfg fuel ctx protocol_id service_id payload
        payload_size message_id).ctx = owners ctx := by
  have key : (scmi_pinctrl_message_handler p api cfg fuel ctx protocol_id service_id payload
        payload_size message_id).ctx = ctx := by
    simp only [scmi_pinctrl_message_handler]
    repeat' split
    all_goals first | rfl | skip
    rename_i h heq
    refine call_handler_ctx p api cfg fuel h ctx service_id payload ?_ ?_
    · intro hh
      subst hh
      exact hreq (handler_table_request p message_id heq)
    · intro hh
      subst hh
      exact hrel (handler_table_release p message_id heq)
  exact ⟨key, by rw [key]⟩

/-- Witness of C10: an attributes message (command 3) from agent 0 leaves a
context with two owned records as it was. -/
theorem only_request_and_release_write_owners_witness :
    (scmi_pinctrl_message_handler sample_platform (agent_api 0) (one_pin_one_group 1 2) 5
        ⟨[owned_by 0], [owned_by 1]⟩ 0 0 (words [0, 0]) 8 3).ctx
      = ⟨[owned_by 0], [owned_by 1]⟩ :=
  (only_request_and_release_write_owners sample_platform (agent_api 0) (one_pin_one_group 1 2) 5
    ⟨[owned_by 0], [owned_by 1]⟩ 0 0 (words [0, 0]) 8 3 (by decide) (by decide)).1

/-! ## The state init leaves -/

theorem init_loop_eq (alloc_ok : Nat → Bool) (config_count : Nat) :
    ∀ (count call : Nat) (l : List scmi_pinctrl_pingrp_state),
      init_loop alloc_ok config_count count call = some l →
      l = List.replicate count (initial_pingrp_state config_count) := by
  intro count
  induction count with
  | zero =>
    intro call l h
    simp only [init_loop] at h
    cases h
    rfl
  | succ n ih =>
    intro call l h
    simp only [init_loop] at h
    by_cases ha : alloc_ok call = true
    · simp only [ha, if_true] at h
      obtain ⟨rest, hrest, hl⟩ := Option.map_eq_some'.mp h
      rw [← hl, ih (call + 1) rest hrest]
      rfl
    · simp [ha] at h

/-- A successful init keeps the configuration it was given and leaves one
initial record per pin and per group. -/
theorem init_success (alloc_ok : Nat → Bool) (module_id element_count : Nat)
    (data : Option mod_scmi_pinctrl_config) (cfg : mod_scmi_pinctrl_config)
    (ctx0 : scmi_pinctrl_context)
    (h : scmi_pinctrl_init alloc_ok module_id element_count data
      = (fwk_status.FWK_SUCCESS, some (cfg, ctx0))) :
    data = some cfg ∧ ctx0 = init_ctx cfg := by
  unfold scmi_pinctrl_init at h
  split at h
  · cases h
  · rename_i c
    split at h
    · cases h
    · split at h
      · cases h
      · split at h
        · cases h
        · split at h
          · cases h
          · rename_i pin_state hp
            split at h
            · cases h
            · rename_i group_state hg
              have hp1 := init_loop_eq alloc_ok c.config_count c.pin_count 2 pin_state hp
              have hg1 := init_loop_eq alloc_ok c.config_count c.group_count _ group_state hg
              simp only [Prod.mk.injEq, Option.some.injEq, true_and] at h
              obtain ⟨hc, hctx⟩ := h
              subst hc
              subst hctx
              subst hp1
              subst hg1
              exact ⟨rfl, rfl⟩

theorem init_ctx_invariant (p : Platform) (cfg : mod_scmi_pinctrl_config) :
    ownership_invariant p cfg (init_ctx cfg) := by
  constructor
  · intro i e st _ hst
    obtain ⟨hlt, hget⟩ := List.getElem?_eq_some.mp hst
    simp only [init_ctx, List.getElem_replicate] at hget
    subst hget
    exact Or.inl rfl
  · intro i e st _ hst
    obtain ⟨hlt, hget⟩ := List.getElem?_eq_some.mp hst
    simp only [init_ctx, List.getElem_replicate] at hget
    subst hget
    exact Or.inl rfl

/-- C7: in every context reachable from the one a successful init leaves, by any
sequence of calls of the entry point, each pin and each group is unowned or
owned by an agent below the agent count whose bit is set in the permission
mask of that resource.  The calls of release that store past the end of
`group_state` are covered: whichever owner fields of the state arrays such a
store overwrites, the invariant holds in the context it leaves. -/
theorem reachable_ownership_invariant (p : Platform) (alloc_ok : Nat → Bool)
    (module_id element_count : Nat) (data : Option mod_scmi_pinctrl_config)
    (cfg : mod_scmi_pinctrl_config) (ctx0 ctx : scmi_pinctrl_context)
    (hinit : scmi_pinctrl_init alloc_ok module_id element_count data
      = (fwk_status.FWK_SUCCESS, some (cfg, ctx0)))
    (hreach : Reachable p cfg ctx0 ctx) :
    ownership_invariant p cfg ctx := by
  have h0 := (init_success alloc_ok module_id element_count data cfg ctx0 hinit).2
  induction hreach with
  | init =>
    rw [h0]
    exact init_ctx_invariant p cfg
  | step c api fuel protocol_id service_id payload payload_size message_id _ ih =>
    exact message_handler_preserves_invariant p api cfg fuel c protocol_id service_id payload
      payload_size message_id ih
  | stray c api fuel protocol_id service_id payload payload_size message_id index value c1 _
      hmem hclob ih =>
    have hv := message_handler_stray p api cfg fuel c protocol_id service_id payload
      payload_size message_id index value hmem
    rw [hv] at hclob
    exact clobbered_preserves_invariant p cfg _ c1
      (message_handler_preserves_invariant p api cfg fuel c protocol_id service_id payload
        payload_size message_id ih) hclob

/-- Witness of C7: the context after init of a one-pin, one-group catalog and a
request of pin 0 by agent 0; and the context after init of the product
configuration, a request of pin 10 by agent 1 and its release, which stores
past the end of `group_state`. -/
theorem reachable_ownership_invariant_witness :
    ownership_invariant sample_platform (one_pin_one_group 1 2)
        (scmi_pinctrl_message_handler sample_platform (agent_api 0) (one_pin_one_group 1 2) 0
          (init_ctx (one_pin_one_group 1 2)) 0 0 (words [0, 0]) 8 7).ctx ∧
      ownership_invariant sample_platform config_scmi_pinctrl
        (scmi_pinctrl_message_handler sample_platform (agent_api 1) config_scmi_pinctrl 0
          (scmi_pinctrl_message_handler sample_platform (agent_api 1) config_scmi_pinctrl 0
            (init_ctx config_scmi_pinctrl) 0 0 (words [10, 0]) 8 7).ctx
          0 0 (words [10, 0]) 8 8).ctx :=
  ⟨reachable_ownership_invariant sample_platform (fun _ => true) 0 0
      (some (one_pin_one_group 1 2)) (one_pin_one_group 1 2) (init_ctx (one_pin_one_group 1 2))
      _ (by decide)
      (Reachable.step (init_ctx (one_pin_one_group 1 2)) (agent_api 0) 0 0 0 (words [0, 0]) 8 7
        Reachable.init),
   reachable_ownership_invariant sample_platform (fun _ => true) 0 0
      (some config_scmi_pinctrl) config_scmi_pinctrl (init_ctx config_scmi_pinctrl)
      _ (by decide)
      (Reachable.step _ (agent_api 1) 0 0 0 (words [10, 0]) 8 8
        (Reachable.step (init_ctx config_scmi_pinctrl) (agent_api 1) 0 0 0 (words [10, 0]) 8 7
          Reachable.init))⟩

/-- C8 (fails): agent 0 has no permission on group 0, which agent 1 owns.  One
release of pin 0 by agent 0, the owner of pin 0, makes group 0 unowned. -/
theorem release_pin_clears_unpermitted_group :
    permitted 2 0 = false ∧
      resource_owner ⟨[owned_by 0], [owned_by 1]⟩ SCMI_PINCTRL_SELECTOR_GROUP 0 = some 1 ∧
      resource_owner
        (scmi_pinctrl_message_handler sample_platform (agent_api 0) (one_pin_one_group 1 2) 0
          ⟨[owned_by 0], [owned_by 1]⟩ 0 0 (words [0, 0]) 8 8).ctx
        SCMI_PINCTRL_SELECTOR_GROUP 0 = some SCMI_PINCTRL_NO_OWNER ∧
      run_trace sample_platform (one_pin_one_group 1 2) (init_ctx (one_pin_one_group 1 2))
        [(1, true, 0, 1), (0, true, 0, 0), (0, false, 0, 0)]
        = some ([scmi_error.SCMI_SUCCESS, scmi_error.SCMI_SUCCESS, scmi_error.SCMI_SUCCESS],
            ⟨[{ initial_pingrp_state 0 with owner_agent := 0 }], [initial_pingrp_state 0]⟩) := by
  decide

/-- The five calls of the scenario of the specification on the catalog with one
group added answer Success, InUse, Denied, Success, Success, and pin 0 is still
owned by agent 0 at the end. -/
theorem scenario_statuses_with_group :
    run_trace sample_platform two_pins_one_group (init_ctx two_pins_one_group)
        [(0, true, 0, 0), (0, true, 0, 0), (0, true, 1, 0), (0, false, 0, 0), (0, false, 0, 0)]
      = some ([scmi_error.SCMI_SUCCESS, scmi_error.SCMI_IN_USE, scmi_error.SCMI_DENIED,
            scmi_error.SCMI_SUCCESS, scmi_error.SCMI_SUCCESS],
          ⟨[owned_by 0, owned_by SCMI_PINCTRL_NO_OWNER], [owned_by SCMI_PINCTRL_NO_OWNER]⟩) := by
  decide

/-! ## The checks of the entry point -/

theorem handler_table_length (p : Platform) :
    (handler_table p).length = p.MOD_SCMI_PIN_CONTROL_COMMAND_COUNT := by
  simp only [handler_table, List.length_set, List.length_replicate]

/-- C12: for a message identifier inside the tables and a payload size different
from the entry of `payload_size_table`, the entry point does nothing but
respond ProtocolError once: no handler runs and the context is unchanged. -/
theorem size_mismatch_protocol_error (p : Platform) (api : mod_scmi_from_protocol_api)
    (cfg : mod_scmi_pinctrl_config) (fuel : Nat) (ctx : scmi_pinctrl_context)
    (protocol_id service_id : Nat) (payload : Nat → Nat) (payload_size message_id a : Nat)
    (expected : Nat)
    (hagent : api.get_agent_id service_id = (fwk_status.FWK_SUCCESS, a))
    (hvalid : a < p.SCMI_AGENT_TYPE_COUNT)
    (hknown : message_id < p.MOD_SCMI_PIN_CONTROL_COMMAND_COUNT)
    (hexp : (payload_size_table p)[message_id]? = some expected)
    (hsize : payload_size ≠ expected) :
    scmi_pinctrl_message_handler p api cfg fuel ctx protocol_id service_id payload
        payload_size message_id
      = respond api service_id ctx
          (ResponsePayload.return_value scmi_error.SCMI_PROTOCOL_ERROR) 4 := by
  have hnv : ¬ p.SCMI_AGENT_TYPE_COUNT ≤ a := Nat.not_le.mpr hvalid
  have hk : ¬ p.MOD_SCMI_PIN_CONTROL_COMMAND_COUNT ≤ message_id := Nat.not_le.mpr hknown
  simp [scmi_pinctrl_message_handler, hagent, hnv, handler_table_length, hk, hexp, hsize]

/-- Witness of C12: a request message (command 7) with a payload of 7 bytes, one
less than the 8 bytes of the request struct, on a context with an owned pin. -/
theorem size_mismatch_protocol_error_witness :
    scmi_pinctrl_message_handler sample_platform (agent_api 0) (one_pin_one_group 1 2) 0
        (init_ctx (one_pin_one_group 1 2)) 0 0 (words [0, 0]) 7 7
      = respond (agent_api 0) 0 (init_ctx (one_pin_one_group 1 2))
          (ResponsePayload.return_value scmi_error.SCMI_PROTOCOL_ERROR) 4 :=
  size_mismatch_protocol_error sample_platform (agent_api 0) (one_pin_one_group 1 2) 0
    (init_ctx (one_pin_one_group 1 2)) 0 0 (words [0, 0]) 7 7 0 8 rfl (by decide) (by decide)
    (by decide) (by decide)

/-- C13: for a message identifier at or beyond the size of the handler table, the
entry point does nothing but respond NotFound once.  The outcome is the same
for every catalog and fuel, no handler runs and the context is unchanged. -/
theorem unknown_message_not_found (p : Platform) (api : mod_scmi_from_protocol_api)
    (cfg : mod_scmi_pinctrl_config) (fuel : Nat) (ctx : scmi_pinctrl_context)
    (protocol_id service_id : Nat) (payload : Nat → Nat) (payload_size message_id a : Nat)
    (hagent : api.get_agent_id service_id = (fwk_status.FWK_SUCCESS, a))
    (hvalid : a < p.SCMI_AGENT_TYPE_COUNT)
    (hunknown : p.MOD_SCMI_PIN_CONTROL_COMMAND_COUNT ≤ message_id) :
    scmi_pinctrl_message_handler p api cfg fuel ctx protocol_id service_id payload
        payload_size message_id
      = respond api service_id ctx (ResponsePayload.return_value scmi_error.SCMI_NOT_FOUND) 4 := by
  have hnv : ¬ p.SCMI_AGENT_TYPE_COUNT ≤ a := Nat.not_le.mpr hvalid
  simp [scmi_pinctrl_message_handler, hagent, hnv, handler_table_length, hunknown]

/-- Witness of C13: message 17, the first identifier beyond the table of the sample
platform. -/
theorem unknown_message_not_found_witness :
    scmi_pinctrl_message_handler sample_platform (agent_api 0) (one_pin_one_group 1 2) 0
        ⟨[owned_by 0], [owned_by 1]⟩ 0 0 (words [0, 0]) 8 17
      = respond (agent_api 0) 0 ⟨[owned_by 0], [owned_by 1]⟩
          (ResponsePayload.return_value scmi_error.SCMI_NOT_FOUND) 4 :=
  unknown_message_not_found sample_platform (agent_api 0) (one_pin_one_group 1 2) 0
    ⟨[owned_by 0], [owned_by 1]⟩ 0 0 (words [0, 0]) 8 17 0 rfl (by decide) (by decide)

/-- C15: negotiate version answers Success exactly when the requested word equals
the version that the protocol version handler reports, 0x10000, and
NotSupported for every other word. -/
theorem negotiate_version_exact (p : Platform) (api : mod_scmi_from_protocol_api)
    (ctx : scmi_pinctrl_context) (service_id : Nat) (payload : Nat → Nat) :
    (scmi_pinctrl_protocol_version_handler p api ctx service_id payload).responses
        = [⟨ResponsePayload.protocol_version scmi_error.SCMI_SUCCESS 0x10000,
            p.sizeof_scmi_protocol_version_p2a⟩] ∧
      ((scmi_pinctrl_negotiate_protocol_version_handler api ctx service_id payload).statuses
          = [scmi_error.SCMI_SUCCESS] ↔ payload_word payload 0 = 0x10000) ∧
      ((scmi_pinctrl_negotiate_protocol_version_handler api ctx service_id payload).statuses
          = [scmi_error.SCMI_NOT_SUPPORTED] ↔ payload_word payload 0 ≠ 0x10000) ∧
      (scmi_pinctrl_negotiate_protocol_version_handler api ctx service_id payload).responses.length
        = 1 ∧
      (scmi_pinctrl_negotiate_protocol_version_handler api ctx service_id payload).ctx = ctx := by
  refine ⟨rfl, ?_, ?_, rfl, rfl⟩
  · by_cases h : payload_word payload 0 = 0x10000
    · simp [scmi_pinctrl_negotiate_protocol_version_handler, respond_statuses,
        ResponsePayload.status, SCMI_PROTOCOL_VERSION_PIN_CONTROL, h]
    · simp [scmi_pinctrl_negotiate_protocol_version_handler, respond_statuses,
        ResponsePayload.status, SCMI_PROTOCOL_VERSION_PIN_CONTROL, h]
  · by_cases h : payload_word payload 0 = 0x10000
    · simp [scmi_pinctrl_negotiate_protocol_version_handler, respond_statuses,
        ResponsePayload.status, SCMI_PROTOCOL_VERSION_PIN_CONTROL, h]
    · simp [scmi_pinctrl_negotiate_protocol_version_handler, respond_statuses,
        ResponsePayload.status, SCMI_PROTOCOL_VERSION_PIN_CONTROL, h]

/-! ## Registered handlers -/

theorem isSome_join_set (l : List (Option Handler)) (i m : Nat) (x : Handler) :
    (((l.set i (some x))[m]?).join).isSome = true
      ↔ (m = i ∧ m < l.length) ∨ ((l[m]?).join).isSome = true := by
  rw [List.getElem?_set]
  by_cases him : i = m
  · subst him
    by_cases hl : i < l.length
    · simp [hl]
    · have hnone : l[i]? = none := List.getElem?_eq_none (Nat.le_of_not_lt hl)
      simp [hl, hnone]
  · have hmi : ¬ m = i := fun h => him h.symm
    simp [him, hmi]

theorem isSome_join_replicate (n m : Nat) :
    (((List.replicate n (none : Option Handler))[m]?).join).isSome = false := by
  by_cases h : m < n
  · simp [List.getElem?_replicate, h]
  · simp [List.getElem?_replicate, h]

/-- The entry of the handler table at `m` is a handler exactly when `m` is inside
the table and is one of the twelve command identifiers. -/
theorem handler_table_registered (p : Platform) (m : Nat) :
    (((handler_table p)[m]?).join).isSome = true
      ↔ m < p.MOD_SCMI_PIN_CONTROL_COMMAND_COUNT ∧ m ∈ command_ids p := by
  unfold handler_table
  rw [isSome_join_set, isSome_join_set, isSome_join_set, isSome_join_set, isSome_join_set,
    isSome_join_set, isSome_join_set, isSome_join_set, isSome_join_set, isSome_join_set,
    isSome_join_set, isSome_join_set, isSome_join_replicate]
  simp only [List.length_set, List.length_replicate, command_ids, List.mem_cons,
    List.mem_singleton, List.not_mem_nil, or_false, Bool.false_eq_true]
  tauto

theorem message_attributes_eq (p : Platform) (api : mod_scmi_from_protocol_api)
    (ctx : scmi_pinctrl_context) (service_id : Nat) (payload : Nat → Nat) :
    scmi_pinctrl_protocol_message_attributes_handler p api ctx service_id payload
      = respond api service_id ctx
          (ResponsePayload.message_attributes
            (if (((handler_table p)[payload_word payload 0]?).join).isSome = true
              then scmi_error.SCMI_SUCCESS else scmi_error.SCMI_NOT_FOUND) 0)
          p.sizeof_scmi_protocol_message_attributes_p2a := by
  have hcond : ((handler_table p).length ≤ payload_word payload 0 ∨
        ((handler_table p)[payload_word payload 0]?).join = none)
      ↔ ((handler_table p)[payload_word payload 0]?).join = none := by
    constructor
    · intro h
      rcases h with hl | hn
      · rw [List.getElem?_eq_none hl]
        rfl
      · exact hn
    · exact Or.inr
  unfold scmi_pinctrl_protocol_message_attributes_handler
  simp only [ge_iff_le, hcond]
  cases hj : ((handler_table p)[payload_word payload 0]?).join <;> simp

/-- C18: message attributes answers NotFound exactly when the requested message
identifier has no handler (it lies outside the handler table or its entry is
NULL, that is, it is not one of the twelve command identifiers); in every
other case it answers Success with attributes word 0. -/
theorem message_attributes_status (p : Platform) (api : mod_scmi_from_protocol_api)
    (ctx : scmi_pinctrl_context) (service_id : Nat) (payload : Nat → Nat) :
    ((scmi_pinctrl_protocol_message_attributes_handler p api ctx service_id payload).statuses
        = [scmi_error.SCMI_NOT_FOUND]
      ↔ ¬ (payload_word payload 0 < p.MOD_SCMI_PIN_CONTROL_COMMAND_COUNT ∧
            payload_word payload 0 ∈ command_ids p)) ∧
    ((scmi_pinctrl_protocol_message_attributes_handler p api ctx service_id payload).responses
        = [⟨ResponsePayload.message_attributes scmi_error.SCMI_SUCCESS 0,
            p.sizeof_scmi_protocol_message_attributes_p2a⟩]
      ↔ (payload_word payload 0 < p.MOD_SCMI_PIN_CONTROL_COMMAND_COUNT ∧
            payload_word payload 0 ∈ command_ids p)) ∧
    ((payload_word payload 0 < p.MOD_SCMI_PIN_CONTROL_COMMAND_COUNT ∧
            payload_word payload 0 ∈ command_ids p)
      ↔ (((handler_table p)[payload_word payload 0]?).join).isSome = true) := by
  have hreg := handler_table_registered p (payload_word payload 0)
  refine ⟨?_, ?_, hreg.symm⟩
  · rw [← hreg, message_attributes_eq, respond_statuses]
    generalize (((handler_table p)[payload_word payload 0]?).join).isSome = b
    cases b <;> simp [ResponsePayload.status]
  · rw [← hreg, message_attributes_eq, respond_responses]
    generalize (((handler_table p)[payload_word payload 0]?).join).isSome = b
    cases b <;> simp

/-! ## Agent resolution -/

/-- C14: when agent resolution fails, or the resolved identifier is not below the
agent count, the entry point returns the status of the resolver, or
`FWK_E_PARAM`, which is not `FWK_SUCCESS`, without a response and with the
context unchanged, for every message identifier, payload and payload size.  The
handlers are static functions called from the entry point only, after this
test, so none of them runs; each handler that resolves the agent again
(protocol attributes, attributes, list associations, request, release, name
get) returns in the same way. -/
theorem bad_agent_returns_framework_error (p : Platform) (api : mod_scmi_from_protocol_api)
    (cfg : mod_scmi_pinctrl_config) (fuel : Nat) (ctx : scmi_pinctrl_context)
    (protocol_id service_id : Nat) (payload : Nat → Nat) (payload_size message_id : Nat)
    (hbad : (api.get_agent_id service_id).1 ≠ fwk_status.FWK_SUCCESS ∨
      p.SCMI_AGENT_TYPE_COUNT ≤ (api.get_agent_id service_id).2) :
    (if (api.get_agent_id service_id).1 ≠ fwk_status.FWK_SUCCESS
        then (api.get_agent_id service_id).1 else fwk_status.FWK_E_PARAM)
        ≠ fwk_status.FWK_SUCCESS ∧
    scmi_pinctrl_message_handler p api cfg fuel ctx protocol_id service_id payload
        payload_size message_id
      = return_status ctx
          (if (api.get_agent_id service_id).1 ≠ fwk_status.FWK_SUCCESS
            then (api.get_agent_id service_id).1 else fwk_status.FWK_E_PARAM) ∧
    scmi_pinctrl_protocol_attributes_handler p api cfg fuel ctx service_id payload
      = return_status ctx
          (if (api.get_agent_id service_id).1 ≠ fwk_status.FWK_SUCCESS
            then (api.get_agent_id service_id).1 else fwk_status.FWK_E_PARAM) ∧
    scmi_pinctrl_attributes_handler p api cfg ctx service_id payload
      = return_status ctx
          (if (api.get_agent_id service_id).1 ≠ fwk_status.FWK_SUCCESS
            then (api.get_agent_id service_id).1 else fwk_status.FWK_E_PARAM) ∧
    scmi_pinctrl_list_assoc_handler p api cfg ctx service_id payload
      = return_status ctx
          (if (api.get_agent_id service_id).1 ≠ fwk_status.FWK_SUCCESS
            then (api.get_agent_id service_id).1 else fwk_status.FWK_E_PARAM) ∧
    scmi_pinctrl_request_handler p api cfg ctx service_id payload
      = return_status ctx
          (if (api.get_agent_id service_id).1 ≠ fwk_status.FWK_SUCCESS
            then (api.get_agent_id service_id).1 else fwk_status.FWK_E_PARAM) ∧
    scmi_pinctrl_release_handler p api cfg ctx service_id payload
      = return_status ctx
          (if (api.get_agent_id service_id).1 ≠ fwk_status.FWK_SUCCESS
            then (api.get_agent_id service_id).1 else fwk_status.FWK_E_PARAM) ∧
    scmi_pinctrl_name_get_handler p api cfg ctx service_id payload
      = return_status ctx
          (if (api.get_agent_id service_id).1 ≠ fwk_status.FWK_SUCCESS
            then (api.get_agent_id service_id).1 else fwk_status.FWK_E_PARAM) := by
  by_cases hs : (api.get_agent_id service_id).1 = fwk_status.FWK_SUCCESS
  · have hge : p.SCMI_AGENT_TYPE_COUNT ≤ (api.get_agent_id service_id).2 := by
      rcases hbad with h | h
      · exact absurd hs h
      · exact h
    simp [scmi_pinctrl_message_handler, scmi_pinctrl_protocol_attributes_handler,
      scmi_pinctrl_attributes_handler, scmi_pinctrl_list_assoc_handler,
      scmi_pinctrl_request_handler, scmi_pinctrl_release_handler,
      scmi_pinctrl_name_get_handler, hs, hge]
  · simp [scmi_pinctrl_message_handler, scmi_pinctrl_protocol_attributes_handler,
      scmi_pinctrl_attributes_handler, scmi_pinctrl_list_assoc_handler,
      scmi_pinctrl_request_handler, scmi_pinctrl_release_handler,
      scmi_pinctrl_name_get_handler, hs]

/-- Witness of C14: a request message from agent 7 on a platform of
four agent types returns `FWK_E_PARAM` without a response, and a failed
resolution returns the status of the resolver. -/
theorem bad_agent_returns_framework_error_witness :
    scmi_pinctrl_message_handler sample_platform (agent_api 7) two_pins 0 (init_ctx two_pins)
        0 0 (words [0, 0]) 8 7
      = return_status (init_ctx two_pins) fwk_status.FWK_E_PARAM ∧
    scmi_pinctrl_request_handler sample_platform (resolver_api fwk_status.FWK_E_ACCESS 0)
        two_pins (init_ctx two_pins) 0 (words [0, 0])
      = return_status (init_ctx two_pins) fwk_status.FWK_E_ACCESS :=
  ⟨(bad_agent_returns_framework_error sample_platform (agent_api 7) two_pins 0
      (init_ctx two_pins) 0 0 (words [0, 0]) 8 7 (Or.inr (by decide))).2.1,
   (bad_agent_returns_framework_error sample_platform
      (resolver_api fwk_status.FWK_E_ACCESS 0) two_pins 0
      (init_ctx two_pins) 0 0 (words [0, 0]) 8 7 (Or.inl (by decide))).2.2.2.2.2.1⟩

/-! ## The attributes handler -/

/-- C19 (fails): on a catalog of one pin and one group and no function, an
attributes message for pin 1, for group 1 or for function 0 (each at the count
of its namespace) reads the table outside its bounds: the handler ends in a
fault and gives no NotFound response. -/
theorem attributes_out_of_range_faults :
    scmi_pinctrl_attributes_handler sample_platform (agent_api 0) (one_pin_one_group 1 1)
        (init_ctx (one_pin_one_group 1 1)) 0 (words [1, SCMI_PINCTRL_SELECTOR_PIN])
      = memory_fault (init_ctx (one_pin_one_group 1 1)) ∧
    scmi_pinctrl_attributes_handler sample_platform (agent_api 0) (one_pin_one_group 1 1)
        (init_ctx (one_pin_one_group 1 1)) 0 (words [1, SCMI_PINCTRL_SELECTOR_GROUP])
      = memory_fault (init_ctx (one_pin_one_group 1 1)) ∧
    scmi_pinctrl_attributes_handler sample_platform (agent_api 0) (one_pin_one_group 1 1)
        (init_ctx (one_pin_one_group 1 1)) 0 (words [0, SCMI_PINCTRL_SELECTOR_FUNCTION])
      = memory_fault (init_ctx (one_pin_one_group 1 1)) ∧
    scmi_pinctrl_message_handler sample_platform (agent_api 0) (one_pin_one_group 1 1) 0
        (init_ctx (one_pin_one_group 1 1)) 0 0 (words [1, SCMI_PINCTRL_SELECTOR_PIN]) 8 3
      = memory_fault (init_ctx (one_pin_one_group 1 1)) ∧
    (scmi_pinctrl_name_get_handler sample_platform (agent_api 0) (one_pin_one_group 1 1)
        (init_ctx (one_pin_one_group 1 1)) 0 (words [1, SCMI_PINCTRL_SELECTOR_PIN])).statuses
      = [scmi_error.SCMI_NOT_FOUND] := by
  decide

/-- C20: for a pin, group or function that is in the catalog and whose permission
mask has the bit of the calling agent clear, the attributes handler responds
NotFound with attributes word 0 and a name field of sixteen zero bytes, the
same response whatever the name and the member count of the resource. -/
theorem attributes_hides_unpermitted (p : Platform) (api : mod_scmi_from_protocol_api)
    (cfg : mod_scmi_pinctrl_config) (ctx : scmi_pinctrl_context)
    (service_id : Nat) (payload : Nat → Nat) (a selector id perm : Nat)
    (hagent : api.get_agent_id service_id = (fwk_status.FWK_SUCCESS, a))
    (hvalid : a < p.SCMI_AGENT_TYPE_COUNT)
    (hsel : payload_word payload 1 &&& SCMI_PINCTRL_SELECTOR_MASK = selector)
    (hpgf : selector = SCMI_PINCTRL_SELECTOR_PIN ∨ selector = SCMI_PINCTRL_SELECTOR_GROUP ∨
      selector = SCMI_PINCTRL_SELECTOR_FUNCTION)
    (hid : payload_word payload 0 &&& 0xffff = id)
    (hperm : resource_permission cfg selector id = some perm)
    (hbit : permitted perm a = false) :
    scmi_pinctrl_attributes_handler p api cfg ctx service_id payload
      = respond api service_id ctx
          (ResponsePayload.attributes scmi_error.SCMI_NOT_FOUND 0 (List.replicate 16 0)) 24 := by
  have hnv : ¬ p.SCMI_AGENT_TYPE_COUNT ≤ a := Nat.not_le.mpr hvalid
  rcases hpgf with hs | hs | hs
  · subst hs
    simp only [resource_permission, if_true] at hperm
    obtain ⟨e, he, hpe⟩ := Option.map_eq_some'.mp hperm
    subst hpe
    simp [scmi_pinctrl_attributes_handler, attributes_case, hagent, hnv, hsel, hid, he, hbit,
      SCMI_PINCTRL_NAME_LENGTH_MAX]
  · subst hs
    simp only [resource_permission, selector_group_ne_pin, if_true, if_false] at hperm
    obtain ⟨e, he, hpe⟩ := Option.map_eq_some'.mp hperm
    subst hpe
    simp [scmi_pinctrl_attributes_handler, attributes_case, hagent, hnv, hsel, hid, he, hbit,
      SCMI_PINCTRL_NAME_LENGTH_MAX, selector_group_ne_pin]
  · subst hs
    have h1 : SCMI_PINCTRL_SELECTOR_FUNCTION ≠ SCMI_PINCTRL_SELECTOR_PIN := by decide
    have h2 : SCMI_PINCTRL_SELECTOR_FUNCTION ≠ SCMI_PINCTRL_SELECTOR_GROUP := by decide
    simp only [resource_permission, h1, h2, if_false] at hperm
    obtain ⟨e, he, hpe⟩ := Option.map_eq_some'.mp hperm
    subst hpe
    simp [scmi_pinctrl_attributes_handler, attributes_case, hagent, hnv, hsel, hid, he, hbit,
      SCMI_PINCTRL_NAME_LENGTH_MAX, h1, h2]

/-- Witness of C20: agent 0 asks for the attributes of group 0, whose permission
mask 2 has bit 0 clear. -/
theorem attributes_hides_unpermitted_witness :
    scmi_pinctrl_attributes_handler sample_platform (agent_api 0) (one_pin_one_group 1 2)
        (init_ctx (one_pin_one_group 1 2)) 0 (words [0, 1])
      = respond (agent_api 0) 0 (init_ctx (one_pin_one_group 1 2))
          (ResponsePayload.attributes scmi_error.SCMI_NOT_FOUND 0 (List.replicate 16 0)) 24 :=
  attributes_hides_unpermitted sample_platform (agent_api 0) (one_pin_one_group 1 2)
    (init_ctx (one_pin_one_group 1 2)) 0 (words [0, 1]) 0 SCMI_PINCTRL_SELECTOR_GROUP 0 2
    rfl (by decide) (by decide) (Or.inr (Or.inl rfl)) (by decide) (by decide) (by decide)

/-! ## The counting loops of the protocol attributes handler -/

/-- A counting loop whose bound is above its index never ends normally: the
index is never incremented. -/
theorem count_loop_not_ok (count : Nat) (perm_at : Nat → Option Nat) (agent_id i : Nat)
    (hi : i < count) :
    ∀ (fuel n r : Nat), count_loop count perm_at agent_id fuel i n ≠ Except.ok r := by
  intro fuel
  induction fuel with
  | zero =>
    intro n r h
    simp [count_loop] at h
  | succ k ih =>
    intro n r h
    simp only [count_loop, hi, if_true] at h
    cases hp : perm_at i with
    | none =>
      rw [hp] at h
      cases h
    | some perm =>
      rw [hp] at h
      exact ih _ r h

/-- A counting loop only ever stops early by a fault or by running out of fuel. -/
theorem count_loop_error (count : Nat) (perm_at : Nat → Option Nat) (agent_id i : Nat) :
    ∀ (fuel n : Nat) (e : Exit), count_loop count perm_at agent_id fuel i n = Except.error e →
      e = Exit.fault ∨ e = Exit.out_of_fuel := by
  intro fuel
  induction fuel with
  | zero =>
    intro n e h
    simp only [count_loop] at h
    cases h
    exact Or.inr rfl
  | succ k ih =>
    intro n e h
    simp only [count_loop] at h
    by_cases hi : i < count
    · simp only [hi, if_true] at h
      cases hp : perm_at i with
      | none =>
        rw [hp] at h
        cases h
        exact Or.inl rfl
      | some perm =>
        rw [hp] at h
        exact ih _ e h
    · simp only [hi, if_false] at h
      cases h

/-- With a table entry at the index, the loop uses up any amount of fuel. -/
theorem count_loop_stuck (count : Nat) (perm_at : Nat → Option Nat) (agent_id i perm : Nat)
    (hi : i < count) (hp : perm_at i = some perm) :
    ∀ (fuel n : Nat),
      count_loop count perm_at agent_id fuel i n = Except.error Exit.out_of_fuel := by
  intro fuel
  induction fuel with
  | zero =>
    intro n
    rfl
  | succ k ih =>
    intro n
    simp only [count_loop, hi, if_true, hp]
    exact ih _

/-- Whenever the catalog has a pin, a group or a function, the protocol
attributes handler never responds and never returns, whatever the fuel. -/
theorem protocol_attributes_no_response (p : Platform) (api : mod_scmi_from_protocol_api)
    (cfg : mod_scmi_pinctrl_config) (fuel : Nat) (ctx : scmi_pinctrl_context)
    (service_id : Nat) (payload : Nat → Nat) (a : Nat)
    (hagent : api.get_agent_id service_id = (fwk_status.FWK_SUCCESS, a))
    (hvalid : a < p.SCMI_AGENT_TYPE_COUNT)
    (hcount : 0 < cfg.pin_count ∨ 0 < cfg.group_count ∨ 0 < cfg.function_count) :
    (scmi_pinctrl_protocol_attributes_handler p api cfg fuel ctx service_id payload).responses
        = [] ∧
      ((scmi_pinctrl_protocol_attributes_handler p api cfg fuel ctx service_id payload).exit
          = Exit.fault ∨
        (scmi_pinctrl_protocol_attributes_handler p api cfg fuel ctx service_id payload).exit
          = Exit.out_of_fuel) := by
  have hnv : ¬ p.SCMI_AGENT_TYPE_COUNT ≤ a := Nat.not_le.mpr hvalid
  simp only [scmi_pinctrl_protocol_attributes_handler, hagent, ne_eq, not_true_eq_false,
    if_false, ge_iff_le, hnv]
  split
  · rename_i e he
    exact ⟨rfl, count_loop_error _ _ _ _ _ _ e he⟩
  · rename_i pc hpc
    split
    · rename_i e he
      exact ⟨rfl, count_loop_error _ _ _ _ _ _ e he⟩
    · rename_i gc hgc
      split
      · rename_i e he
        exact ⟨rfl, count_loop_error _ _ _ _ _ _ e he⟩
      · rename_i fc hfc
        rcases hcount with h | h | h
        · exact absurd hpc (count_loop_not_ok _ _ _ _ h _ _ _)
        · exact absurd hgc (count_loop_not_ok _ _ _ _ h _ _ _)
        · exact absurd hfc (count_loop_not_ok _ _ _ _ h _ _ _)

/-- C16 (fails): on the empty catalog the handler hands the transport a byte
count of 4, the size of the status word alone, so the two attribute words are
not part of the payload; on a catalog with one permitted pin it gives no
response at all, whatever the fuel. -/
theorem protocol_attributes_words_not_sent (fuel : Nat) :
    (scmi_pinctrl_protocol_attributes_handler sample_platform (agent_api 0) empty_catalog
        (fuel + 1) (init_ctx empty_catalog) 0 (words [])).responses
      = [⟨ResponsePayload.protocol_attributes scmi_error.SCMI_SUCCESS 0 0, 4⟩] ∧
    (scmi_pinctrl_protocol_attributes_handler sample_platform (agent_api 0)
        (one_pin_one_group 1 1) fuel (init_ctx (one_pin_one_group 1 1)) 0 (words [])).responses
      = [] := by
  constructor
  · simp [scmi_pinctrl_protocol_attributes_handler, agent_api, sample_platform, empty_catalog,
      count_loop, respond_responses]
  · exact (protocol_attributes_no_response sample_platform (agent_api 0)
      (one_pin_one_group 1 1) fuel (init_ctx (one_pin_one_group 1 1)) 0 (words []) 0 rfl
      (by decide) (Or.inl (by decide))).1

/-- C17 (fails): on the catalog of two pins the first counting loop of the
protocol attributes handler is still running when any amount of fuel is used
up, called directly or through the entry point: the handler never reaches its
respond call. -/
theorem protocol_attributes_never_completes (fuel : Nat) :
    scmi_pinctrl_protocol_attributes_handler sample_platform (agent_api 0) two_pins fuel
        (init_ctx two_pins) 0 (words [])
      = no_fuel (init_ctx two_pins) ∧
    scmi_pinctrl_message_handler sample_platform (agent_api 0) two_pins fuel
        (init_ctx two_pins) 0 0 (words []) 0 1
      = no_fuel (init_ctx two_pins) := by
  have hloop := count_loop_stuck two_pins.pin_count
    (fun i => (two_pins.pin_table[i]?).map (fun e => e.agent_permission)) 0 0 1
    (by decide) (by decide) fuel 0
  have h1 : scmi_pinctrl_protocol_attributes_handler sample_platform (agent_api 0) two_pins fuel
        (init_ctx two_pins) 0 (words []) = no_fuel (init_ctx two_pins) := by
    simp only [scmi_pinctrl_protocol_attributes_handler, agent_api, sample_platform, ne_eq,
      not_true_eq_false, if_false, ge_iff_le]
    rw [if_neg (by decide), hloop]
    rfl
  refine ⟨h1, ?_⟩
  have hsel : (handler_table sample_platform)[1]? = some (some Handler.protocol_attributes) := by
    decide
  have hsize : (payload_size_table sample_platform)[1]? = some 0 := by decide
  have hlen : ¬ (1 ≥ (handler_table sample_platform).length) := by decide
  have hag : ¬ ((agent_api 0).get_agent_id 0).2 ≥ sample_platform.SCMI_AGENT_TYPE_COUNT := by
    decide
  simp only [scmi_pinctrl_message_handler, hsel, hsize, call_handler]
  rw [if_neg (by decide), if_neg hag, if_neg hlen, if_neg (by decide)]
  exact h1

/-! ## Number of responses of one call -/

theorem answered_once_no_fuel (ctx : scmi_pinctrl_context) : answered_once (no_fuel ctx) :=
  ⟨Nat.zero_le 1, fun _ h => by cases h⟩

/-- The entry point calls the selected handler, when there is one. -/
theorem message_handler_selected (p : Platform) (api : mod_scmi_from_protocol_api)
    (cfg : mod_scmi_pinctrl_config) (fuel : Nat) (ctx : scmi_pinctrl_context)
    (protocol_id service_id : Nat) (payload : Nat → Nat) (payload_size message_id a : Nat)
    (h : Handler)
    (hagent : api.get_agent_id service_id = (fwk_status.FWK_SUCCESS, a))
    (hvalid : a < p.SCMI_AGENT_TYPE_COUNT)
    (hsel : selected_handler p payload_size message_id = some h) :
    scmi_pinctrl_message_handler p api cfg fuel ctx protocol_id service_id payload
        payload_size message_id
      = call_handler p api cfg fuel h ctx service_id payload := by
  have hnv : ¬ p.SCMI_AGENT_TYPE_COUNT ≤ a := Nat.not_le.mpr hvalid
  unfold selected_handler at hsel
  by_cases hsz : (payload_size_table p)[message_id]? = some payload_size
  · simp only [hsz, if_true] at hsel
    cases hl : (handler_table p)[message_id]? with
    | none =>
      rw [hl] at hsel
      cases hsel
    | some entry =>
      rw [hl] at hsel
      have hentry : entry = some h := hsel
      subst hentry
      have hlt : message_id < (handler_table p).length := (List.getElem?_eq_some.mp hl).1
      simp [scmi_pinctrl_message_handler, hagent, hnv, Nat.not_le.mpr hlt, hsz, hl]
  · simp only [hsz, if_false] at hsel
    cases hsel

/-- The attributes word of every response of `attributes_case` is 0: it starts at 0
and is only combined with `&=`. -/
theorem attributes_case_eq (api : mod_scmi_from_protocol_api) (ctx : scmi_pinctrl_context)
    (service_id agent_id agent_permission : Nat) (name : List Nat) (member_count : Nat)
    (hbit : permitted agent_permission agent_id = true) :
    attributes_case api ctx service_id agent_id agent_permission name member_count
      = respond api service_id ctx
          (ResponsePayload.attributes scmi_error.SCMI_SUCCESS 0
            ((strncpy name SCMI_PINCTRL_NAME_LENGTH_MAX).set
              (SCMI_PINCTRL_NAME_LENGTH_MAX - 1) 0)) 24 := by
  simp only [attributes_case, hbit, not_true_eq_false, if_false]
  by_cases hlen : strlen name > SCMI_PINCTRL_NAME_LENGTH_MAX - 1
  · simp only [hlen, if_true, Nat.zero_and, Nat.zero_mod]
  · simp only [hlen, if_false, Nat.zero_and, Nat.zero_mod]

/-- C21 (fails): the pin of `long_name_catalog` has a name of twenty characters,
more than fifteen, and is permitted to agent 0; the attributes handler answers
Success with attributes word 0, so bit 31 is clear. -/
theorem attributes_extended_name_flag_clear :
    resource_name long_name_catalog SCMI_PINCTRL_SELECTOR_PIN 0
        = some (ascii ("pin_with_a_long_name")) ∧
      strlen (ascii ("pin_with_a_long_name")) = 20 ∧
      (scmi_pinctrl_attributes_handler sample_platform (agent_api 0) long_name_catalog
        (init_ctx long_name_catalog) 0 (words [0, SCMI_PINCTRL_SELECTOR_PIN])).responses
        = [⟨ResponsePayload.attributes scmi_error.SCMI_SUCCESS 0
              [112, 105, 110, 95, 119, 105, 116, 104, 95, 97, 95, 108, 111, 110, 103, 0], 24⟩] ∧
      (0 &&& SCMI_PINCTRL_EXTENDED_NAME_MASK) = 0 := by
  decide

/-- C22 (fails): on the product configuration agent 1 asks for the attributes of
pin 0, of group 0 (four pins) and of function 0 (five groups); each answer is
Success with attributes word 0, so the low sixteen bits are 0 and not 1, 4
and 5. -/
theorem attributes_member_count_zero :
    (scmi_pinctrl_attributes_handler sample_platform (agent_api 1) config_scmi_pinctrl
        (init_ctx config_scmi_pinctrl) 0
        (words [0, SCMI_PINCTRL_SELECTOR_PIN])).responses.map
          (fun r => (r.payload.status, r.payload.flags_word))
      = [(scmi_error.SCMI_SUCCESS, some 0)] ∧
    (config_scmi_pinctrl.group_table.map (fun e => e.pins_count))[0]? = some 4 ∧
    (scmi_pinctrl_attributes_handler sample_platform (agent_api 1) config_scmi_pinctrl
        (init_ctx config_scmi_pinctrl) 0
        (words [0, SCMI_PINCTRL_SELECTOR_GROUP])).responses.map
          (fun r => (r.payload.status, r.payload.flags_word))
      = [(scmi_error.SCMI_SUCCESS, some 0)] ∧
    (config_scmi_pinctrl.function_table.map (fun e => e.groups_count))[0]? = some 5 ∧
    (scmi_pinctrl_attributes_handler sample_platform (agent_api 1) config_scmi_pinctrl
        (init_ctx config_scmi_pinctrl) 0
        (words [0, SCMI_PINCTRL_SELECTOR_FUNCTION])).responses.map
          (fun r => (r.payload.status, r.payload.flags_word))
      = [(scmi_error.SCMI_SUCCESS, some 0)] := by
  decide

/-! ## Name fields -/

theorem strncpy_length (s : List Nat) (n : Nat) : (strncpy s n).length = n := by
  simp only [strncpy, List.length_append, List.length_take, List.length_replicate]
  omega

theorem set_last (l : List Nat) (n x : Nat) (h : l.length = n + 1) :
    l.set n x = l.take n ++ [x] := by
  rw [List.set_eq_take_append_cons_drop, if_pos (by omega),
    List.drop_eq_nil_of_le (by omega)]

theorem take_strncpy (s : List Nat) (n : Nat) : (strncpy s (n + 1)).take n = strncpy s n := by
  simp only [strncpy, List.take_append_eq_append_take, List.take_take, List.length_take,
    List.take_replicate]
  have h1 : min n (n + 1) = n := by omega
  have h2 : min (n - min (n + 1) (c_string s).length) (n + 1 - (c_string s).length)
      = n - (c_string s).length := by omega
  rw [h1, h2]

/-- The name field of the attributes response: the fifteen bytes `strncpy` would
write for a count of fifteen, and a NUL. -/
theorem attributes_name_field (s : List Nat) :
    (strncpy s SCMI_PINCTRL_NAME_LENGTH_MAX).set (SCMI_PINCTRL_NAME_LENGTH_MAX - 1) 0
      = strncpy s 15 ++ [0] := by
  show (strncpy s (15 + 1)).set 15 0 = strncpy s 15 ++ [0]
  rw [set_last _ 15 0 (strncpy_length s 16), take_strncpy]

/-- The name field of the name get response: the sixty-three bytes `strncpy`
writes, and a NUL. -/
theorem name_get_name_field (s : List Nat) :
    (strncpy s (SCMI_PINCTRL_EXTENDED_NAME_LENGTH_MAX - 1) ++ [0]).set
        (SCMI_PINCTRL_EXTENDED_NAME_LENGTH_MAX - 1) 0
      = strncpy s 63 ++ [0] := by
  show (strncpy s 63 ++ [0]).set 63 0 = strncpy s 63 ++ [0]
  rw [set_last _ 63 0 (by simp [strncpy_length]), List.take_append_eq_append_take,
    strncpy_length, List.take_of_length_le (by simp [strncpy_length])]
  simp

/-- The bytes `strncpy` writes for a count `n`, followed by a NUL, are the first
`min (strlen s) n` bytes of the string followed by zero bytes only. -/
theorem strncpy_append_zero (s : List Nat) (n : Nat) :
    strncpy s n ++ [0]
      = (c_string s).take (min (strlen s) n) ++ List.replicate (n + 1 - min (strlen s) n) 0 := by
  have htake : (c_string s).take (min (strlen s) n) = (c_string s).take n := by
    by_cases h : strlen s ≤ n
    · have hmin : min (strlen s) n = strlen s := by omega
      have hs : (c_string s).length ≤ strlen s := Nat.le_refl _
      rw [hmin, List.take_of_length_le hs, List.take_of_length_le h]
    · have hmin : min (strlen s) n = n := by omega
      rw [hmin]
  have hrep : List.replicate (n + 1 - min (strlen s) n) 0
      = List.replicate (n - (c_string s).length) 0 ++ [0] := by
    have hk : n + 1 - min (strlen s) n = (n - (c_string s).length) + 1 := by
      simp only [strlen]
      omega
    rw [hk, List.replicate_succ']
  rw [htake, hrep, strncpy, List.append_assoc]

theorem c_string_ne_zero (s : List Nat) : ∀ a ∈ c_string s, (a != 0) = true := by
  intro a ha
  have ha1 : a ∈ List.takeWhile (fun b => b != 0) s := ha
  have h := List.mem_takeWhile_imp ha1
  exact h

/-- The C string in a field `strncpy s n ++ [0]` is the string cut at `n` bytes. -/
theorem c_string_strncpy (s : List Nat) (n : Nat) :
    c_string (strncpy s n ++ [0]) = (c_string s).take n := by
  have hpos : ∀ a ∈ (c_string s).take n, (a != 0) = true :=
    fun a ha => c_string_ne_zero s a (List.mem_of_mem_take ha)
  have hzero : List.takeWhile (fun b => b != 0)
      (List.replicate (n - (c_string s).length) 0 ++ [0]) = [] := by
    cases (n - (c_string s).length) with
    | zero => rfl
    | succ k => rfl
  show List.takeWhile (fun b => b != 0) (strncpy s n ++ [0]) = (c_string s).take n
  rw [strncpy, List.append_assoc, List.takeWhile_append_of_pos hpos, hzero, List.append_nil]

theorem selector_function_ne_pin :
    SCMI_PINCTRL_SELECTOR_FUNCTION ≠ SCMI_PINCTRL_SELECTOR_PIN := by
  decide

theorem selector_function_ne_group :
    SCMI_PINCTRL_SELECTOR_FUNCTION ≠ SCMI_PINCTRL_SELECTOR_GROUP := by
  decide

/-- The attributes handler on a catalog entry whose permission mask has the bit
of the caller: Success, attributes word 0 and the name cut to fifteen bytes. -/
theorem attributes_permitted_eq (p : Platform) (api : mod_scmi_from_protocol_api)
    (cfg : mod_scmi_pinctrl_config) (ctx : scmi_pinctrl_context)
    (service_id : Nat) (payload : Nat → Nat) (a selector id perm : Nat) (s : List Nat)
    (hagent : api.get_agent_id service_id = (fwk_status.FWK_SUCCESS, a))
    (hvalid : a < p.SCMI_AGENT_TYPE_COUNT)
    (hsel : payload_word payload 1 &&& SCMI_PINCTRL_SELECTOR_MASK = selector)
    (hpgf : selector = SCMI_PINCTRL_SELECTOR_PIN ∨ selector = SCMI_PINCTRL_SELECTOR_GROUP ∨
      selector = SCMI_PINCTRL_SELECTOR_FUNCTION)
    (hid : payload_word payload 0 &&& 0xffff = id)
    (hperm : resource_permission cfg selector id = some perm)
    (hname : resource_name cfg selector id = some s)
    (hbit : permitted perm a = true) :
    scmi_pinctrl_attributes_handler p api cfg ctx service_id payload
      = respond api service_id ctx
          (ResponsePayload.attributes scmi_error.SCMI_SUCCESS 0 (strncpy s 15 ++ [0])) 24 := by
  have hnv : ¬ p.SCMI_AGENT_TYPE_COUNT ≤ a := Nat.not_le.mpr hvalid
  rcases hpgf with hs | hs | hs
  · subst hs
    simp only [resource_permission, resource_name, if_true] at hperm hname
    obtain ⟨e, he, hpe⟩ := Option.map_eq_some'.mp hperm
    rw [he] at hname
    have hne : e.name = s := Option.some.inj hname
    subst hpe
    subst hne
    simp only [scmi_pinctrl_attributes_handler, hagent, ne_eq, not_true_eq_false, if_false,
      ge_iff_le, hnv, hsel, hid, if_true, he]
    rw [attributes_case_eq _ _ _ _ _ _ _ hbit, attributes_name_field]
  · subst hs
    simp only [resource_permission, resource_name, selector_group_ne_pin, if_true, if_false]
      at hperm hname
    obtain ⟨e, he, hpe⟩ := Option.map_eq_some'.mp hperm
    rw [he] at hname
    have hne : e.name = s := Option.some.inj hname
    subst hpe
    subst hne
    simp only [scmi_pinctrl_attributes_handler, hagent, ne_eq, not_true_eq_false, if_false,
      ge_iff_le, hnv, hsel, hid, if_true, he, selector_group_ne_pin]
    rw [attributes_case_eq _ _ _ _ _ _ _ hbit, attributes_name_field]
  · subst hs
    simp only [resource_permission, resource_name, selector_function_ne_pin,
      selector_function_ne_group, if_false] at hperm hname
    obtain ⟨e, he, hpe⟩ := Option.map_eq_some'.mp hperm
    rw [he] at hname
    have hne : e.name = s := Option.some.inj hname
    subst hpe
    subst hne
    simp only [scmi_pinctrl_attributes_handler, hagent, ne_eq, not_true_eq_false, if_false,
      ge_iff_le, hnv, hsel, hid, if_true, he, selector_function_ne_pin,
      selector_function_ne_group]
    rw [attributes_case_eq _ _ _ _ _ _ _ hbit, attributes_name_field]

/-- The name get handler on an in-range catalog entry whose permission mask has
the bit of the caller: Success, flags 0 and the name cut to sixty-three bytes. -/
theorem name_get_permitted_eq (p : Platform) (api : mod_scmi_from_protocol_api)
    (cfg : mod_scmi_pinctrl_config) (ctx : scmi_pinctrl_context)
    (service_id : Nat) (payload : Nat → Nat) (a selector id perm : Nat) (s : List Nat)
    (hagent : api.get_agent_id service_id = (fwk_status.FWK_SUCCESS, a))
    (hvalid : a < p.SCMI_AGENT_TYPE_COUNT)
    (hsel : payload_word payload 1 &&& SCMI_PINCTRL_SELECTOR_MASK = selector)
    (hpgf : selector = SCMI_PINCTRL_SELECTOR_PIN ∨ selector = SCMI_PINCTRL_SELECTOR_GROUP ∨
      selector = SCMI_PINCTRL_SELECTOR_FUNCTION)
    (hid : payload_word payload 0 &&& 0xffff = id)
    (hrange : id < resource_count cfg selector)
    (hperm : resource_permission cfg selector id = some perm)
    (hname : resource_name cfg selector id = some s)
    (hbit : permitted perm a = true) :
    scmi_pinctrl_name_get_handler p api cfg ctx service_id payload
      = respond api service_id ctx
          (ResponsePayload.name_get scmi_error.SCMI_SUCCESS 0 (strncpy s 63 ++ [0])) 72 := by
  have hnv : ¬ p.SCMI_AGENT_TYPE_COUNT ≤ a := Nat.not_le.mpr hvalid
  rcases hpgf with hs | hs | hs
  · subst hs
    simp only [resource_count, resource_permission, resource_name, if_true]
      at hrange hperm hname
    obtain ⟨e, he, hpe⟩ := Option.map_eq_some'.mp hperm
    rw [he] at hname
    have hne : e.name = s := Option.some.inj hname
    have hnr : ¬ cfg.pin_count ≤ id := Nat.not_le.mpr hrange
    subst hpe
    subst hne
    simp only [scmi_pinctrl_name_get_handler, name_get_case, hagent, ne_eq, not_true_eq_false,
      if_false, ge_iff_le, hnv, hsel, hid, if_true, he, hnr, hbit, name_get_name_field]
  · subst hs
    simp only [resource_count, resource_permission, resource_name, selector_group_ne_pin,
      if_true, if_false] at hrange hperm hname
    obtain ⟨e, he, hpe⟩ := Option.map_eq_some'.mp hperm
    rw [he] at hname
    have hne : e.name = s := Option.some.inj hname
    have hnr : ¬ cfg.group_count ≤ id := Nat.not_le.mpr hrange
    subst hpe
    subst hne
    simp only [scmi_pinctrl_name_get_handler, name_get_case, hagent, ne_eq, not_true_eq_false,
      if_false, ge_iff_le, hnv, hsel, hid, if_true, he, hnr, hbit, name_get_name_field,
      selector_group_ne_pin]
  · subst hs
    simp only [resource_count, resource_permission, resource_name, selector_function_ne_pin,
      selector_function_ne_group, if_false] at hrange hperm hname
    obtain ⟨e, he, hpe⟩ := Option.map_eq_some'.mp hperm
    rw [he] at hname
    have hne : e.name = s := Option.some.inj hname
    have hnr : ¬ cfg.function_count ≤ id := Nat.not_le.mpr hrange
    subst hpe
    subst hne
    simp only [scmi_pinctrl_name_get_handler, name_get_case, hagent, ne_eq, not_true_eq_false,
      if_false, ge_iff_le, hnv, hsel, hid, if_true, he, hnr, hbit, name_get_name_field,
      selector_function_ne_pin, selector_function_ne_group]

/-- C23: for a pin, group or function of the catalog that is permitted to the
caller and has the name `s`, the attributes handler answers Success and its
name field of sixteen bytes holds the first `min (strlen s) 15` bytes of `s`
followed by zero bytes only; byte 15 is 0. -/
theorem attributes_short_name (p : Platform) (api : mod_scmi_from_protocol_api)
    (cfg : mod_scmi_pinctrl_config) (ctx : scmi_pinctrl_context)
    (service_id : Nat) (payload : Nat → Nat) (a selector id perm : Nat) (s : List Nat)
    (hagent : api.get_agent_id service_id = (fwk_status.FWK_SUCCESS, a))
    (hvalid : a < p.SCMI_AGENT_TYPE_COUNT)
    (hsel : payload_word payload 1 &&& SCMI_PINCTRL_SELECTOR_MASK = selector)
    (hpgf : selector = SCMI_PINCTRL_SELECTOR_PIN ∨ selector = SCMI_PINCTRL_SELECTOR_GROUP ∨
      selector = SCMI_PINCTRL_SELECTOR_FUNCTION)
    (hid : payload_word payload 0 &&& 0xffff = id)
    (hperm : resource_permission cfg selector id = some perm)
    (hname : resource_name cfg selector id = some s)
    (hbit : permitted perm a = true) :
    (scmi_pinctrl_attributes_handler p api cfg ctx service_id payload).statuses
        = [scmi_error.SCMI_SUCCESS] ∧
      (scmi_pinctrl_attributes_handler p api cfg ctx service_id payload).name_fields
        = [(c_string s).take (min (strlen s) 15)
            ++ List.replicate (16 - min (strlen s) 15) 0] ∧
      (scmi_pinctrl_attributes_handler p api cfg ctx service_id payload).name_fields.map
          List.length = [16] ∧
      (scmi_pinctrl_attributes_handler p api cfg ctx service_id payload).name_fields.map
          (fun f => f[15]?) = [some 0] := by
  have heq := attributes_permitted_eq p api cfg ctx service_id payload a selector id perm s
    hagent hvalid hsel hpgf hid hperm hname hbit
  have hlen : (strncpy s 15 ++ [0]).length = 16 := by
    rw [List.length_append, strncpy_length]
    rfl
  have hlast : (strncpy s 15 ++ [0])[15]? = some 0 := by
    rw [List.getElem?_append_right (by rw [strncpy_length]), strncpy_length]
    rfl
  have hfields : (respond api service_id ctx
      (ResponsePayload.attributes scmi_error.SCMI_SUCCESS 0 (strncpy s 15 ++ [0])) 24).name_fields
      = [strncpy s 15 ++ [0]] := rfl
  rw [heq, hfields]
  refine ⟨rfl, ?_, ?_, ?_⟩
  · rw [strncpy_append_zero s 15]
  · simp only [List.map_cons, List.map_nil, hlen]
  · simp only [List.map_cons, List.map_nil, hlast]

/-- Witness of C23: the pin of `long_name_catalog`, whose name has twenty
characters, gets the first fifteen followed by one zero byte. -/
theorem attributes_short_name_witness :
    (scmi_pinctrl_attributes_handler sample_platform (agent_api 0) long_name_catalog
        (init_ctx long_name_catalog) 0 (words [0, 0])).name_fields
      = [(c_string (ascii ("pin_with_a_long_name"))).take
            (min (strlen (ascii ("pin_with_a_long_name"))) 15)
          ++ List.replicate (16 - min (strlen (ascii ("pin_with_a_long_name"))) 15) 0] :=
  (attributes_short_name sample_platform (agent_api 0) long_name_catalog
    (init_ctx long_name_catalog) 0 (words [0, 0]) 0 SCMI_PINCTRL_SELECTOR_PIN 0 1
    (ascii ("pin_with_a_long_name")) rfl (by decide) (by decide) (Or.inl rfl) (by decide)
    (by decide) (by decide) (by decide)).2.1

/-- C29: name get answers NotFound both for an identifier at or beyond the count
of its namespace and for an in-range identifier whose permission mask has the
bit of the caller clear, and the two responses are the same object: status
NotFound, flags 0 and sixty-four zero name bytes, 72 bytes long. -/
theorem name_get_hides_unpermitted (p : Platform) (api : mod_scmi_from_protocol_api)
    (cfg : mod_scmi_pinctrl_config) (ctx : scmi_pinctrl_context)
    (service_id : Nat) (payload : Nat → Nat) (a selector id : Nat)
    (hagent : api.get_agent_id service_id = (fwk_status.FWK_SUCCESS, a))
    (hvalid : a < p.SCMI_AGENT_TYPE_COUNT)
    (hsel : payload_word payload 1 &&& SCMI_PINCTRL_SELECTOR_MASK = selector)
    (hpgf : selector = SCMI_PINCTRL_SELECTOR_PIN ∨ selector = SCMI_PINCTRL_SELECTOR_GROUP ∨
      selector = SCMI_PINCTRL_SELECTOR_FUNCTION)
    (hid : payload_word payload 0 &&& 0xffff = id) :
    (resource_count cfg selector ≤ id →
      scmi_pinctrl_name_get_handler p api cfg ctx service_id payload
        = respond api service_id ctx
            (ResponsePayload.name_get scmi_error.SCMI_NOT_FOUND 0 (List.replicate 64 0)) 72) ∧
    (∀ perm, id < resource_count cfg selector →
      resource_permission cfg selector id = some perm → permitted perm a = false →
      scmi_pinctrl_name_get_handler p api cfg ctx service_id payload
        = respond api service_id ctx
            (ResponsePayload.name_get scmi_error.SCMI_NOT_FOUND 0 (List.replicate 64 0)) 72) := by
  have hnv : ¬ p.SCMI_AGENT_TYPE_COUNT ≤ a := Nat.not_le.mpr hvalid
  rcases hpgf with hs | hs | hs
  · subst hs
    refine ⟨fun hge => ?_, fun perm hlt hperm hbit => ?_⟩
    · simp only [resource_count, if_true] at hge
      simp [scmi_pinctrl_name_get_handler, hagent, hnv, hsel, hid, hge,
        SCMI_PINCTRL_EXTENDED_NAME_LENGTH_MAX]
    · simp only [resource_count, resource_permission, if_true] at hlt hperm
      obtain ⟨e, he, hpe⟩ := Option.map_eq_some'.mp hperm
      have hnr : ¬ cfg.pin_count ≤ id := Nat.not_le.mpr hlt
      subst hpe
      simp [scmi_pinctrl_name_get_handler, name_get_case, hagent, hnv, hsel, hid, hnr, he, hbit,
        SCMI_PINCTRL_EXTENDED_NAME_LENGTH_MAX]
  · subst hs
    refine ⟨fun hge => ?_, fun perm hlt hperm hbit => ?_⟩
    · simp only [resource_count, selector_group_ne_pin, if_true, if_false] at hge
      simp [scmi_pinctrl_name_get_handler, hagent, hnv, hsel, hid, hge,
        SCMI_PINCTRL_EXTENDED_NAME_LENGTH_MAX, selector_group_ne_pin]
    · simp only [resource_count, resource_permission, selector_group_ne_pin, if_true, if_false]
        at hlt hperm
      obtain ⟨e, he, hpe⟩ := Option.map_eq_some'.mp hperm
      have hnr : ¬ cfg.group_count ≤ id := Nat.not_le.mpr hlt
      subst hpe
      simp [scmi_pinctrl_name_get_handler, name_get_case, hagent, hnv, hsel, hid, hnr, he, hbit,
        SCMI_PINCTRL_EXTENDED_NAME_LENGTH_MAX, selector_group_ne_pin]
  · subst hs
    refine ⟨fun hge => ?_, fun perm hlt hperm hbit => ?_⟩
    · simp only [resource_count, selector_function_ne_pin, selector_function_ne_group,
        if_false] at hge
      simp [scmi_pinctrl_name_get_handler, hagent, hnv, hsel, hid, hge,
        SCMI_PINCTRL_EXTENDED_NAME_LENGTH_MAX, selector_function_ne_pin,
        selector_function_ne_group]
    · simp only [resource_count, resource_permission, selector_function_ne_pin,
        selector_function_ne_group, if_false] at hlt hperm
      obtain ⟨e, he, hpe⟩ := Option.map_eq_some'.mp hperm
      have hnr : ¬ cfg.function_count ≤ id := Nat.not_le.mpr hlt
      subst hpe
      simp [scmi_pinctrl_name_get_handler, name_get_case, hagent, hnv, hsel, hid, hnr, he, hbit,
        SCMI_PINCTRL_EXTENDED_NAME_LENGTH_MAX, selector_function_ne_pin,
        selector_function_ne_group]

/-- Witness of C29: on the product configuration agent 1 asks for the name of
function 4, which does not exist, and of function 3, which it may not see. -/
theorem name_get_hides_unpermitted_witness :
    scmi_pinctrl_name_get_handler sample_platform (agent_api 1) config_scmi_pinctrl
        (init_ctx config_scmi_pinctrl) 0 (words [4, 2])
      = respond (agent_api 1) 0 (init_ctx config_scmi_pinctrl)
          (ResponsePayload.name_get scmi_error.SCMI_NOT_FOUND 0 (List.replicate 64 0)) 72 ∧
    scmi_pinctrl_name_get_handler sample_platform (agent_api 1) config_scmi_pinctrl
        (init_ctx config_scmi_pinctrl) 0 (words [3, 2])
      = respond (agent_api 1) 0 (init_ctx config_scmi_pinctrl)
          (ResponsePayload.name_get scmi_error.SCMI_NOT_FOUND 0 (List.replicate 64 0)) 72 :=
  ⟨(name_get_hides_unpermitted sample_platform (agent_api 1) config_scmi_pinctrl
      (init_ctx config_scmi_pinctrl) 0 (words [4, 2]) 1 SCMI_PINCTRL_SELECTOR_FUNCTION 4 rfl
      (by decide) (by decide) (Or.inr (Or.inr rfl)) (by decide)).1 (by decide),
   (name_get_hides_unpermitted sample_platform (agent_api 1) config_scmi_pinctrl
      (init_ctx config_scmi_pinctrl) 0 (words [3, 2]) 1 SCMI_PINCTRL_SELECTOR_FUNCTION 3 rfl
      (by decide) (by decide) (Or.inr (Or.inr rfl)) (by decide)).2 0 (by decide) (by decide)
      (by decide)⟩

/-- C30: for an in-range pin, group or function with name `s` that is permitted to
the caller, attributes and name get both answer Success; the string in the
attributes name field is `s` cut at 15 bytes, the string in the name get
field is `s` cut at 63 bytes, the first is a prefix of the second, the two are
equal when `s` has at most 15 bytes, and name get returns `s` itself when it
has at most 63 bytes. -/
theorem attributes_name_get_consistent (p : Platform) (api : mod_scmi_from_protocol_api)
    (cfg : mod_scmi_pinctrl_config) (ctx : scmi_pinctrl_context)
    (service_id : Nat) (payload : Nat → Nat) (a selector id perm : Nat) (s : List Nat)
    (hagent : api.get_agent_id service_id = (fwk_status.FWK_SUCCESS, a))
    (hvalid : a < p.SCMI_AGENT_TYPE_COUNT)
    (hsel : payload_word payload 1 &&& SCMI_PINCTRL_SELECTOR_MASK = selector)
    (hpgf : selector = SCMI_PINCTRL_SELECTOR_PIN ∨ selector = SCMI_PINCTRL_SELECTOR_GROUP ∨
      selector = SCMI_PINCTRL_SELECTOR_FUNCTION)
    (hid : payload_word payload 0 &&& 0xffff = id)
    (hrange : id < resource_count cfg selector)
    (hperm : resource_permission cfg selector id = some perm)
    (hname : resource_name cfg selector id = some s)
    (hbit : permitted perm a = true) :
    (scmi_pinctrl_attributes_handler p api cfg ctx service_id payload).statuses
        = [scmi_error.SCMI_SUCCESS] ∧
      (scmi_pinctrl_name_get_handler p api cfg ctx service_id payload).statuses
        = [scmi_error.SCMI_SUCCESS] ∧
      (scmi_pinctrl_attributes_handler p api cfg ctx service_id payload).name_fields.map c_string
        = [(c_string s).take 15] ∧
      (scmi_pinctrl_name_get_handler p api cfg ctx service_id payload).name_fields.map c_string
        = [(c_string s).take 63] ∧
      (c_string s).take 15 <+: (c_string s).take 63 ∧
      (strlen s ≤ 15 → (c_string s).take 15 = (c_string s).take 63) ∧
      (strlen s ≤ 63 → (c_string s).take 63 = c_string s) := by
  have ha := attributes_permitted_eq p api cfg ctx service_id payload a selector id perm s
    hagent hvalid hsel hpgf hid hperm hname hbit
  have hn := name_get_permitted_eq p api cfg ctx service_id payload a selector id perm s
    hagent hvalid hsel hpgf hid hrange hperm hname hbit
  have hfa : (respond api service_id ctx
      (ResponsePayload.attributes scmi_error.SCMI_SUCCESS 0 (strncpy s 15 ++ [0])) 24).name_fields
      = [strncpy s 15 ++ [0]] := rfl
  have hfn : (respond api service_id ctx
      (ResponsePayload.name_get scmi_error.SCMI_SUCCESS 0 (strncpy s 63 ++ [0])) 72).name_fields
      = [strncpy s 63 ++ [0]] := rfl
  rw [ha, hn, hfa, hfn]
  refine ⟨rfl, rfl, ?_, ?_, ?_, ?_, ?_⟩
  · simp only [List.map_cons, List.map_nil, c_string_strncpy]
  · simp only [List.map_cons, List.map_nil, c_string_strncpy]
  · exact List.take_prefix_take_left _ (by decide)
  · intro hle
    have h63 : (c_string s).length ≤ 63 := Nat.le_trans hle (by decide)
    rw [List.take_of_length_le hle, List.take_of_length_le h63]
  · intro hle
    exact List.take_of_length_le hle

/-- Witness of C30: the pin of `long_name_catalog`: the attributes field holds
`pin_with_a_long` and the name get field holds the whole name. -/
theorem attributes_name_get_consistent_witness :
    (scmi_pinctrl_attributes_handler sample_platform (agent_api 0) long_name_catalog
        (init_ctx long_name_catalog) 0 (words [0, 0])).name_fields.map c_string
      = [(c_string (ascii ("pin_with_a_long_name"))).take 15] ∧
    (scmi_pinctrl_name_get_handler sample_platform (agent_api 0) long_name_catalog
        (init_ctx long_name_catalog) 0 (words [0, 0])).name_fields.map c_string
      = [(c_string (ascii ("pin_with_a_long_name"))).take 63] :=
  have h := attributes_name_get_consistent sample_platform (agent_api 0) long_name_catalog
    (init_ctx long_name_catalog) 0 (words [0, 0]) 0 SCMI_PINCTRL_SELECTOR_PIN 0 1
    (ascii ("pin_with_a_long_name")) rfl (by decide) (by decide) (Or.inl rfl) (by decide)
    (by decide) (by decide) (by decide) (by decide)
  ⟨h.2.2.1, h.2.2.2.1⟩

/-! ## The list associations handler -/

/-- The group case of list associations when all three checks pass, allocation
succeeds and the copy stays inside the member array: Success, the flags word
is `pins_count - index` masked with 0xfff and the array holds that many
members from `index` on. -/
theorem list_assoc_group_eq (p : Platform) (api : mod_scmi_from_protocol_api)
    (cfg : mod_scmi_pinctrl_config) (ctx : scmi_pinctrl_context)
    (service_id : Nat) (payload : Nat → Nat) (a id index : Nat)
    (e : scmi_pinctrl_group_data)
    (hagent : api.get_agent_id service_id = (fwk_status.FWK_SUCCESS, a))
    (hvalid : a < p.SCMI_AGENT_TYPE_COUNT)
    (hmalloc : ∀ n, api.malloc_ok n = true)
    (hsel : payload_word payload 1 &&& SCMI_PINCTRL_SELECTOR_MASK = SCMI_PINCTRL_SELECTOR_GROUP)
    (hid : payload_word payload 0 &&& 0xffff = id)
    (hidx : payload_word payload 2 = index)
    (hrange : id < cfg.group_count)
    (he : cfg.group_table[id]? = some e)
    (hbit : permitted e.agent_permission a = true)
    (hindex : index < e.pins_count)
    (hfit : index + ((e.pins_count - index) &&& 0xfff) ≤ e.pins.length) :
    scmi_pinctrl_list_assoc_handler p api cfg ctx service_id payload
      = respond api service_id ctx
          (ResponsePayload.list_assoc scmi_error.SCMI_SUCCESS
            (some ((e.pins_count - index) &&& 0xfff))
            ((e.pins.drop index).take ((e.pins_count - index) &&& 0xfff))) 8 := by
  have hnv : ¬ p.SCMI_AGENT_TYPE_COUNT ≤ a := Nat.not_le.mpr hvalid
  have hnr : ¬ cfg.group_count ≤ id := Nat.not_le.mpr hrange
  have hni : ¬ e.pins_count ≤ index := Nat.not_le.mpr hindex
  have hnf : ¬ index + ((e.pins_count - index) &&& 0xfff) > e.pins.length := Nat.not_lt.mpr hfit
  simp only [scmi_pinctrl_list_assoc_handler, list_assoc_case, hagent, ne_eq,
    not_true_eq_false, if_false, ge_iff_le, hnv, hsel, hid, hidx, selector_group_ne_pin,
    if_true, hnr, he, hbit, hni, hmalloc, hnf]

/-- The group case of list associations when all three checks pass and at most
4095 members remain from `index` on: Success, the flags word is the number of
remaining members and the array holds them in order. -/
theorem list_assoc_group_success (p : Platform) (api : mod_scmi_from_protocol_api)
    (cfg : mod_scmi_pinctrl_config) (ctx : scmi_pinctrl_context)
    (service_id : Nat) (payload : Nat → Nat) (a id index : Nat)
    (e : scmi_pinctrl_group_data)
    (hagent : api.get_agent_id service_id = (fwk_status.FWK_SUCCESS, a))
    (hvalid : a < p.SCMI_AGENT_TYPE_COUNT)
    (hmalloc : ∀ n, api.malloc_ok n = true)
    (hsel : payload_word payload 1 &&& SCMI_PINCTRL_SELECTOR_MASK = SCMI_PINCTRL_SELECTOR_GROUP)
    (hid : payload_word payload 0 &&& 0xffff = id)
    (hidx : payload_word payload 2 = index)
    (hrange : id < cfg.group_count)
    (he : cfg.group_table[id]? = some e)
    (hbit : permitted e.agent_permission a = true)
    (hwf : e.pins.length = e.pins_count)
    (hindex : index < e.pins_count)
    (hsmall : e.pins_count - index ≤ 4095) :
    scmi_pinctrl_list_assoc_handler p api cfg ctx service_id payload
      = respond api service_id ctx
          (ResponsePayload.list_assoc scmi_error.SCMI_SUCCESS (some (e.pins_count - index))
            (e.pins.drop index)) 8 := by
  have hmask : (e.pins_count - index) &&& 0xfff = e.pins_count - index := by
    have h := Nat.and_pow_two_sub_one_eq_mod (e.pins_count - index) 12
    have h2 : (2 : Nat) ^ 12 - 1 = 0xfff := by decide
    rw [h2] at h
    rw [h]
    exact Nat.mod_eq_of_lt (by omega)
  have htake : (e.pins.drop index).take (e.pins_count - index) = e.pins.drop index := by
    apply List.take_of_length_le
    rw [List.length_drop]
    omega
  have h := list_assoc_group_eq p api cfg ctx service_id payload a id index e hagent hvalid
    hmalloc hsel hid hidx hrange he hbit hindex (by rw [hmask]; omega)
  rw [hmask, htake] at h
  exact h

/-- Every response of the list associations handler is handed over with a byte
count of 8. -/
theorem list_assoc_response_size (p : Platform) (api : mod_scmi_from_protocol_api)
    (cfg : mod_scmi_pinctrl_config) (ctx : scmi_pinctrl_context)
    (service_id : Nat) (payload : Nat → Nat) :
    (scmi_pinctrl_list_assoc_handler p api cfg ctx service_id payload).responses.all
      (fun r => r.size == 8) = true := by
  simp only [scmi_pinctrl_list_assoc_handler, list_assoc_case]
  repeat' split
  all_goals rfl

/-- C24 (function case fails): with one group and two functions, function 1 is in
range, permitted to agent 0 and has one member, so index 0 passes all three
checks, yet the answer is NotFound; on the product configuration the function
identifier 4, which is out of range, is not answered NotFound: the handler
indexes the function table out of bounds. -/
theorem list_assoc_function_checks :
    resource_count one_group_two_functions SCMI_PINCTRL_SELECTOR_FUNCTION = 2 ∧
      resource_permission one_group_two_functions SCMI_PINCTRL_SELECTOR_FUNCTION 1 = some 1 ∧
      permitted 1 0 = true ∧
      (one_group_two_functions.function_table.map (fun e => e.groups_count))[1]? = some 1 ∧
      (scmi_pinctrl_list_assoc_handler sample_platform (agent_api 0) one_group_two_functions
        (init_ctx one_group_two_functions) 0
        (words [1, SCMI_PINCTRL_SELECTOR_FUNCTION, 0])).statuses
        = [scmi_error.SCMI_NOT_FOUND] ∧
      resource_count config_scmi_pinctrl SCMI_PINCTRL_SELECTOR_FUNCTION = 4 ∧
      scmi_pinctrl_list_assoc_handler sample_platform (agent_api 1) config_scmi_pinctrl
        (init_ctx config_scmi_pinctrl) 0 (words [4, SCMI_PINCTRL_SELECTOR_FUNCTION, 0])
        = memory_fault (init_ctx config_scmi_pinctrl) := by
  decide

/-- C25 (fails): on the product configuration, with seven groups and four
functions, the function identifiers 4, 5 and 6 pass the range check and the
function table is indexed out of bounds, while 7 is answered NotFound; with
one group and two functions the identifier 1, below the function count, is
answered NotFound, although name get finds the same function. -/
theorem list_assoc_function_range_uses_group_count :
    config_scmi_pinctrl.group_count = 7 ∧ config_scmi_pinctrl.function_count = 4 ∧
      (scmi_pinctrl_list_assoc_handler sample_platform (agent_api 1) config_scmi_pinctrl
        (init_ctx config_scmi_pinctrl) 0 (words [5, SCMI_PINCTRL_SELECTOR_FUNCTION, 0])).exit
        = Exit.fault ∧
      (scmi_pinctrl_list_assoc_handler sample_platform (agent_api 1) config_scmi_pinctrl
        (init_ctx config_scmi_pinctrl) 0 (words [6, SCMI_PINCTRL_SELECTOR_FUNCTION, 0])).exit
        = Exit.fault ∧
      (scmi_pinctrl_list_assoc_handler sample_platform (agent_api 1) config_scmi_pinctrl
        (init_ctx config_scmi_pinctrl) 0 (words [7, SCMI_PINCTRL_SELECTOR_FUNCTION, 0])).statuses
        = [scmi_error.SCMI_NOT_FOUND] ∧
      one_group_two_functions.group_count = 1 ∧ one_group_two_functions.function_count = 2 ∧
      (scmi_pinctrl_list_assoc_handler sample_platform (agent_api 0) one_group_two_functions
        (init_ctx one_group_two_functions) 0
        (words [1, SCMI_PINCTRL_SELECTOR_FUNCTION, 0])).responses
        = [⟨ResponsePayload.list_assoc scmi_error.SCMI_NOT_FOUND none [], 8⟩] ∧
      (scmi_pinctrl_name_get_handler sample_platform (agent_api 0) one_group_two_functions
        (init_ctx one_group_two_functions) 0
        (words [1, SCMI_PINCTRL_SELECTOR_FUNCTION])).statuses
        = [scmi_error.SCMI_SUCCESS] := by
  decide

/-- C26 (fails): a group of 4096 pins, permitted to agent 0, listed from index 0:
the answer is Success with returned count 0 and no entry, not 4095 entries
with one remaining. -/
theorem list_assoc_count_masked :
    scmi_pinctrl_list_assoc_handler sample_platform (agent_api 0) big_group_catalog
        (init_ctx big_group_catalog) 0 (words [0, SCMI_PINCTRL_SELECTOR_GROUP, 0])
      = respond (agent_api 0) 0 (init_ctx big_group_catalog)
          (ResponsePayload.list_assoc scmi_error.SCMI_SUCCESS (some 0) []) 8 := by
  have h := list_assoc_group_eq sample_platform (agent_api 0) big_group_catalog
    (init_ctx big_group_catalog) 0 (words [0, SCMI_PINCTRL_SELECTOR_GROUP, 0]) 0 0 0
    { name := ascii ("g0"), pins := List.replicate 4096 0, pins_count := 4096,
      agent_permission := 0x01 }
    rfl (by decide) (fun _ => rfl) (by decide) (by decide) (by decide) (by decide) rfl
    (by decide) (by decide)
    (by
      show 0 + ((4096 - 0) &&& 0xfff) ≤ (List.replicate 4096 0).length
      rw [List.length_replicate]
      decide)
  have hmask : (4096 - 0) &&& 0xfff = 0 := by decide
  simp only [hmask, List.take_zero] at h
  exact h

/-- C27 (function case fails): with one group and two functions, function 1 has
one member; index 1, equal to the member count, and index 0, one less, are
both answered NotFound instead of InvalidParameters and Success. -/
theorem list_assoc_function_boundary :
    (one_group_two_functions.function_table.map (fun e => e.groups))[1]? = some [0] ∧
      (scmi_pinctrl_list_assoc_handler sample_platform (agent_api 0) one_group_two_functions
        (init_ctx one_group_two_functions) 0
        (words [1, SCMI_PINCTRL_SELECTOR_FUNCTION, 1])).responses
        = [⟨ResponsePayload.list_assoc scmi_error.SCMI_NOT_FOUND none [], 8⟩] ∧
      (scmi_pinctrl_list_assoc_handler sample_platform (agent_api 0) one_group_two_functions
        (init_ctx one_group_two_functions) 0
        (words [1, SCMI_PINCTRL_SELECTOR_FUNCTION, 0])).responses
        = [⟨ResponsePayload.list_assoc scmi_error.SCMI_NOT_FOUND none [], 8⟩] := by
  decide

/-- C28 (fails): on the product configuration agent 1 lists group 0 from index 0;
the answer is Success with returned count 4 and the entries 0, 1, 2, 3, and
the byte count handed to respond is 8, not 8 + 2 * 4. -/
theorem list_assoc_size_fixed :
    (scmi_pinctrl_list_assoc_handler sample_platform (agent_api 1) config_scmi_pinctrl
        (init_ctx config_scmi_pinctrl) 0 (words [0, SCMI_PINCTRL_SELECTOR_GROUP, 0])).responses
      = [⟨ResponsePayload.list_assoc scmi_error.SCMI_SUCCESS (some 4) [0, 1, 2, 3], 8⟩] := by
  decide

/-! ## The state after init -/

theorem init_loop_all_ok (alloc_ok : Nat → Bool) (config_count : Nat)
    (hall : ∀ k, alloc_ok k = true) :
    ∀ (count call : Nat), init_loop alloc_ok config_count count call
      = some (List.replicate count (initial_pingrp_state config_count)) := by
  intro count
  induction count with
  | zero =>
    intro call
    rfl
  | succ n ih =>
    intro call
    simp only [init_loop, hall, if_true, ih, Option.map_some', List.replicate_succ]

/-- C31: a successful init keeps the configuration and leaves exactly one record
per pin and per group, each with no owner, no function and a zeroed
configuration array of `config_count` entries; init returns `FWK_E_PARAM`
without any state when the configuration data is absent or the element count
is not zero; and it does succeed when the data is present, the element count
is zero and every allocation succeeds. -/
theorem init_state (alloc_ok : Nat → Bool) (module_id element_count : Nat)
    (data : Option mod_scmi_pinctrl_config) (cfg : mod_scmi_pinctrl_config)
    (ctx0 : scmi_pinctrl_context) :
    (scmi_pinctrl_init alloc_ok module_id element_count data
        = (fwk_status.FWK_SUCCESS, some (cfg, ctx0)) →
      data = some cfg ∧
        ctx0.pin_state.length = cfg.pin_count ∧
        ctx0.group_state.length = cfg.group_count ∧
        ∀ st, st ∈ ctx0.pin_state ++ ctx0.group_state →
          st.owner_agent = SCMI_PINCTRL_NO_OWNER ∧
            st.function = SCMI_PINCTRL_NO_FUNCTION ∧
            st.state = SCMI_PINCTRL_PIN_STATE_RELEASED ∧
            st.config = List.replicate cfg.config_count ⟨0, 0⟩) ∧
    (data = none ∨ element_count ≠ 0 →
      scmi_pinctrl_init alloc_ok module_id element_count data
        = (fwk_status.FWK_E_PARAM, none)) ∧
    ((∀ k, alloc_ok k = true) → element_count = 0 → data = some cfg →
      scmi_pinctrl_init alloc_ok module_id element_count data
        = (fwk_status.FWK_SUCCESS, some (cfg, init_ctx cfg))) := by
  refine ⟨fun hinit => ?_, fun hbad => ?_, fun hall hzero hdata => ?_⟩
  · obtain ⟨hd, hc⟩ := init_success alloc_ok module_id element_count data cfg ctx0 hinit
    subst hc
    refine ⟨hd, ?_, ?_, ?_⟩
    · simp only [init_ctx, List.length_replicate]
    · simp only [init_ctx, List.length_replicate]
    · intro st hst
      simp only [init_ctx, List.mem_append, List.mem_replicate] at hst
      rcases hst with ⟨_, h⟩ | ⟨_, h⟩
      · subst h
        exact ⟨rfl, rfl, rfl, rfl⟩
      · subst h
        exact ⟨rfl, rfl, rfl, rfl⟩
  · rcases hbad with h | h
    · subst h
      rfl
    · cases data with
      | none => rfl
      | some c => simp only [scmi_pinctrl_init, h, ne_eq, not_false_eq_true, if_true]
  · subst hdata
    subst hzero
    simp only [scmi_pinctrl_init, ne_eq, not_true_eq_false, if_false, hall,
      init_loop_all_ok alloc_ok cfg.config_count hall, init_ctx, Bool.not_eq_true,
      Bool.true_eq_false]

/-- Witness of C31: init of the product configuration with every allocation
succeeding leaves eighteen pin records and seven group records, and init with
one element returns `FWK_E_PARAM`. -/
theorem init_state_witness :
    scmi_pinctrl_init (fun _ => true) 0 0 (some config_scmi_pinctrl)
        = (fwk_status.FWK_SUCCESS, some (config_scmi_pinctrl, init_ctx config_scmi_pinctrl)) ∧
      (init_ctx config_scmi_pinctrl).pin_state.length = 18 ∧
      (init_ctx config_scmi_pinctrl).group_state.length = 7 ∧
      scmi_pinctrl_init (fun _ => true) 0 1 (some config_scmi_pinctrl)
        = (fwk_status.FWK_E_PARAM, none) :=
  have h := init_state (fun _ => true) 0 0 (some config_scmi_pinctrl) config_scmi_pinctrl
    (init_ctx config_scmi_pinctrl)
  have hs := h.2.2 (fun _ => rfl) rfl rfl
  have hr := h.1 hs
  ⟨hs, hr.2.1, hr.2.2.1,
    (init_state (fun _ => true) 0 1 (some config_scmi_pinctrl) config_scmi_pinctrl
      (init_ctx config_scmi_pinctrl)).2.1 (Or.inr (by decide))⟩

/-! ## What request and release leave untouched -/

theorem resource_state_set_pin (ctx : scmi_pinctrl_context) (id : Nat)
    (st : scmi_pinctrl_pingrp_state) (selector1 id1 : Nat)
    (hne : ¬ (selector1 = SCMI_PINCTRL_SELECTOR_PIN ∧ id1 = id)) :
    resource_state { ctx with pin_state := ctx.pin_state.set id st } selector1 id1
      = resource_state ctx selector1 id1 := by
  unfold resource_state
  by_cases hs : selector1 = SCMI_PINCTRL_SELECTOR_PIN
  · have hi : id ≠ id1 := fun h => hne ⟨hs, h.symm⟩
    simp only [hs, if_true, List.getElem?_set_ne hi]
  · simp only [hs, if_false]

theorem resource_state_set_group (ctx : scmi_pinctrl_context) (id : Nat)
    (st : scmi_pinctrl_pingrp_state) (selector1 id1 : Nat)
    (hne : ¬ (selector1 = SCMI_PINCTRL_SELECTOR_GROUP ∧ id1 = id)) :
    resource_state { ctx with group_state := ctx.group_state.set id st } selector1 id1
      = resource_state ctx selector1 id1 := by
  unfold resource_state
  by_cases hs : selector1 = SCMI_PINCTRL_SELECTOR_PIN
  · simp only [hs, if_true]
  · by_cases hg : selector1 = SCMI_PINCTRL_SELECTOR_GROUP
    · have hi : id ≠ id1 := fun h => hne ⟨hg, h.symm⟩
      simp only [hs, hg, if_true, if_false, List.getElem?_set_ne hi]
    · simp only [hs, hg, if_false]

/-- The request handler leaves the record of every pin and group other than the
one addressed by the masked selector and identifier as it was. -/
theorem request_frame (p : Platform) (api : mod_scmi_from_protocol_api)
    (cfg : mod_scmi_pinctrl_config) (ctx : scmi_pinctrl_context)
    (service_id : Nat) (payload : Nat → Nat) (selector1 id1 : Nat)
    (hne : ¬ (selector1 = payload_word payload 1 &&& SCMI_PINCTRL_SELECTOR_MASK ∧
      id1 = payload_word payload 0 &&& 0xffff)) :
    resource_state (scmi_pinctrl_request_handler p api cfg ctx service_id payload).ctx
        selector1 id1
      = resource_state ctx selector1 id1 := by
  simp only [scmi_pinctrl_request_handler]
  repeat' split
  all_goals first | rfl | skip
  · rename_i hsel _ _ _ _ _ _ _ _ _
    rw [hsel] at hne
    exact resource_state_set_pin ctx _ _ selector1 id1 hne
  · rename_i hsel _ _ _ _ _ _ _ _ _
    rw [hsel] at hne
    exact resource_state_set_group ctx _ _ selector1 id1 hne

/-- The group case of the release handler leaves every pin record and the record
of every other group as it was. -/
theorem release_group_frame (p : Platform) (api : mod_scmi_from_protocol_api)
    (cfg : mod_scmi_pinctrl_config) (ctx : scmi_pinctrl_context)
    (service_id : Nat) (payload : Nat → Nat) (selector1 id1 : Nat)
    (hsel : payload_word payload 1 &&& SCMI_PINCTRL_SELECTOR_MASK = SCMI_PINCTRL_SELECTOR_GROUP)
    (hne : ¬ (selector1 = SCMI_PINCTRL_SELECTOR_GROUP ∧
      id1 = payload_word payload 0 &&& 0xffff)) :
    resource_state (scmi_pinctrl_release_handler p api cfg ctx service_id payload).ctx
        selector1 id1
      = resource_state ctx selector1 id1 := by
  simp only [scmi_pinctrl_release_handler, hsel, selector_group_ne_pin, if_false, if_true]
  repeat' split
  all_goals first | rfl | exact resource_state_set_group ctx _ _ selector1 id1 hne

/-- C33 (release with the pin selector fails): agent 0 owns pin 0 and agent 1 owns
group 0, both permitted on both; the release of pin 0 by agent 0 addresses the
pin, yet the record of pin 0 is unchanged and the record of group 0, which is
not addressed, loses its owner. -/
theorem release_pin_changes_group_state :
    payload_word (words [0, 0]) 1 &&& SCMI_PINCTRL_SELECTOR_MASK = SCMI_PINCTRL_SELECTOR_PIN ∧
      resource_state ⟨[owned_by 0], [owned_by 1]⟩ SCMI_PINCTRL_SELECTOR_GROUP 0
        = some (owned_by 1) ∧
      resource_state
        (scmi_pinctrl_release_handler sample_platform (agent_api 0) (one_pin_one_group 3 3)
          ⟨[owned_by 0], [owned_by 1]⟩ 0 (words [0, 0])).ctx SCMI_PINCTRL_SELECTOR_GROUP 0
        = some (owned_by SCMI_PINCTRL_NO_OWNER) ∧
      resource_state
        (scmi_pinctrl_release_handler sample_platform (agent_api 0) (one_pin_one_group 3 3)
          ⟨[owned_by 0], [owned_by 1]⟩ 0 (words [0, 0])).ctx SCMI_PINCTRL_SELECTOR_PIN 0
        = some (owned_by 0) ∧
      (scmi_pinctrl_release_handler sample_platform (agent_api 0) (one_pin_one_group 3 3)
          ⟨[owned_by 0], [owned_by 1]⟩ 0 (words [0, 0])).statuses
        = [scmi_error.SCMI_SUCCESS] := by
  decide

/-! ## Two requests, one after the other -/

/-- Two request calls for the same unowned, in-range pin or group, the first by
agent `a` and the second by agent `b`, both permitted, run one after the
other: the first is answered Success, the second InUse, and `a` is the owner
at the end.  This is the sequential composition only; the handlers contain no
lock, so it says nothing about executions that overlap. -/
theorem sequential_requests_one_success (p : Platform)
    (api_a api_b : mod_scmi_from_protocol_api)
    (cfg : mod_scmi_pinctrl_config) (ctx : scmi_pinctrl_context)
    (service_a service_b : Nat) (payload : Nat → Nat) (a b selector id perm : Nat)
    (st : scmi_pinctrl_pingrp_state)
    (hagent_a : api_a.get_agent_id service_a = (fwk_status.FWK_SUCCESS, a))
    (hagent_b : api_b.get_agent_id service_b = (fwk_status.FWK_SUCCESS, b))
    (hvalid_a : a < p.SCMI_AGENT_TYPE_COUNT)
    (hvalid_b : b < p.SCMI_AGENT_TYPE_COUNT)
    (hno : a ≠ SCMI_PINCTRL_NO_OWNER)
    (hsel : payload_word payload 1 &&& SCMI_PINCTRL_SELECTOR_MASK = selector)
    (hpg : selector = SCMI_PINCTRL_SELECTOR_PIN ∨ selector = SCMI_PINCTRL_SELECTOR_GROUP)
    (hid : payload_word payload 0 &&& 0xffff = id)
    (hrange : id < resource_count cfg selector)
    (hperm : resource_permission cfg selector id = some perm)
    (hbit_a : permitted perm a = true)
    (hbit_b : permitted perm b = true)
    (hst : resource_state ctx selector id = some st)
    (hfree : st.owner_agent = SCMI_PINCTRL_NO_OWNER) :
    (scmi_pinctrl_request_handler p api_a cfg ctx service_a payload).statuses
        = [scmi_error.SCMI_SUCCESS] ∧
      (scmi_pinctrl_request_handler p api_b cfg
        (scmi_pinctrl_request_handler p api_a cfg ctx service_a payload).ctx
        service_b payload).statuses = [scmi_error.SCMI_IN_USE] ∧
      resource_owner
        (scmi_pinctrl_request_handler p api_b cfg
          (scmi_pinctrl_request_handler p api_a cfg ctx service_a payload).ctx
          service_b payload).ctx selector id = some a := by
  have hnva : ¬ p.SCMI_AGENT_TYPE_COUNT ≤ a := Nat.not_le.mpr hvalid_a
  have hnvb : ¬ p.SCMI_AGENT_TYPE_COUNT ≤ b := Nat.not_le.mpr hvalid_b
  rcases hpg with hs | hs
  · subst hs
    simp only [resource_count, resource_permission, resource_state, if_true] at hrange hperm hst
    obtain ⟨e, he, hpe⟩ := Option.map_eq_some'.mp hperm
    have hnr : ¬ cfg.pin_count ≤ id := Nat.not_le.mpr hrange
    have hlt := (List.getElem?_eq_some.mp hst).1
    subst hpe
    have h1 : scmi_pinctrl_request_handler p api_a cfg ctx service_a payload
        = respond api_a service_a
            { ctx with pin_state := ctx.pin_state.set id { st with owner_agent := a } }
            (ResponsePayload.return_value scmi_error.SCMI_SUCCESS) 4 := by
      simp [scmi_pinctrl_request_handler, hagent_a, hnva, hsel, hid, hnr, he, hbit_a, hst, hfree]
    rw [h1, respond_ctx]
    refine ⟨rfl, ?_, ?_⟩
    · simp [scmi_pinctrl_request_handler, hagent_b, hnvb, hsel, hid, hnr, he, hbit_b,
        List.getElem?_set, hlt, hno, respond_statuses, ResponsePayload.status]
    · simp [scmi_pinctrl_request_handler, hagent_b, hnvb, hsel, hid, hnr, he, hbit_b,
        List.getElem?_set, hlt, hno, respond_ctx, resource_owner, resource_state]
  · subst hs
    simp only [resource_count, resource_permission, resource_state, selector_group_ne_pin,
      if_true, if_false] at hrange hperm hst
    obtain ⟨e, he, hpe⟩ := Option.map_eq_some'.mp hperm
    have hnr : ¬ cfg.group_count ≤ id := Nat.not_le.mpr hrange
    have hlt := (List.getElem?_eq_some.mp hst).1
    subst hpe
    have h1 : scmi_pinctrl_request_handler p api_a cfg ctx service_a payload
        = respond api_a service_a
            { ctx with group_state := ctx.group_state.set id { st with owner_agent := a } }
            (ResponsePayload.return_value scmi_error.SCMI_SUCCESS) 4 := by
      simp [scmi_pinctrl_request_handler, hagent_a, hnva, hsel, hid, hnr, he, hbit_a, hst, hfree,
        selector_group_ne_pin]
    rw [h1, respond_ctx]
    refine ⟨rfl, ?_, ?_⟩
    · simp [scmi_pinctrl_request_handler, hagent_b, hnvb, hsel, hid, hnr, he, hbit_b,
        List.getElem?_set, hlt, hno, respond_statuses, ResponsePayload.status,
        selector_group_ne_pin]
    · simp [scmi_pinctrl_request_handler, hagent_b, hnvb, hsel, hid, hnr, he, hbit_b,
        List.getElem?_set, hlt, hno, respond_ctx, resource_owner, resource_state,
        selector_group_ne_pin]

/-! ## The store past the end of the group state array on the product configuration -/

/-- On the product configuration, 18 pins and 7 groups, agent 1 requests pin 10
and then releases it.  The release is answered Success, its store goes to
`group_state[10]`, past the 7 records of the array, and pin 10 is still owned
by agent 1. -/
theorem release_pin_stores_past_group_state :
    run_trace sample_platform config_scmi_pinctrl (init_ctx config_scmi_pinctrl)
        [(1, true, 10, 0)]
      = some ([scmi_error.SCMI_SUCCESS],
          { init_ctx config_scmi_pinctrl with
            pin_state := (init_ctx config_scmi_pinctrl).pin_state.set 10
              { initial_pingrp_state SCMI_PINCTRL_CONFIG_COUNT with owner_agent := 1 } }) ∧
    scmi_pinctrl_message_handler sample_platform (agent_api 1) config_scmi_pinctrl 0
        { init_ctx config_scmi_pinctrl with
          pin_state := (init_ctx config_scmi_pinctrl).pin_state.set 10
            { initial_pingrp_state SCMI_PINCTRL_CONFIG_COUNT with owner_agent := 1 } }
        0 0 (words [10, 0]) 8 8
      = respond_after_stray_store (agent_api 1) 0
          { init_ctx config_scmi_pinctrl with
            pin_state := (init_ctx config_scmi_pinctrl).pin_state.set 10
              { initial_pingrp_state SCMI_PINCTRL_CONFIG_COUNT with owner_agent := 1 } }
          10 SCMI_PINCTRL_NO_OWNER (ResponsePayload.return_value scmi_error.SCMI_SUCCESS) 4 := by
  decide

/-! ## The scenario of the specification -/

/-- The pin case of the release handler called by the owner of the pin answers
Success and returns, whether or not `group_state` has a record at the pin
identifier, and leaves every pin record as it was. -/
theorem release_owned_pin_answers_success (p : Platform) (api : mod_scmi_from_protocol_api)
    (cfg : mod_scmi_pinctrl_config) (ctx : scmi_pinctrl_context)
    (service_id : Nat) (payload : Nat → Nat) (a id : Nat)
    (e : scmi_pinctrl_pin_data) (pst : scmi_pinctrl_pingrp_state)
    (hagent : api.get_agent_id service_id = (fwk_status.FWK_SUCCESS, a))
    (hvalid : a < p.SCMI_AGENT_TYPE_COUNT)
    (hsel : payload_word payload 1 &&& SCMI_PINCTRL_SELECTOR_MASK = SCMI_PINCTRL_SELECTOR_PIN)
    (hid : payload_word payload 0 &&& 0xffff = id)
    (hrange : id < cfg.pin_count)
    (he : cfg.pin_table[id]? = some e)
    (hbit : permitted e.agent_permission a = true)
    (hst : ctx.pin_state[id]? = some pst)
    (hown : pst.owner_agent = a) :
    (scmi_pinctrl_release_handler p api cfg ctx service_id payload).statuses
        = [scmi_error.SCMI_SUCCESS] ∧
      (scmi_pinctrl_release_handler p api cfg ctx service_id payload).exit
        = Exit.returned (api.respond_status service_id
            ⟨ResponsePayload.return_value scmi_error.SCMI_SUCCESS, 4⟩) ∧
      (scmi_pinctrl_release_handler p api cfg ctx service_id payload).ctx.pin_state
        = ctx.pin_state := by
  have hnv : ¬ p.SCMI_AGENT_TYPE_COUNT ≤ a := Nat.not_le.mpr hvalid
  have hnr : ¬ cfg.pin_count ≤ id := Nat.not_le.mpr hrange
  cases hg : ctx.group_state[id]? with
  | none =>
    simp [scmi_pinctrl_release_handler, hagent, hnv, hsel, hid, hnr, he, hbit, hst, hown, hg,
      respond_after_stray_store, Outcome.statuses, ResponsePayload.status]
  | some gst =>
    simp [scmi_pinctrl_release_handler, hagent, hnv, hsel, hid, hnr, he, hbit, hst, hown, hg,
      respond, Outcome.statuses, ResponsePayload.status]

/-- C9: on every catalog of two pins on which agent 0 is permitted on pin 0 only,
whatever its groups and functions, starting from the context a successful init
leaves, the calls Request(Pin,0), Request(Pin,0), Request(Pin,1),
Release(Pin,0), Release(Pin,0) of agent 0 through the entry point all return,
and the statuses answered are Success, InUse, Denied, Success, Success in that
order. -/
theorem two_pin_scenario_statuses (alloc_ok : Nat → Bool) (module_id element_count : Nat)
    (data : Option mod_scmi_pinctrl_config)
    (cfg : mod_scmi_pinctrl_config) (ctx0 : scmi_pinctrl_context)
    (e0 e1 : scmi_pinctrl_pin_data)
    (hinit : scmi_pinctrl_init alloc_ok module_id element_count data
      = (fwk_status.FWK_SUCCESS, some (cfg, ctx0)))
    (hpins : cfg.pin_table = [e0, e1])
    (hcount : cfg.pin_count = 2)
    (hperm0 : permitted e0.agent_permission 0 = true)
    (hperm1 : permitted e1.agent_permission 0 = false) :
    (run_trace sample_platform cfg ctx0
        [(0, true, 0, 0), (0, true, 0, 0), (0, true, 1, 0), (0, false, 0, 0),
          (0, false, 0, 0)]).map (fun r => r.1)
      = some [scmi_error.SCMI_SUCCESS, scmi_error.SCMI_IN_USE, scmi_error.SCMI_DENIED,
          scmi_error.SCMI_SUCCESS, scmi_error.SCMI_SUCCESS] := by
  have h0 := (init_success alloc_ok module_id element_count data cfg ctx0 hinit).2
  subst h0
  have hreq : ∀ (ctx : scmi_pinctrl_context) (payload : Nat → Nat),
      scmi_pinctrl_message_handler sample_platform (agent_api 0) cfg 0 ctx 0 0 payload 8
          sample_platform.MOD_SCMI_PIN_CONTROL_REQUEST
        = scmi_pinctrl_request_handler sample_platform (agent_api 0) cfg ctx 0 payload :=
    fun ctx payload =>
      message_handler_selected sample_platform (agent_api 0) cfg 0 ctx 0 0 payload 8 _ 0
        Handler.request rfl (by decide) (by decide)
  have hrel : ∀ (ctx : scmi_pinctrl_context) (payload : Nat → Nat),
      scmi_pinctrl_message_handler sample_platform (agent_api 0) cfg 0 ctx 0 0 payload 8
          sample_platform.MOD_SCMI_PIN_CONTROL_RELEASE
        = scmi_pinctrl_release_handler sample_platform (agent_api 0) cfg ctx 0 payload :=
    fun ctx payload =>
      message_handler_selected sample_platform (agent_api 0) cfg 0 ctx 0 0 payload 8 _ 0
        Handler.release rfl (by decide) (by decide)
  have hw0 : payload_word (words [0, 0]) 0 &&& 0xffff = 0 := by decide
  have hw1 : payload_word (words [1, 0]) 0 &&& 0xffff = 1 := by decide
  have hs0 : payload_word (words [0, 0]) 1 &&& SCMI_PINCTRL_SELECTOR_MASK
      = SCMI_PINCTRL_SELECTOR_PIN := by decide
  have hs1 : payload_word (words [1, 0]) 1 &&& SCMI_PINCTRL_SELECTOR_MASK
      = SCMI_PINCTRL_SELECTOR_PIN := by decide
  have hag : (agent_api 0).get_agent_id 0 = (fwk_status.FWK_SUCCESS, 0) := rfl
  have hnv : ¬ sample_platform.SCMI_AGENT_TYPE_COUNT ≤ 0 := by decide
  have hno : (0 : Nat) ≠ SCMI_PINCTRL_NO_OWNER := by decide
  obtain ⟨c1, hc1⟩ : ∃ c1 : scmi_pinctrl_context, c1 =
      ⟨[{ initial_pingrp_state cfg.config_count with owner_agent := 0 },
        initial_pingrp_state cfg.config_count], (init_ctx cfg).group_state⟩ := ⟨_, rfl⟩
  have hp1 : c1.pin_state = [{ initial_pingrp_state cfg.config_count with owner_agent := 0 },
      initial_pingrp_state cfg.config_count] := by rw [hc1]
  have h1 : scmi_pinctrl_request_handler sample_platform (agent_api 0) cfg (init_ctx cfg) 0
        (words [0, 0])
      = respond (agent_api 0) 0 c1 (ResponsePayload.return_value scmi_error.SCMI_SUCCESS) 4 := by
    rw [hc1]
    simp [scmi_pinctrl_request_handler, hag, hnv, hw0, hs0, hcount, hpins, hperm0, init_ctx,
      List.replicate, initial_pingrp_state]
  have h2 : scmi_pinctrl_request_handler sample_platform (agent_api 0) cfg c1 0 (words [0, 0])
      = respond (agent_api 0) 0 c1 (ResponsePayload.return_value scmi_error.SCMI_IN_USE) 4 := by
    simp [scmi_pinctrl_request_handler, hag, hnv, hw0, hs0, hcount, hpins, hperm0, hno, hp1]
  have h3 : scmi_pinctrl_request_handler sample_platform (agent_api 0) cfg c1 0 (words [1, 0])
      = respond (agent_api 0) 0 c1 (ResponsePayload.return_value scmi_error.SCMI_DENIED) 4 := by
    simp [scmi_pinctrl_request_handler, hag, hnv, hw1, hs1, hcount, hpins, hperm1]
  have h4 : ∀ ctx : scmi_pinctrl_context, ctx.pin_state = c1.pin_state →
      (scmi_pinctrl_release_handler sample_platform (agent_api 0) cfg ctx 0
          (words [0, 0])).statuses = [scmi_error.SCMI_SUCCESS] ∧
        (scmi_pinctrl_release_handler sample_platform (agent_api 0) cfg ctx 0
          (words [0, 0])).exit = Exit.returned fwk_status.FWK_SUCCESS ∧
        (scmi_pinctrl_release_handler sample_platform (agent_api 0) cfg ctx 0
          (words [0, 0])).ctx.pin_state = c1.pin_state := by
    intro ctx hctx
    have h := release_owned_pin_answers_success sample_platform (agent_api 0) cfg ctx 0 (words [0, 0]) 0 0 e0
      { initial_pingrp_state cfg.config_count with owner_agent := 0 } hag (by decide) hs0 hw0
      (by rw [hcount]; decide) (by rw [hpins]; rfl) hperm0 (by rw [hctx, hp1]; rfl) rfl
    exact ⟨h.1, h.2.1, h.2.2.trans hctx⟩
  have hrun : ∀ (ctx : scmi_pinctrl_context) (is_request : Bool) (identifier flags : Nat)
      (rest : List (Nat × Bool × Nat × Nat)) (s : fwk_status) (o : Outcome),
      scmi_pinctrl_message_handler sample_platform (agent_api 0) cfg 0 ctx 0 0
          (words [identifier, flags]) 8
          (if is_request then sample_platform.MOD_SCMI_PIN_CONTROL_REQUEST
            else sample_platform.MOD_SCMI_PIN_CONTROL_RELEASE) = o →
      o.exit = Exit.returned s →
      (run_trace sample_platform cfg ctx ((0, is_request, identifier, flags) :: rest)).map
          (fun r => r.1)
        = ((run_trace sample_platform cfg o.ctx rest).map (fun r => r.1)).map
            (fun l => o.statuses ++ l) := by
    intro ctx is_request identifier flags rest s o ho hexit
    subst ho
    simp only [run_trace, hexit, Option.map_map]
    rfl
  have e1 := hrun (init_ctx cfg) true 0 0
    [(0, true, 0, 0), (0, true, 1, 0), (0, false, 0, 0), (0, false, 0, 0)]
    fwk_status.FWK_SUCCESS
    (respond (agent_api 0) 0 c1 (ResponsePayload.return_value scmi_error.SCMI_SUCCESS) 4)
    (by rw [if_pos rfl, hreq, h1]) rfl
  have e2 := hrun c1 true 0 0 [(0, true, 1, 0), (0, false, 0, 0), (0, false, 0, 0)]
    fwk_status.FWK_SUCCESS
    (respond (agent_api 0) 0 c1 (ResponsePayload.return_value scmi_error.SCMI_IN_USE) 4)
    (by rw [if_pos rfl, hreq, h2]) rfl
  have e3 := hrun c1 true 1 0 [(0, false, 0, 0), (0, false, 0, 0)]
    fwk_status.FWK_SUCCESS
    (respond (agent_api 0) 0 c1 (ResponsePayload.return_value scmi_error.SCMI_DENIED) 4)
    (by rw [if_pos rfl, hreq, h3]) rfl
  have h4a := h4 c1 rfl
  have e4 := hrun c1 false 0 0 [(0, false, 0, 0)] fwk_status.FWK_SUCCESS
    (scmi_pinctrl_release_handler sample_platform (agent_api 0) cfg c1 0 (words [0, 0]))
    (by rw [if_neg (by decide), hrel]) h4a.2.1
  have h4b := h4 _ h4a.2.2
  have e5 := hrun
    (scmi_pinctrl_release_handler sample_platform (agent_api 0) cfg c1 0 (words [0, 0])).ctx
    false 0 0 [] fwk_status.FWK_SUCCESS
    (scmi_pinctrl_release_handler sample_platform (agent_api 0) cfg
      (scmi_pinctrl_release_handler sample_platform (agent_api 0) cfg c1 0 (words [0, 0])).ctx
      0 (words [0, 0]))
    (by rw [if_neg (by decide), hrel]) h4b.2.1
  rw [e1, respond_ctx, respond_statuses, e2, respond_ctx, respond_statuses, e3, respond_ctx,
    respond_statuses, e4, h4a.1, e5, h4b.1]
  rfl

/-- Witness of C9: the catalog of two pins without groups and functions. -/
theorem two_pin_scenario_statuses_witness :
    (run_trace sample_platform two_pins (init_ctx two_pins)
        [(0, true, 0, 0), (0, true, 0, 0), (0, true, 1, 0), (0, false, 0, 0),
          (0, false, 0, 0)]).map (fun r => r.1)
      = some [scmi_error.SCMI_SUCCESS, scmi_error.SCMI_IN_USE, scmi_error.SCMI_DENIED,
          scmi_error.SCMI_SUCCESS, scmi_error.SCMI_SUCCESS] :=
  two_pin_scenario_statuses (fun _ => true) 0 0 (some two_pins) two_pins (init_ctx two_pins)
    _ _ (by decide) rfl rfl (by decide) (by decide)

/-! ## Two requests that overlap -/

/-- The request handler is its first part followed, on the same context, by its
second part. -/
theorem request_handler_read_then_store (p : Platform) (api : mod_scmi_from_protocol_api)
    (cfg : mod_scmi_pinctrl_config) (ctx : scmi_pinctrl_context)
    (service_id : Nat) (payload : Nat → Nat) :
    scmi_pinctrl_request_handler p api cfg ctx service_id payload
      = (scmi_pinctrl_request_read p api cfg ctx service_id payload).finish api service_id
          ctx := by
  simp only [scmi_pinctrl_request_handler, scmi_pinctrl_request_read]
  repeat' split
  all_goals first
    | rfl
    | (rename_i hst _
       simp only [RequestProgress.finish, scmi_pinctrl_request_store, selector_group_ne_pin,
         if_true, if_false, hst])

/-- C32 (fails): agents 0 and 1 are both permitted on pin 0 and on group 0, which
are unowned after init.  When their two request calls for pin 0 overlap, each
reading the owner field before the other stores, both are answered Success
and agent 1 is the owner at the end; the same holds for group 0.  Run one
after the other, the two calls are answered Success and InUse. -/
theorem overlapped_requests_both_succeed :
    permitted 3 0 = true ∧ permitted 3 1 = true ∧
      resource_owner (init_ctx (one_pin_one_group 3 3)) SCMI_PINCTRL_SELECTOR_PIN 0
        = some SCMI_PINCTRL_NO_OWNER ∧
      resource_owner (init_ctx (one_pin_one_group 3 3)) SCMI_PINCTRL_SELECTOR_GROUP 0
        = some SCMI_PINCTRL_NO_OWNER ∧
      (overlapped_requests sample_platform (agent_api 0) (agent_api 1) (one_pin_one_group 3 3)
        (init_ctx (one_pin_one_group 3 3)) 0 0 (words [0, 0]) (words [0, 0])).1.statuses
        = [scmi_error.SCMI_SUCCESS] ∧
      (overlapped_requests sample_platform (agent_api 0) (agent_api 1) (one_pin_one_group 3 3)
        (init_ctx (one_pin_one_group 3 3)) 0 0 (words [0, 0]) (words [0, 0])).2.statuses
        = [scmi_error.SCMI_SUCCESS] ∧
      resource_owner
        (overlapped_requests sample_platform (agent_api 0) (agent_api 1) (one_pin_one_group 3 3)
          (init_ctx (one_pin_one_group 3 3)) 0 0 (words [0, 0]) (words [0, 0])).2.ctx
        SCMI_PINCTRL_SELECTOR_PIN 0 = some 1 ∧
      (overlapped_requests sample_platform (agent_api 0) (agent_api 1) (one_pin_one_group 3 3)
        (init_ctx (one_pin_one_group 3 3)) 0 0 (words [0, 1]) (words [0, 1])).1.statuses
        = [scmi_error.SCMI_SUCCESS] ∧
      (overlapped_requests sample_platform (agent_api 0) (agent_api 1) (one_pin_one_group 3 3)
        (init_ctx (one_pin_one_group 3 3)) 0 0 (words [0, 1]) (words [0, 1])).2.statuses
        = [scmi_error.SCMI_SUCCESS] ∧
      resource_owner
        (overlapped_requests sample_platform (agent_api 0) (agent_api 1) (one_pin_one_group 3 3)
          (init_ctx (one_pin_one_group 3 3)) 0 0 (words [0, 1]) (words [0, 1])).2.ctx
        SCMI_PINCTRL_SELECTOR_GROUP 0 = some 1 ∧
      run_trace sample_platform (one_pin_one_group 3 3) (init_ctx (one_pin_one_group 3 3))
        [(0, true, 0, 0), (1, true, 0, 0)]
        = some ([scmi_error.SCMI_SUCCESS, scmi_error.SCMI_IN_USE],
            ⟨[{ initial_pingrp_state 0 with owner_agent := 0 }], [initial_pingrp_state 0]⟩) := by
  decide

end ScmiPinctrl
